import Mathlib

/-!
# StarFive clock controller (`sys/arch/riscv64/dev/stfclock.c`)

A shallow embedding of the frequency resolvers, the clock gates and the reset
lines of the JH7100 / JH7110 clock generators.  Machine integers are natural
numbers with explicit reductions modulo `2^32` / `2^64` where the C code
computes in `uint32_t` / `uint64_t`.  The recursive functions take a fuel
argument (the C code has no cycle guard); an integer division by zero is an
explicit fault, not a value.  Operations that write registers pass a `Machine`
along: the controller state, the writes made and the lines printed.
-/

namespace Stfclock

/-! ## Clock identifiers -/

/- JH7100 Clock IDs -/
abbrev JH7100_CLK_CPUNDBUS_ROOT : Nat := 0
abbrev JH7100_CLK_GMACUSB_ROOT : Nat := 3
abbrev JH7100_CLK_PERH0_ROOT : Nat := 4
abbrev JH7100_CLK_PERH1_ROOT : Nat := 5
abbrev JH7100_CLK_CPUNBUS_ROOT_DIV : Nat := 12
abbrev JH7100_CLK_PERH0_SRC : Nat := 14
abbrev JH7100_CLK_PERH1_SRC : Nat := 15
abbrev JH7100_CLK_PLL2_REF : Nat := 19
abbrev JH7100_CLK_AHB_BUS : Nat := 22
abbrev JH7100_CLK_SDIO0_AHB : Nat := 114
abbrev JH7100_CLK_SDIO0_CCLKINT : Nat := 115
abbrev JH7100_CLK_SDIO0_CCLKINT_INV : Nat := 116
abbrev JH7100_CLK_SDIO1_AHB : Nat := 117
abbrev JH7100_CLK_SDIO1_CCLKINT : Nat := 118
abbrev JH7100_CLK_SDIO1_CCLKINT_INV : Nat := 119
abbrev JH7100_CLK_GMAC_AHB : Nat := 120
abbrev JH7100_CLK_GMAC_ROOT_DIV : Nat := 121
abbrev JH7100_CLK_GMAC_GTX : Nat := 123
abbrev JH7100_CLK_UART0_CORE : Nat := 147
abbrev JH7100_CLK_UART3_CORE : Nat := 162
abbrev JH7100_CLK_TEMP_APB : Nat := 183
abbrev JH7100_CLK_TEMP_SENSE : Nat := 184
abbrev JH7100_CLK_PLL0_OUT : Nat := 186
abbrev JH7100_CLK_PLL1_OUT : Nat := 187
abbrev JH7100_CLK_PLL2_OUT : Nat := 188

abbrev JH7100_CLK_OSC_SYS : Nat := 255
abbrev JH7100_CLK_OSC_AUD : Nat := 254

/- JH7110 Clock IDs -/
abbrev JH7110_AONCLK_GMAC0_AHB : Nat := 2
abbrev JH7110_AONCLK_GMAC0_AXI : Nat := 3
abbrev JH7110_AONCLK_GMAC0_RMII_RTX : Nat := 4
abbrev JH7110_AONCLK_GMAC0_TX : Nat := 5
abbrev JH7110_AONCLK_GMAC0_TX_INV : Nat := 6

abbrev JH7110_AONCLK_OSC : Nat := 14
abbrev JH7110_AONCLK_GMAC0_RMII_REFIN : Nat := 15
abbrev JH7110_AONCLK_STG_AXIAHB : Nat := 17
abbrev JH7110_AONCLK_GMAC0_GTXCLK : Nat := 19

abbrev JH7110_AONCLK_ASSERT_OFFSET : Nat := 0x38
abbrev JH7110_AONCLK_STATUS_OFFSET : Nat := 0x3c

abbrev JH7110_CLK_PLL0_OUT : Nat := 0
abbrev JH7110_CLK_PLL1_OUT : Nat := 1
abbrev JH7110_CLK_PLL2_OUT : Nat := 2

abbrev JH7110_STGCLK_PCIE0_AXI_MST0 : Nat := 8
abbrev JH7110_STGCLK_PCIE0_APB : Nat := 9
abbrev JH7110_STGCLK_PCIE0_TL : Nat := 10
abbrev JH7110_STGCLK_PCIE1_AXI_MST0 : Nat := 11
abbrev JH7110_STGCLK_PCIE1_APB : Nat := 12
abbrev JH7110_STGCLK_PCIE1_TL : Nat := 13

abbrev JH7110_STGCLK_ASSERT_OFFSET : Nat := 0x74
abbrev JH7110_STGCLK_STATUS_OFFSET : Nat := 0x78

abbrev JH7110_SYSCLK_CPU_ROOT : Nat := 0
abbrev JH7110_SYSCLK_CPU_CORE : Nat := 1
abbrev JH7110_SYSCLK_CPU_BUS : Nat := 2
abbrev JH7110_SYSCLK_BUS_ROOT : Nat := 5
abbrev JH7110_SYSCLK_AXI_CFG0 : Nat := 7
abbrev JH7110_SYSCLK_STG_AXIAHB : Nat := 8
abbrev JH7110_SYSCLK_AHB0 : Nat := 9
abbrev JH7110_SYSCLK_AHB1 : Nat := 10
abbrev JH7110_SYSCLK_APB_BUS : Nat := 11

abbrev JH7110_SYSCLK_SDIO0_AHB : Nat := 91
abbrev JH7110_SYSCLK_SDIO1_AHB : Nat := 92
abbrev JH7110_SYSCLK_SDIO0_SDCARD : Nat := 93
abbrev JH7110_SYSCLK_SDIO1_SDCARD : Nat := 94
abbrev JH7110_SYSCLK_NOC_BUS_STG_AXI : Nat := 96
abbrev JH7110_SYSCLK_GMAC1_AHB : Nat := 97
abbrev JH7110_SYSCLK_GMAC1_AXI : Nat := 98
abbrev JH7110_SYSCLK_GMAC1_GTXCLK : Nat := 100
abbrev JH7110_SYSCLK_GMAC1_RMII_RTX : Nat := 101
abbrev JH7110_SYSCLK_GMAC1_PTP : Nat := 102
abbrev JH7110_SYSCLK_GMAC1_TX : Nat := 105
abbrev JH7110_SYSCLK_GMAC1_TX_INV : Nat := 106
abbrev JH7110_SYSCLK_GMAC1_GTXC : Nat := 107
abbrev JH7110_SYSCLK_GMAC0_GTXCLK : Nat := 108
abbrev JH7110_SYSCLK_GMAC0_PTP : Nat := 109
abbrev JH7110_SYSCLK_GMAC0_GTXC : Nat := 111
abbrev JH7110_SYSCLK_IOMUX_APB : Nat := 112
abbrev JH7110_SYSCLK_TEMP_APB : Nat := 129
abbrev JH7110_SYSCLK_TEMP_CORE : Nat := 130
abbrev JH7110_SYSCLK_UART0_CORE : Nat := 146

abbrev JH7110_SYSCLK_OSC : Nat := 190
abbrev JH7110_SYSCLK_GMAC1_RMII_REFIN : Nat := 191
abbrev JH7110_SYSCLK_PLL0_OUT : Nat := 199
abbrev JH7110_SYSCLK_PLL1_OUT : Nat := 200
abbrev JH7110_SYSCLK_PLL2_OUT : Nat := 201

abbrev JH7110_SYSCLK_ASSERT_OFFSET : Nat := 0x2f8
abbrev JH7110_SYSCLK_STATUS_OFFSET : Nat := 0x308

/- Registers -/
abbrev CLKMUX_MASK : Nat := 0x03000000
abbrev CLKMUX_SHIFT : Nat := 24
abbrev CLKDIV_MASK : Nat := 0x00ffffff
abbrev CLKDIV_SHIFT : Nat := 0

/-- Number of values of a `uint32_t`. -/
abbrev U32 : Nat := 2 ^ 32

/-- Number of values of a `uint64_t`. -/
abbrev U64 : Nat := 2 ^ 64

/-! ## Controller instance and its collaborators -/

/-- The controller instance together with the kernel services it reaches
through `sc_node`: the mapped register window (`sc_iot`/`sc_ioh`, byte offset
to word), the clock framework (`clock_get_frequency`,
`clock_get_frequency_idx`), the device tree (`OF_parent`) and the regmap
registry (`regmap_bynode`, `NULL` is `none`). -/
structure Softc where
  regs : Nat → Nat
  clock_frequency : String → Nat
  clock_frequency_idx : Nat → Nat
  of_parent : Int
  regmap_bynode : Int → Option (Nat → Nat)

/-- The macro `HREAD4(sc, reg)`: a 32-bit read of the register window. -/
def HREAD4 (sc : Softc) (reg : Nat) : Nat := sc.regs reg % U32

/-- The call `clock_get_frequency(sc->sc_node, name)`, a `uint32_t`. -/
def clock_get_frequency (sc : Softc) (name : String) : Nat :=
  sc.clock_frequency name % U32

/-- The call `clock_get_frequency_idx(sc->sc_node, idx)`, a `uint32_t`. -/
def clock_get_frequency_idx (sc : Softc) (idx : Nat) : Nat :=
  sc.clock_frequency_idx idx % U32

/-- The call `regmap_read_4(rm, offset)`, a `uint32_t`. -/
def regmap_read_4 (rm : Nat → Nat) (offset : Nat) : Nat := rm offset % U32

/-- One line written by `printf`; `func` is `__func__`. -/
inductive Diag where
  /-- The line "%s: unknown clock 0x%08x". -/
  | unknown_clock (func : String) (idx : Nat)
  /-- The line "%s: zero divisor for clock 0x%08x". -/
  | zero_divisor_for (func : String) (idx : Nat)
  /-- The line "%s: zero divisor". -/
  | zero_divisor (func : String)
  /-- The line "%s: failed to get parent frequency". -/
  | no_parent_frequency (func : String)
  /-- The line "%s: failed to find pll clock parent". -/
  | no_pll_parent (func : String)
  /-- The line "%s: failed to get pll regmap". -/
  | no_pll_regmap (func : String)
  /-- The line "%s: not handled 0x%08x (freq=0x%08x)" (or without the
  frequency, for the enable operation). -/
  | not_handled (func : String) (idx : Nat) (freq : Option Nat)
  deriving DecidableEq, Repr

/-- Outcome of a frequency query: the returned `uint32_t` with the lines
printed on the way, or a fault. `div_by_zero` is an executed integer division
by zero (undefined behaviour in C); `out_of_fuel` is the recursion budget of
the model running out. -/
inductive Result where
  | ok (freq : Nat) (log : List Diag)
  | div_by_zero
  | out_of_fuel
  deriving DecidableEq, Repr

/-- The statement `return k * f(parent);` in `uint32_t`. -/
def Result.times (k : Nat) : Result → Result
  | .ok freq log => .ok (k * freq % U32) log
  | .div_by_zero => .div_by_zero
  | .out_of_fuel => .out_of_fuel

/-- The statements `freq = f(parent); return freq / div;` in `uint32_t`. -/
def Result.over (div : Nat) : Result → Result
  | .ok freq log => if div = 0 then .div_by_zero else .ok (freq / div) log
  | .div_by_zero => .div_by_zero
  | .out_of_fuel => .out_of_fuel

/-- The returned frequency, when the query returned. -/
def Result.freq? : Result → Option Nat
  | .ok freq _ => some freq
  | _ => none

/-! ## JH7100 -/

/-- Second `switch` of `stfclock_get_frequency_jh7100`: the multiplexers.
Gives the selected parent, or `none` when `idx` is not a case label. -/
def jh7100_mux_parent (idx reg mux : Nat) : Option Nat :=
  if idx = JH7100_CLK_CPUNDBUS_ROOT then
    some (if mux = 1 then JH7100_CLK_PLL0_OUT
      else if mux = 2 then JH7100_CLK_PLL1_OUT
      else if mux = 3 then JH7100_CLK_PLL2_OUT
      else JH7100_CLK_OSC_SYS)
  else if idx = JH7100_CLK_GMACUSB_ROOT then
    some (if mux = 1 then JH7100_CLK_PLL0_OUT
      else if mux = 2 then JH7100_CLK_PLL2_OUT
      else JH7100_CLK_OSC_SYS)
  else if idx = JH7100_CLK_PERH0_ROOT then
    some (if (reg >>> 24) &&& 1 ≠ 0 then JH7100_CLK_PLL0_OUT else JH7100_CLK_OSC_SYS)
  else if idx = JH7100_CLK_PERH1_ROOT then
    some (if (reg >>> 24) &&& 1 ≠ 0 then JH7100_CLK_PLL2_OUT else JH7100_CLK_OSC_SYS)
  else if idx = JH7100_CLK_PLL2_REF then
    some (if mux ≠ 0 then JH7100_CLK_OSC_AUD else JH7100_CLK_OSC_SYS)
  else none

/-- Third `switch` of `stfclock_get_frequency_jh7100`: the dividers. Gives
the wired parent and the divisor (the register field `div`, or the constant 1),
or `none` for the `default` label. -/
def jh7100_div_parent (idx div : Nat) : Option (Nat × Nat) :=
  if idx = JH7100_CLK_PERH0_SRC then some (JH7100_CLK_PERH0_ROOT, div)
  else if idx = JH7100_CLK_PERH1_SRC then some (JH7100_CLK_PERH1_ROOT, div)
  else if idx = JH7100_CLK_CPUNBUS_ROOT_DIV then some (JH7100_CLK_CPUNDBUS_ROOT, div)
  else if idx = JH7100_CLK_AHB_BUS then some (JH7100_CLK_CPUNBUS_ROOT_DIV, div)
  else if idx = JH7100_CLK_SDIO0_CCLKINT ∨ idx = JH7100_CLK_UART3_CORE then
    some (JH7100_CLK_PERH0_SRC, div)
  else if idx = JH7100_CLK_SDIO1_CCLKINT ∨ idx = JH7100_CLK_UART0_CORE then
    some (JH7100_CLK_PERH1_SRC, div)
  else if idx = JH7100_CLK_SDIO0_AHB ∨ idx = JH7100_CLK_SDIO1_AHB
      ∨ idx = JH7100_CLK_GMAC_AHB then
    some (JH7100_CLK_AHB_BUS, 1)
  else if idx = JH7100_CLK_SDIO0_CCLKINT_INV then some (JH7100_CLK_SDIO0_CCLKINT, 1)
  else if idx = JH7100_CLK_SDIO1_CCLKINT_INV then some (JH7100_CLK_SDIO1_CCLKINT, 1)
  else if idx = JH7100_CLK_GMAC_ROOT_DIV then some (JH7100_CLK_GMACUSB_ROOT, div)
  else if idx = JH7100_CLK_GMAC_GTX then some (JH7100_CLK_GMAC_ROOT_DIV, div)
  else none

/-- The function `stfclock_get_frequency_jh7100`, with `idx = cells[0]`. -/
def stfclock_get_frequency_jh7100 : Nat → Softc → Nat → Result
  | 0, _, _ => .out_of_fuel
  | fuel + 1, sc, idx =>
    if idx = JH7100_CLK_OSC_SYS then .ok (clock_get_frequency sc "osc_sys") []
    else if idx = JH7100_CLK_OSC_AUD then .ok (clock_get_frequency sc "osc_aud") []
    else if idx = JH7100_CLK_PLL0_OUT then
      (stfclock_get_frequency_jh7100 fuel sc JH7100_CLK_OSC_SYS).times 40
    else if idx = JH7100_CLK_PLL1_OUT then
      (stfclock_get_frequency_jh7100 fuel sc JH7100_CLK_OSC_SYS).times 64
    else if idx = JH7100_CLK_PLL2_OUT then
      (stfclock_get_frequency_jh7100 fuel sc JH7100_CLK_PLL2_REF).times 55
    else
      let reg := HREAD4 sc (idx * 4 % U32)
      let mux := (reg &&& CLKMUX_MASK) >>> CLKMUX_SHIFT
      let div := (reg &&& CLKDIV_MASK) >>> CLKDIV_SHIFT
      match jh7100_mux_parent idx reg mux with
      | some parent => stfclock_get_frequency_jh7100 fuel sc parent
      | none =>
        match jh7100_div_parent idx div with
        | none => .ok 0 [.unknown_clock "stfclock_get_frequency_jh7100" idx]
        | some (parent, div) =>
          (stfclock_get_frequency_jh7100 fuel sc parent).over div

/-! ## JH7110 always-on clock generator -/

/-- First `switch` of `stfclock_get_frequency_jh7110_aon`: the clocks
obtained by name from the clock framework. -/
def jh7110_aon_external (idx : Nat) : Option String :=
  if idx = JH7110_AONCLK_OSC then some "osc"
  else if idx = JH7110_AONCLK_STG_AXIAHB then some "stg_axiahb"
  else if idx = JH7110_AONCLK_GMAC0_RMII_REFIN then some "gmac0_rmii_refin"
  else none

/-- Second `switch` of `stfclock_get_frequency_jh7110_aon`: the multiplexer. -/
def jh7110_aon_mux_parent (idx mux : Nat) : Option Nat :=
  if idx = JH7110_AONCLK_GMAC0_TX then
    some (if mux ≠ 0 then JH7110_AONCLK_GMAC0_RMII_RTX else JH7110_AONCLK_GMAC0_GTXCLK)
  else none

/-- Third `switch` of `stfclock_get_frequency_jh7110_aon`: the dividers, as
wired parent and divisor; `none` for the `default` label. -/
def jh7110_aon_div_parent (idx div : Nat) : Option (Nat × Nat) :=
  if idx = JH7110_AONCLK_GMAC0_AXI then some (JH7110_AONCLK_STG_AXIAHB, 1)
  else if idx = JH7110_AONCLK_GMAC0_RMII_RTX then
    some (JH7110_AONCLK_GMAC0_RMII_REFIN, div)
  else if idx = JH7110_AONCLK_GMAC0_TX_INV then some (JH7110_AONCLK_GMAC0_TX, 1)
  else none

/-- The function `stfclock_get_frequency_jh7110_aon`, with `idx = cells[0]`. -/
def stfclock_get_frequency_jh7110_aon : Nat → Softc → Nat → Result
  | 0, _, _ => .out_of_fuel
  | fuel + 1, sc, idx =>
    match jh7110_aon_external idx with
    | some name => .ok (clock_get_frequency sc name) []
    | none =>
      let reg := HREAD4 sc (idx * 4 % U32)
      let mux := (reg &&& CLKMUX_MASK) >>> CLKMUX_SHIFT
      let div := (reg &&& CLKDIV_MASK) >>> CLKDIV_SHIFT
      match jh7110_aon_mux_parent idx mux with
      | some parent => stfclock_get_frequency_jh7110_aon fuel sc parent
      | none =>
        match jh7110_aon_div_parent idx div with
        | none => .ok 0 [.unknown_clock "stfclock_get_frequency_jh7110_aon" idx]
        | some (parent, div) =>
          if div = 0 then
            .ok 0 [.zero_divisor_for "stfclock_get_frequency_jh7110_aon" idx]
          else (stfclock_get_frequency_jh7110_aon fuel sc parent).over div

/-! ## JH7110 PLL block -/

/-- The three case labels of the `switch (idx)` statements of
`stfclock_get_frequency_jh7110_pll`. -/
inductive PllId where
  | pll0
  | pll1
  | pll2
  deriving DecidableEq, Repr

/-- The case label an identifier selects; `none` is the `default` label. -/
def pll_of_idx (idx : Nat) : Option PllId :=
  if idx = JH7110_CLK_PLL0_OUT then some .pll0
  else if idx = JH7110_CLK_PLL1_OUT then some .pll1
  else if idx = JH7110_CLK_PLL2_OUT then some .pll2
  else none

/-- First `switch`: the register base of the PLL inside the regmap. -/
def pll_base : PllId → Nat
  | .pll0 => 0x18
  | .pll1 => 0x24
  | .pll2 => 0x2c

/-- The locals `dacpd, dsmpd, fbdiv, frac, prediv, postdiv1` of
`stfclock_get_frequency_jh7110_pll`. -/
structure PllFields where
  dacpd : Nat
  dsmpd : Nat
  fbdiv : Nat
  frac : Nat
  prediv : Nat
  postdiv1 : Nat
  deriving DecidableEq, Repr

/-- Second `switch`: decoding of the fields from the regmap at `base`. -/
def pll_read_fields (pllrm : Nat → Nat) (base : Nat) : PllId → PllFields
  | .pll0 =>
    let reg0 := regmap_read_4 pllrm (base + 0)
    let reg1 := regmap_read_4 pllrm (base + 4)
    let reg2 := regmap_read_4 pllrm (base + 8)
    let reg3 := regmap_read_4 pllrm (base + 12)
    { dacpd := (reg0 >>> 24) &&& 1
      dsmpd := (reg0 >>> 25) &&& 1
      fbdiv := (reg1 >>> 0) &&& ((1 <<< 12) - 1)
      frac := (reg2 >>> 0) &&& ((1 <<< 24) - 1)
      postdiv1 := 1 <<< ((reg2 >>> 28) &&& ((1 <<< 2) - 1))
      prediv := (reg3 >>> 0) &&& ((1 <<< 6) - 1) }
  | _ =>
    let reg0 := regmap_read_4 pllrm (base + 0)
    let reg1 := regmap_read_4 pllrm (base + 4)
    let reg2 := regmap_read_4 pllrm (base + 8)
    { dacpd := (reg0 >>> 15) &&& 1
      dsmpd := (reg0 >>> 16) &&& 1
      fbdiv := (reg0 >>> 17) &&& ((1 <<< 12) - 1)
      frac := (reg1 >>> 0) &&& ((1 <<< 24) - 1)
      postdiv1 := 1 <<< ((reg1 >>> 28) &&& ((1 <<< 2) - 1))
      prediv := (reg2 >>> 0) &&& ((1 <<< 6) - 1) }

/-- The `uint64_t` expression
`parent_freq / 1000 * (fbdiv * 1000 + frac_val) / prediv / postdiv1`;
`none` when one of its divisions has a zero divisor. -/
def pll_expr (parent_freq fbdiv frac_val prediv postdiv1 : Nat) : Option Nat :=
  if prediv = 0 ∨ postdiv1 = 0 then none
  else some
    (parent_freq / 1000 * ((fbdiv * 1000 % U32 + frac_val) % U64) % U64 / prediv / postdiv1)

/-- Lines 619 to 632 of `stfclock_get_frequency_jh7110_pll`: the checks on
the decoded fields and the output computation, returned as `uint32_t`. -/
def pll_output (parent_freq : Nat) (f : PllFields) : Result :=
  if f.fbdiv = 0 ∨ f.prediv = 0 ∨ f.postdiv1 = 0 then
    .ok 0 [.zero_divisor "stfclock_get_frequency_jh7110_pll"]
  else if f.dacpd ≠ f.dsmpd then .ok 0 []
  else
    let frac_val :=
      if f.dacpd = 0 ∧ f.dsmpd = 0 then f.frac * 1000 % U64 / (1 <<< 24) else 0
    match pll_expr parent_freq f.fbdiv frac_val f.prediv f.postdiv1 with
    | none => .div_by_zero
    | some v => .ok (v % U32) []

/-- The function `stfclock_get_frequency_jh7110_pll`, with `idx = cells[0]`. -/
def stfclock_get_frequency_jh7110_pll (sc : Softc) (idx : Nat) : Result :=
  let parent_freq := clock_get_frequency_idx sc 0
  if parent_freq = 0 then
    .ok 0 [.no_parent_frequency "stfclock_get_frequency_jh7110_pll"]
  else
    match pll_of_idx idx with
    | none => .ok 0 [.unknown_clock "stfclock_get_frequency_jh7110_pll" idx]
    | some pll =>
      let base := pll_base pll
      let syscon_node := sc.of_parent
      if syscon_node < 0 then
        .ok 0 [.no_pll_parent "stfclock_get_frequency_jh7110_pll"]
      else
        match sc.regmap_bynode syscon_node with
        | none => .ok 0 [.no_pll_regmap "stfclock_get_frequency_jh7110_pll"]
        | some pllrm => pll_output parent_freq (pll_read_fields pllrm base pll)

/-! ## JH7110 system-to-go clock generator -/

/-- The function `stfclock_get_frequency_jh7110_stg`, with `idx = cells[0]`. -/
def stfclock_get_frequency_jh7110_stg (_sc : Softc) (idx : Nat) : Result :=
  .ok 0 [.unknown_clock "stfclock_get_frequency_jh7110_stg" idx]

/-! ## JH7110 system clock generator -/

/-- First `switch` of `stfclock_get_frequency_jh7110_sys`: the clocks
obtained by name from the clock framework. -/
def jh7110_sys_external (idx : Nat) : Option String :=
  if idx = JH7110_SYSCLK_OSC then some "osc"
  else if idx = JH7110_SYSCLK_PLL0_OUT then some "pll0_out"
  else if idx = JH7110_SYSCLK_PLL1_OUT then some "pll1_out"
  else if idx = JH7110_SYSCLK_PLL2_OUT then some "pll2_out"
  else none

/-- Second `switch` of `stfclock_get_frequency_jh7110_sys`: the multiplexers. -/
def jh7110_sys_mux_parent (idx reg : Nat) : Option Nat :=
  if idx = JH7110_SYSCLK_CPU_ROOT then
    some (if (reg >>> 24) &&& 1 ≠ 0 then JH7110_SYSCLK_PLL0_OUT else JH7110_SYSCLK_OSC)
  else if idx = JH7110_SYSCLK_BUS_ROOT then
    some (if (reg >>> 24) &&& 1 ≠ 0 then JH7110_SYSCLK_PLL2_OUT else JH7110_SYSCLK_OSC)
  else none

/-- Third `switch` of `stfclock_get_frequency_jh7110_sys`: the dividers, as
wired parent and divisor; `none` for the `default` label. -/
def jh7110_sys_div_parent (idx div : Nat) : Option (Nat × Nat) :=
  if idx = JH7110_SYSCLK_CPU_CORE then some (JH7110_SYSCLK_CPU_ROOT, div)
  else if idx = JH7110_SYSCLK_AXI_CFG0 then some (JH7110_SYSCLK_BUS_ROOT, div)
  else if idx = JH7110_SYSCLK_STG_AXIAHB then some (JH7110_SYSCLK_AXI_CFG0, div)
  else if idx = JH7110_SYSCLK_AHB0 ∨ idx = JH7110_SYSCLK_AHB1
      ∨ idx = JH7110_SYSCLK_APB_BUS then
    some (JH7110_SYSCLK_STG_AXIAHB, div)
  else if idx = JH7110_SYSCLK_SDIO0_AHB ∨ idx = JH7110_SYSCLK_SDIO1_AHB then
    some (JH7110_SYSCLK_AHB0, div)
  else if idx = JH7110_SYSCLK_SDIO0_SDCARD ∨ idx = JH7110_SYSCLK_SDIO1_SDCARD then
    some (JH7110_SYSCLK_AXI_CFG0, div)
  else if idx = JH7110_SYSCLK_GMAC1_AXI then some (JH7110_SYSCLK_STG_AXIAHB, 1)
  else if idx = JH7110_SYSCLK_GMAC1_GTXCLK then some (JH7110_SYSCLK_PLL0_OUT, div)
  else if idx = JH7110_SYSCLK_GMAC1_RMII_RTX then
    some (JH7110_SYSCLK_GMAC1_RMII_REFIN, div)
  else if idx = JH7110_SYSCLK_GMAC1_TX_INV then some (JH7110_SYSCLK_GMAC1_TX, 1)
  else if idx = JH7110_SYSCLK_GMAC0_GTXCLK then some (JH7110_SYSCLK_PLL0_OUT, div)
  else if idx = JH7110_SYSCLK_TEMP_APB then some (JH7110_SYSCLK_APB_BUS, div)
  else if idx = JH7110_SYSCLK_TEMP_CORE then some (JH7110_SYSCLK_OSC, div)
  else if idx = JH7110_SYSCLK_UART0_CORE then some (JH7110_SYSCLK_OSC, 1)
  else none

/-- The function `stfclock_get_frequency_jh7110_sys`, with `idx = cells[0]`. -/
def stfclock_get_frequency_jh7110_sys : Nat → Softc → Nat → Result
  | 0, _, _ => .out_of_fuel
  | fuel + 1, sc, idx =>
    match jh7110_sys_external idx with
    | some name => .ok (clock_get_frequency sc name) []
    | none =>
      let reg := HREAD4 sc (idx * 4 % U32)
      let div := (reg &&& CLKDIV_MASK) >>> CLKDIV_SHIFT
      match jh7110_sys_mux_parent idx reg with
      | some parent => stfclock_get_frequency_jh7110_sys fuel sc parent
      | none =>
        match jh7110_sys_div_parent idx div with
        | none => .ok 0 [.unknown_clock "stfclock_get_frequency_jh7110_sys" idx]
        | some (parent, div) =>
          if div = 0 then
            .ok 0 [.zero_divisor_for "stfclock_get_frequency_jh7110_sys" idx]
          else (stfclock_get_frequency_jh7110_sys fuel sc parent).over div

/-! ## Chains of dividers and multiplexers -/

/-- One re-entry of `stfclock_get_frequency_jh7100` in state `sc`: the parent
the query on a multiplexer or divider `idx` recurses into and the divisor it
applies to the parent's frequency (1 for a multiplexer); `none` for the
oscillators, the fixed multipliers and unknown identifiers. -/
def jh7100_step (sc : Softc) (idx : Nat) : Option (Nat × Nat) :=
  if idx = JH7100_CLK_OSC_SYS ∨ idx = JH7100_CLK_OSC_AUD ∨ idx = JH7100_CLK_PLL0_OUT
      ∨ idx = JH7100_CLK_PLL1_OUT ∨ idx = JH7100_CLK_PLL2_OUT then none
  else
    let reg := HREAD4 sc (idx * 4 % U32)
    let mux := (reg &&& CLKMUX_MASK) >>> CLKMUX_SHIFT
    let div := (reg &&& CLKDIV_MASK) >>> CLKDIV_SHIFT
    match jh7100_mux_parent idx reg mux with
    | some parent => some (parent, 1)
    | none => jh7100_div_parent idx div

/-- The two oscillators of `stfclock_get_frequency_jh7100` and the names
they are looked up by. -/
def jh7100_external (idx : Nat) : Option String :=
  if idx = JH7100_CLK_OSC_SYS then some "osc_sys"
  else if idx = JH7100_CLK_OSC_AUD then some "osc_aud"
  else none

/-- One re-entry of `stfclock_get_frequency_jh7110_aon` in state `sc`, as
`jh7100_step`. -/
def jh7110_aon_step (sc : Softc) (idx : Nat) : Option (Nat × Nat) :=
  match jh7110_aon_external idx with
  | some _ => none
  | none =>
    let reg := HREAD4 sc (idx * 4 % U32)
    let mux := (reg &&& CLKMUX_MASK) >>> CLKMUX_SHIFT
    let div := (reg &&& CLKDIV_MASK) >>> CLKDIV_SHIFT
    match jh7110_aon_mux_parent idx mux with
    | some parent => some (parent, 1)
    | none => jh7110_aon_div_parent idx div

/-- One re-entry of `stfclock_get_frequency_jh7110_sys` in state `sc`, as
`jh7100_step`. -/
def jh7110_sys_step (sc : Softc) (idx : Nat) : Option (Nat × Nat) :=
  match jh7110_sys_external idx with
  | some _ => none
  | none =>
    let reg := HREAD4 sc (idx * 4 % U32)
    let div := (reg &&& CLKDIV_MASK) >>> CLKDIV_SHIFT
    match jh7110_sys_mux_parent idx reg with
    | some parent => some (parent, 1)
    | none => jh7110_sys_div_parent idx div

/-- Whether `links`, a list of (parent, divisor) pairs, is the path the
resolver takes from `leaf`: each pair is the step taken from the node before
it. -/
def is_chain (step : Nat → Option (Nat × Nat)) : Nat → List (Nat × Nat) → Bool
  | _, [] => true
  | leaf, link :: rest => step leaf == some link && is_chain step link.1 rest

/-- The node a chain ends at. -/
def chain_end : Nat → List (Nat × Nat) → Nat
  | leaf, [] => leaf
  | _, link :: rest => chain_end link.1 rest

/-- The product `d1 * ... * dN` of the divisors along a chain. -/
def chain_divisor (links : List (Nat × Nat)) : Nat := (links.map Prod.snd).prod

/-! ## Node tables and example states -/

/-- The case labels of `stfclock_get_frequency_jh7100`. -/
def jh7100_clocks : List Nat :=
  [JH7100_CLK_OSC_SYS, JH7100_CLK_OSC_AUD, JH7100_CLK_PLL0_OUT, JH7100_CLK_PLL1_OUT,
   JH7100_CLK_PLL2_OUT, JH7100_CLK_CPUNDBUS_ROOT, JH7100_CLK_GMACUSB_ROOT,
   JH7100_CLK_PERH0_ROOT, JH7100_CLK_PERH1_ROOT, JH7100_CLK_PLL2_REF,
   JH7100_CLK_PERH0_SRC, JH7100_CLK_PERH1_SRC, JH7100_CLK_CPUNBUS_ROOT_DIV,
   JH7100_CLK_AHB_BUS, JH7100_CLK_SDIO0_CCLKINT, JH7100_CLK_UART3_CORE,
   JH7100_CLK_SDIO1_CCLKINT, JH7100_CLK_UART0_CORE, JH7100_CLK_SDIO0_AHB,
   JH7100_CLK_SDIO1_AHB, JH7100_CLK_GMAC_AHB, JH7100_CLK_SDIO0_CCLKINT_INV,
   JH7100_CLK_SDIO1_CCLKINT_INV, JH7100_CLK_GMAC_ROOT_DIV, JH7100_CLK_GMAC_GTX]

/-- The case labels of `stfclock_get_frequency_jh7110_aon`. -/
def jh7110_aon_clocks : List Nat :=
  [JH7110_AONCLK_OSC, JH7110_AONCLK_STG_AXIAHB, JH7110_AONCLK_GMAC0_RMII_REFIN,
   JH7110_AONCLK_GMAC0_TX, JH7110_AONCLK_GMAC0_AXI, JH7110_AONCLK_GMAC0_RMII_RTX,
   JH7110_AONCLK_GMAC0_TX_INV]

/-- The case labels of `stfclock_get_frequency_jh7110_pll`. -/
def jh7110_pll_clocks : List Nat :=
  [JH7110_CLK_PLL0_OUT, JH7110_CLK_PLL1_OUT, JH7110_CLK_PLL2_OUT]

/-- The case labels of `stfclock_get_frequency_jh7110_sys`. -/
def jh7110_sys_clocks : List Nat :=
  [JH7110_SYSCLK_OSC, JH7110_SYSCLK_PLL0_OUT, JH7110_SYSCLK_PLL1_OUT,
   JH7110_SYSCLK_PLL2_OUT, JH7110_SYSCLK_CPU_ROOT, JH7110_SYSCLK_BUS_ROOT,
   JH7110_SYSCLK_CPU_CORE, JH7110_SYSCLK_AXI_CFG0, JH7110_SYSCLK_STG_AXIAHB,
   JH7110_SYSCLK_AHB0, JH7110_SYSCLK_AHB1, JH7110_SYSCLK_APB_BUS,
   JH7110_SYSCLK_SDIO0_AHB, JH7110_SYSCLK_SDIO1_AHB, JH7110_SYSCLK_SDIO0_SDCARD,
   JH7110_SYSCLK_SDIO1_SDCARD, JH7110_SYSCLK_GMAC1_AXI, JH7110_SYSCLK_GMAC1_GTXCLK,
   JH7110_SYSCLK_GMAC1_RMII_RTX, JH7110_SYSCLK_GMAC1_TX_INV,
   JH7110_SYSCLK_GMAC0_GTXCLK, JH7110_SYSCLK_TEMP_APB, JH7110_SYSCLK_TEMP_CORE,
   JH7110_SYSCLK_UART0_CORE]

/-- A board with a 24 MHz oscillator on every named input and on input 0, a
register window and a regmap that read as `regs`. -/
def board (regs : Nat → Nat) : Softc where
  regs := regs
  clock_frequency := fun _ => 24000000
  clock_frequency_idx := fun _ => 24000000
  of_parent := 1
  regmap_bynode := fun _ => some regs

/-! ## The PLL formula of the specification, example register files -/

/-- The PLL output as the specification writes it, over the natural numbers
(no machine width): `parent / 1000 * (fbdiv * 1000 + frac_contribution) /
prediv / postdiv1`, left to right with truncating division, where
`frac_contribution` is `frac * 1000 / 2^24` when both mode bits are 0 and 0
otherwise. -/
def spec_pll_output (parent : Nat) (f : PllFields) : Nat :=
  parent / 1000
    * (f.fbdiv * 1000 + (if f.dacpd = 0 ∧ f.dsmpd = 0 then f.frac * 1000 / 2 ^ 24 else 0))
    / f.prediv / f.postdiv1

/-- A regmap holding the given field values for one PLL, in the layout
`pll_read_fields` decodes (`shift` is the 2-bit post-divider field); every
other register reads zero. -/
def pll_regs (pll : PllId) (dacpd dsmpd fbdiv frac shift prediv : Nat) : Nat → Nat :=
  match pll with
  | .pll0 => fun off =>
    if off = 0x18 then dacpd <<< 24 ||| dsmpd <<< 25
    else if off = 0x1c then fbdiv
    else if off = 0x20 then frac ||| shift <<< 28
    else if off = 0x24 then prediv
    else 0
  | .pll1 => fun off =>
    if off = 0x24 then dacpd <<< 15 ||| dsmpd <<< 16 ||| fbdiv <<< 17
    else if off = 0x28 then frac ||| shift <<< 28
    else if off = 0x2c then prediv
    else 0
  | .pll2 => fun off =>
    if off = 0x2c then dacpd <<< 15 ||| dsmpd <<< 16 ||| fbdiv <<< 17
    else if off = 0x30 then frac ||| shift <<< 28
    else if off = 0x34 then prediv
    else 0

/-- A board whose clock input 0 runs at `input` Hz, whose device-tree parent
is `node` and whose regmap lookup gives `regmap`. -/
def board_with (input : Nat) (node : Int) (regmap : Option (Nat → Nat)) : Softc where
  regs := fun _ => 0
  clock_frequency := fun _ => 24000000
  clock_frequency_idx := fun _ => input
  of_parent := node
  regmap_bynode := fun _ => regmap

/-- A register file that reads `word` at every offset. -/
def uniform_regs (word : Nat) : Nat → Nat := fun _ => word

/-- A register file that reads zero everywhere. -/
def zero_regs : Nat → Nat := fun _ => 0

/-- The case labels of the divider `switch` of `stfclock_get_frequency_jh7100`. -/
def jh7100_dividers : List Nat :=
  [JH7100_CLK_PERH0_SRC, JH7100_CLK_PERH1_SRC, JH7100_CLK_CPUNBUS_ROOT_DIV,
   JH7100_CLK_AHB_BUS, JH7100_CLK_SDIO0_CCLKINT, JH7100_CLK_UART3_CORE,
   JH7100_CLK_SDIO1_CCLKINT, JH7100_CLK_UART0_CORE, JH7100_CLK_SDIO0_AHB,
   JH7100_CLK_SDIO1_AHB, JH7100_CLK_GMAC_AHB, JH7100_CLK_SDIO0_CCLKINT_INV,
   JH7100_CLK_SDIO1_CCLKINT_INV, JH7100_CLK_GMAC_ROOT_DIV, JH7100_CLK_GMAC_GTX]

/-- The case labels of the divider `switch` of
`stfclock_get_frequency_jh7110_aon`. -/
def jh7110_aon_dividers : List Nat :=
  [JH7110_AONCLK_GMAC0_AXI, JH7110_AONCLK_GMAC0_RMII_RTX, JH7110_AONCLK_GMAC0_TX_INV]

/-- The case labels of the divider `switch` of
`stfclock_get_frequency_jh7110_sys`. -/
def jh7110_sys_dividers : List Nat :=
  [JH7110_SYSCLK_CPU_CORE, JH7110_SYSCLK_AXI_CFG0, JH7110_SYSCLK_STG_AXIAHB,
   JH7110_SYSCLK_AHB0, JH7110_SYSCLK_AHB1, JH7110_SYSCLK_APB_BUS,
   JH7110_SYSCLK_SDIO0_AHB, JH7110_SYSCLK_SDIO1_AHB, JH7110_SYSCLK_SDIO0_SDCARD,
   JH7110_SYSCLK_SDIO1_SDCARD, JH7110_SYSCLK_GMAC1_AXI, JH7110_SYSCLK_GMAC1_GTXCLK,
   JH7110_SYSCLK_GMAC1_RMII_RTX, JH7110_SYSCLK_GMAC1_TX_INV,
   JH7110_SYSCLK_GMAC0_GTXCLK, JH7110_SYSCLK_TEMP_APB, JH7110_SYSCLK_TEMP_CORE,
   JH7110_SYSCLK_UART0_CORE]

/-! ## Divider tables and ranks -/

/-- The labels of the JH7100 divider `switch` that keep the divisor read
from the register (no `div = 1` assignment). -/
def jh7100_register_dividers : List Nat :=
  [JH7100_CLK_PERH0_SRC, JH7100_CLK_PERH1_SRC, JH7100_CLK_CPUNBUS_ROOT_DIV,
   JH7100_CLK_AHB_BUS, JH7100_CLK_SDIO0_CCLKINT, JH7100_CLK_SDIO1_CCLKINT,
   JH7100_CLK_UART0_CORE, JH7100_CLK_UART3_CORE, JH7100_CLK_GMAC_ROOT_DIV,
   JH7100_CLK_GMAC_GTX]

/-- The labels of the aon divider `switch` that keep the divisor read from
the register. -/
def jh7110_aon_register_dividers : List Nat := [JH7110_AONCLK_GMAC0_RMII_RTX]

/-- The labels of the sys divider `switch` that keep the divisor read from
the register. -/
def jh7110_sys_register_dividers : List Nat :=
  [JH7110_SYSCLK_CPU_CORE, JH7110_SYSCLK_AXI_CFG0, JH7110_SYSCLK_STG_AXIAHB,
   JH7110_SYSCLK_AHB0, JH7110_SYSCLK_AHB1, JH7110_SYSCLK_APB_BUS,
   JH7110_SYSCLK_SDIO0_AHB, JH7110_SYSCLK_SDIO1_AHB, JH7110_SYSCLK_SDIO0_SDCARD,
   JH7110_SYSCLK_SDIO1_SDCARD, JH7110_SYSCLK_GMAC1_GTXCLK,
   JH7110_SYSCLK_GMAC1_RMII_RTX, JH7110_SYSCLK_GMAC0_GTXCLK,
   JH7110_SYSCLK_TEMP_APB, JH7110_SYSCLK_TEMP_CORE]

/-- Height of a JH7100 clock above the oscillators: the largest number of
parent steps the resolver can take from it. -/
def jh7100_rank (idx : Nat) : Nat :=
  if idx = JH7100_CLK_PLL0_OUT ∨ idx = JH7100_CLK_PLL1_OUT
      ∨ idx = JH7100_CLK_PLL2_REF then 1
  else if idx = JH7100_CLK_PLL2_OUT ∨ idx = JH7100_CLK_PERH0_ROOT then 2
  else if idx = JH7100_CLK_CPUNDBUS_ROOT ∨ idx = JH7100_CLK_GMACUSB_ROOT
      ∨ idx = JH7100_CLK_PERH1_ROOT ∨ idx = JH7100_CLK_PERH0_SRC then 3
  else if idx = JH7100_CLK_PERH1_SRC ∨ idx = JH7100_CLK_CPUNBUS_ROOT_DIV
      ∨ idx = JH7100_CLK_SDIO0_CCLKINT ∨ idx = JH7100_CLK_UART3_CORE
      ∨ idx = JH7100_CLK_GMAC_ROOT_DIV then 4
  else if idx = JH7100_CLK_AHB_BUS ∨ idx = JH7100_CLK_SDIO1_CCLKINT
      ∨ idx = JH7100_CLK_UART0_CORE ∨ idx = JH7100_CLK_SDIO0_CCLKINT_INV
      ∨ idx = JH7100_CLK_GMAC_GTX then 5
  else if idx = JH7100_CLK_SDIO0_AHB ∨ idx = JH7100_CLK_SDIO1_AHB
      ∨ idx = JH7100_CLK_GMAC_AHB ∨ idx = JH7100_CLK_SDIO1_CCLKINT_INV then 6
  else 0

/-- Height of a JH7110 always-on clock above its external inputs. -/
def jh7110_aon_rank (idx : Nat) : Nat :=
  if idx = JH7110_AONCLK_GMAC0_AXI ∨ idx = JH7110_AONCLK_GMAC0_RMII_RTX then 1
  else if idx = JH7110_AONCLK_GMAC0_TX then 2
  else if idx = JH7110_AONCLK_GMAC0_TX_INV then 3
  else 0

/-- Height of a JH7110 system clock above its external inputs. -/
def jh7110_sys_rank (idx : Nat) : Nat :=
  if idx = JH7110_SYSCLK_CPU_ROOT ∨ idx = JH7110_SYSCLK_BUS_ROOT
      ∨ idx = JH7110_SYSCLK_GMAC1_GTXCLK ∨ idx = JH7110_SYSCLK_GMAC1_RMII_RTX
      ∨ idx = JH7110_SYSCLK_GMAC1_TX_INV ∨ idx = JH7110_SYSCLK_GMAC0_GTXCLK
      ∨ idx = JH7110_SYSCLK_TEMP_CORE ∨ idx = JH7110_SYSCLK_UART0_CORE then 1
  else if idx = JH7110_SYSCLK_CPU_CORE ∨ idx = JH7110_SYSCLK_AXI_CFG0 then 2
  else if idx = JH7110_SYSCLK_STG_AXIAHB ∨ idx = JH7110_SYSCLK_SDIO0_SDCARD
      ∨ idx = JH7110_SYSCLK_SDIO1_SDCARD then 3
  else if idx = JH7110_SYSCLK_AHB0 ∨ idx = JH7110_SYSCLK_AHB1
      ∨ idx = JH7110_SYSCLK_APB_BUS ∨ idx = JH7110_SYSCLK_GMAC1_AXI then 4
  else if idx = JH7110_SYSCLK_SDIO0_AHB ∨ idx = JH7110_SYSCLK_SDIO1_AHB
      ∨ idx = JH7110_SYSCLK_TEMP_APB then 5
  else 0

/-! ## Register writes: gates and resets -/

/-- The controller while an operation runs: its state `sc`, the
`bus_space_write_4` calls made so far (byte offset and word, oldest first) and
the lines printed so far. -/
structure Machine where
  sc : Softc
  writes : List (Nat × Nat)
  log : List Diag

/-- A controller on which nothing has been written or printed yet. -/
def Machine.start (sc : Softc) : Machine := ⟨sc, [], []⟩

/-- A call of `printf` with the given line. -/
def printf (m : Machine) (line : Diag) : Machine :=
  { m with log := m.log ++ [line] }

/-- The macro `HWRITE4(sc, reg, val)`: a 32-bit write to the register window. -/
def HWRITE4 (m : Machine) (reg val : Nat) : Machine :=
  { m with
    sc := { m.sc with regs := fun r => if r = reg then val % U32 else m.sc.regs r }
    writes := m.writes ++ [(reg, val % U32)] }

/-- The macro `HSET4(sc, reg, bits)`: read, or in `bits`, write back. -/
def HSET4 (m : Machine) (reg bits : Nat) : Machine :=
  HWRITE4 m reg (HREAD4 m.sc reg ||| bits)

/-- The macro `HCLR4(sc, reg, bits)`: read, and with `~(bits)`, write back;
the complement of a 32-bit unsigned is the exclusive or with `0xffffffff`. -/
def HCLR4 (m : Machine) (reg bits : Nat) : Machine :=
  HWRITE4 m reg (HREAD4 m.sc reg &&& (bits ^^^ (U32 - 1)))

/-- The statement
`if (on) HSET4(sc, idx * 4, 1U << 31); else HCLR4(sc, idx * 4, 1U << 31);`
of the enable functions; `enable` is the truth value of the C `int on`. -/
def set_gate (m : Machine) (idx : Nat) (enable : Bool) : Machine :=
  if enable then HSET4 m (idx * 4 % U32) (1 <<< 31) else HCLR4 m (idx * 4 % U32) (1 <<< 31)

/-- The case labels of `stfclock_enable_jh7100` that reach the gate
statement. -/
def jh7100_gates : List Nat :=
  [JH7100_CLK_SDIO0_CCLKINT, JH7100_CLK_SDIO0_CCLKINT_INV, JH7100_CLK_SDIO1_CCLKINT,
   JH7100_CLK_SDIO1_CCLKINT_INV, JH7100_CLK_SDIO0_AHB, JH7100_CLK_SDIO1_AHB,
   JH7100_CLK_GMAC_AHB, JH7100_CLK_GMAC_GTX, JH7100_CLK_UART0_CORE,
   JH7100_CLK_UART3_CORE, JH7100_CLK_TEMP_APB, JH7100_CLK_TEMP_SENSE]

/-- The function `stfclock_enable_jh7100`, with `idx = cells[0]`. -/
def stfclock_enable_jh7100 (m : Machine) (idx : Nat) (enable : Bool) : Machine :=
  if idx ∈ jh7100_gates then set_gate m idx enable
  else if idx = JH7100_CLK_GMAC_ROOT_DIV then m
  else printf m (.unknown_clock "stfclock_enable_jh7100" idx)

/-- The case labels of the second `switch` of `stfclock_enable_jh7110_aon`. -/
def jh7110_aon_gates : List Nat :=
  [JH7110_AONCLK_GMAC0_AHB, JH7110_AONCLK_GMAC0_AXI, JH7110_AONCLK_GMAC0_TX]

/-- The function `stfclock_enable_jh7110_aon`, with `idx = cells[0]`; the
first `switch` replaces GMAC0_TX_INV by GMAC0_TX. -/
def stfclock_enable_jh7110_aon (m : Machine) (idx : Nat) (enable : Bool) : Machine :=
  let idx := if idx = JH7110_AONCLK_GMAC0_TX_INV then JH7110_AONCLK_GMAC0_TX else idx
  if idx ∈ jh7110_aon_gates then set_gate m idx enable
  else printf m (.unknown_clock "stfclock_enable_jh7110_aon" idx)

/-- The function `stfclock_reset_jh7110_aon`, with `idx = cells[0]`; `assert`
is the truth value of the C `int`. -/
def stfclock_reset_jh7110_aon (m : Machine) (idx : Nat) (assert : Bool) : Machine :=
  let offset := (JH7110_AONCLK_ASSERT_OFFSET + (idx / 32) * 4 % U32) % U32
  let bits := 1 <<< (idx % 32)
  if assert then HSET4 m offset bits else HCLR4 m offset bits

/-- The function `stfclock_enable_jh7110_pll`, with `idx = cells[0]`. -/
def stfclock_enable_jh7110_pll (m : Machine) (idx : Nat) (_enable : Bool) : Machine :=
  printf m (.not_handled "stfclock_enable_jh7110_pll" idx none)

/-- The case labels of `stfclock_enable_jh7110_stg`. -/
def jh7110_stg_gates : List Nat :=
  [JH7110_STGCLK_PCIE0_AXI_MST0, JH7110_STGCLK_PCIE0_APB, JH7110_STGCLK_PCIE0_TL,
   JH7110_STGCLK_PCIE1_AXI_MST0, JH7110_STGCLK_PCIE1_APB, JH7110_STGCLK_PCIE1_TL]

/-- The function `stfclock_enable_jh7110_stg`, with `idx = cells[0]`. -/
def stfclock_enable_jh7110_stg (m : Machine) (idx : Nat) (enable : Bool) : Machine :=
  if idx ∈ jh7110_stg_gates then set_gate m idx enable
  else printf m (.unknown_clock "stfclock_enable_jh7110_stg" idx)

/-- The function `stfclock_reset_jh7110_stg`, with `idx = cells[0]`. -/
def stfclock_reset_jh7110_stg (m : Machine) (idx : Nat) (assert : Bool) : Machine :=
  let offset := (JH7110_STGCLK_ASSERT_OFFSET + (idx / 32) * 4 % U32) % U32
  let bits := 1 <<< (idx % 32)
  if assert then HSET4 m offset bits else HCLR4 m offset bits

/-- The case labels of the second `switch` of `stfclock_enable_jh7110_sys`. -/
def jh7110_sys_gates : List Nat :=
  [JH7110_SYSCLK_SDIO0_AHB, JH7110_SYSCLK_SDIO1_AHB, JH7110_SYSCLK_SDIO0_SDCARD,
   JH7110_SYSCLK_SDIO1_SDCARD, JH7110_SYSCLK_NOC_BUS_STG_AXI, JH7110_SYSCLK_GMAC1_AHB,
   JH7110_SYSCLK_GMAC1_AXI, JH7110_SYSCLK_GMAC1_GTXCLK, JH7110_SYSCLK_GMAC1_PTP,
   JH7110_SYSCLK_GMAC1_TX, JH7110_SYSCLK_GMAC1_GTXC, JH7110_SYSCLK_GMAC0_GTXCLK,
   JH7110_SYSCLK_GMAC0_PTP, JH7110_SYSCLK_GMAC0_GTXC, JH7110_SYSCLK_IOMUX_APB,
   JH7110_SYSCLK_TEMP_APB, JH7110_SYSCLK_TEMP_CORE, JH7110_SYSCLK_UART0_CORE]

/-- The function `stfclock_enable_jh7110_sys`, with `idx = cells[0]`. The
first `switch` replaces GMAC1_TX_INV by GMAC1_TX and, for GMAC1_GTXC and
GMAC0_GTXC, first calls the function itself on the upstream GTXCLK clock;
`none` is the recursion budget of the model running out. -/
def stfclock_enable_jh7110_sys : Nat → Machine → Nat → Bool → Option Machine
  | 0, _, _, _ => none
  | fuel + 1, m, idx, enable =>
    let first : Option (Machine × Nat) :=
      if idx = JH7110_SYSCLK_GMAC1_TX_INV then some (m, JH7110_SYSCLK_GMAC1_TX)
      else if idx = JH7110_SYSCLK_GMAC1_GTXC then
        (stfclock_enable_jh7110_sys fuel m JH7110_SYSCLK_GMAC1_GTXCLK enable).map (·, idx)
      else if idx = JH7110_SYSCLK_GMAC0_GTXC then
        (stfclock_enable_jh7110_sys fuel m JH7110_SYSCLK_GMAC0_GTXCLK enable).map (·, idx)
      else some (m, idx)
    match first with
    | none => none
    | some (m, idx) =>
      if idx ∈ jh7110_sys_gates then some (set_gate m idx enable)
      else some (printf m (.unknown_clock "stfclock_enable_jh7110_sys" idx))

/-- The function `stfclock_reset_jh7110_sys`, with `idx = cells[0]`. -/
def stfclock_reset_jh7110_sys (m : Machine) (idx : Nat) (assert : Bool) : Machine :=
  let offset := (JH7110_SYSCLK_ASSERT_OFFSET + (idx / 32) * 4 % U32) % U32
  let bits := 1 <<< (idx % 32)
  if assert then HSET4 m offset bits else HCLR4 m offset bits

/-! ## Frequency changes -/

/-- The function `stfclock_set_frequency_jh7100`, with `idx = cells[0]`: the
returned `int` and the controller afterwards. -/
def stfclock_set_frequency_jh7100 (m : Machine) (idx freq : Nat) : Int × Machine :=
  (-1, printf m (.not_handled "stfclock_set_frequency_jh7100" idx (some freq)))

/-- The function `stfclock_set_frequency_jh7110_aon`, with `idx = cells[0]`. -/
def stfclock_set_frequency_jh7110_aon (m : Machine) (idx freq : Nat) : Int × Machine :=
  (-1, printf m (.not_handled "stfclock_set_frequency_jh7110_aon" idx (some freq)))

/-- The function `stfclock_set_frequency_jh7110_pll`, with `idx = cells[0]`. -/
def stfclock_set_frequency_jh7110_pll (m : Machine) (idx freq : Nat) : Int × Machine :=
  (-1, printf m (.not_handled "stfclock_set_frequency_jh7110_pll" idx (some freq)))

/-- The function `stfclock_set_frequency_jh7110_stg`, with `idx = cells[0]`. -/
def stfclock_set_frequency_jh7110_stg (m : Machine) (idx freq : Nat) : Int × Machine :=
  (-1, printf m (.not_handled "stfclock_set_frequency_jh7110_stg" idx (some freq)))

/-- The function `stfclock_set_frequency_jh7110_sys`, with `idx = cells[0]`. -/
def stfclock_set_frequency_jh7110_sys (m : Machine) (idx freq : Nat) : Int × Machine :=
  (-1, printf m (.not_handled "stfclock_set_frequency_jh7110_sys" idx (some freq)))

/-! ## The registers a query decodes -/

/-- The case labels of the multiplexer and divider `switch` statements of
`stfclock_get_frequency_jh7100`: the clocks whose own register word reaches
the result of a query. -/
def jh7100_readers : List Nat :=
  [JH7100_CLK_CPUNDBUS_ROOT, JH7100_CLK_GMACUSB_ROOT, JH7100_CLK_PERH0_ROOT,
   JH7100_CLK_PERH1_ROOT, JH7100_CLK_PLL2_REF] ++ jh7100_dividers

/-- The case labels of the multiplexer and divider `switch` statements of
`stfclock_get_frequency_jh7110_aon`. -/
def jh7110_aon_readers : List Nat := [JH7110_AONCLK_GMAC0_TX] ++ jh7110_aon_dividers

/-- The case labels of the multiplexer and divider `switch` statements of
`stfclock_get_frequency_jh7110_sys`. -/
def jh7110_sys_readers : List Nat :=
  [JH7110_SYSCLK_CPU_ROOT, JH7110_SYSCLK_BUS_ROOT] ++ jh7110_sys_dividers

/-- A board as `board`, with every named clock input running at `hz`. -/
def board_at (hz : Nat) (regs : Nat → Nat) : Softc where
  regs := regs
  clock_frequency := fun _ => hz
  clock_frequency_idx := fun _ => hz
  of_parent := 1
  regmap_bynode := fun _ => some regs

/-- A register file that reads `first` at offset 0 and `word` elsewhere. -/
def regs_with_first (first word : Nat) : Nat → Nat :=
  fun r => if r = 0 then first else word

/-! ## Frequency queries as operations on the controller -/

/-- Outcome of a frequency query run on a controller: the returned
`uint32_t` with the controller afterwards, the controller at an executed
division by zero, or the recursion budget of the model running out. -/
inductive Run where
  | returned (freq : Nat) (m : Machine)
  | div_by_zero (m : Machine)
  | out_of_fuel

/-- The statement `return k * f(parent);` in `uint32_t`. -/
def Run.times (k : Nat) : Run → Run
  | .returned freq m => .returned (k * freq % U32) m
  | .div_by_zero m => .div_by_zero m
  | .out_of_fuel => .out_of_fuel

/-- The statements `freq = f(parent); return freq / div;` in `uint32_t`. -/
def Run.over (div : Nat) : Run → Run
  | .returned freq m => if div = 0 then .div_by_zero m else .returned (freq / div) m
  | .div_by_zero m => .div_by_zero m
  | .out_of_fuel => .out_of_fuel

/-- The controller a run ended on, when it ended. -/
def Run.machine? : Run → Option Machine
  | .returned _ m => some m
  | .div_by_zero m => some m
  | .out_of_fuel => none

/-- The returned frequency, when the run returned. -/
def Run.freq? : Run → Option Nat
  | .returned freq _ => some freq
  | _ => none

/-- The outcome of a run started on `m`, as a `Result`: the lines printed
since `m` are the log. -/
def Run.result (m : Machine) : Run → Result
  | .returned freq m2 => .ok freq (m2.log.drop m.log.length)
  | .div_by_zero _ => .div_by_zero
  | .out_of_fuel => .out_of_fuel

/-- The function `stfclock_get_frequency_jh7100` statement by statement on
the controller `m`: register reads through `HREAD4`, lines through `printf`. -/
def stfclock_get_frequency_jh7100_run : Nat → Machine → Nat → Run
  | 0, _, _ => .out_of_fuel
  | fuel + 1, m, idx =>
    if idx = JH7100_CLK_OSC_SYS then .returned (clock_get_frequency m.sc "osc_sys") m
    else if idx = JH7100_CLK_OSC_AUD then .returned (clock_get_frequency m.sc "osc_aud") m
    else if idx = JH7100_CLK_PLL0_OUT then
      (stfclock_get_frequency_jh7100_run fuel m JH7100_CLK_OSC_SYS).times 40
    else if idx = JH7100_CLK_PLL1_OUT then
      (stfclock_get_frequency_jh7100_run fuel m JH7100_CLK_OSC_SYS).times 64
    else if idx = JH7100_CLK_PLL2_OUT then
      (stfclock_get_frequency_jh7100_run fuel m JH7100_CLK_PLL2_REF).times 55
    else
      let reg := HREAD4 m.sc (idx * 4 % U32)
      let mux := (reg &&& CLKMUX_MASK) >>> CLKMUX_SHIFT
      let div := (reg &&& CLKDIV_MASK) >>> CLKDIV_SHIFT
      match jh7100_mux_parent idx reg mux with
      | some parent => stfclock_get_frequency_jh7100_run fuel m parent
      | none =>
        match jh7100_div_parent idx div with
        | none => .returned 0 (printf m (.unknown_clock "stfclock_get_frequency_jh7100" idx))
        | some (parent, div) =>
          (stfclock_get_frequency_jh7100_run fuel m parent).over div

/-- The function `stfclock_get_frequency_jh7110_aon` statement by statement
on the controller `m`. -/
def stfclock_get_frequency_jh7110_aon_run : Nat → Machine → Nat → Run
  | 0, _, _ => .out_of_fuel
  | fuel + 1, m, idx =>
    match jh7110_aon_external idx with
    | some name => .returned (clock_get_frequency m.sc name) m
    | none =>
      let reg := HREAD4 m.sc (idx * 4 % U32)
      let mux := (reg &&& CLKMUX_MASK) >>> CLKMUX_SHIFT
      let div := (reg &&& CLKDIV_MASK) >>> CLKDIV_SHIFT
      match jh7110_aon_mux_parent idx mux with
      | some parent => stfclock_get_frequency_jh7110_aon_run fuel m parent
      | none =>
        match jh7110_aon_div_parent idx div with
        | none =>
          .returned 0 (printf m (.unknown_clock "stfclock_get_frequency_jh7110_aon" idx))
        | some (parent, div) =>
          if div = 0 then
            .returned 0
              (printf m (.zero_divisor_for "stfclock_get_frequency_jh7110_aon" idx))
          else (stfclock_get_frequency_jh7110_aon_run fuel m parent).over div

/-- Lines 619 to 632 of `stfclock_get_frequency_jh7110_pll` on the
controller `m`. -/
def pll_output_run (m : Machine) (parent_freq : Nat) (f : PllFields) : Run :=
  if f.fbdiv = 0 ∨ f.prediv = 0 ∨ f.postdiv1 = 0 then
    .returned 0 (printf m (.zero_divisor "stfclock_get_frequency_jh7110_pll"))
  else if f.dacpd ≠ f.dsmpd then .returned 0 m
  else
    let frac_val :=
      if f.dacpd = 0 ∧ f.dsmpd = 0 then f.frac * 1000 % U64 / (1 <<< 24) else 0
    match pll_expr parent_freq f.fbdiv frac_val f.prediv f.postdiv1 with
    | none => .div_by_zero m
    | some v => .returned (v % U32) m

/-- The function `stfclock_get_frequency_jh7110_pll` statement by statement
on the controller `m`. -/
def stfclock_get_frequency_jh7110_pll_run (m : Machine) (idx : Nat) : Run :=
  let parent_freq := clock_get_frequency_idx m.sc 0
  if parent_freq = 0 then
    .returned 0 (printf m (.no_parent_frequency "stfclock_get_frequency_jh7110_pll"))
  else
    match pll_of_idx idx with
    | none => .returned 0 (printf m (.unknown_clock "stfclock_get_frequency_jh7110_pll" idx))
    | some pll =>
      let base := pll_base pll
      let syscon_node := m.sc.of_parent
      if syscon_node < 0 then
        .returned 0 (printf m (.no_pll_parent "stfclock_get_frequency_jh7110_pll"))
      else
        match m.sc.regmap_bynode syscon_node with
        | none => .returned 0 (printf m (.no_pll_regmap "stfclock_get_frequency_jh7110_pll"))
        | some pllrm => pll_output_run m parent_freq (pll_read_fields pllrm base pll)

/-- The function `stfclock_get_frequency_jh7110_stg` on the controller `m`. -/
def stfclock_get_frequency_jh7110_stg_run (m : Machine) (idx : Nat) : Run :=
  .returned 0 (printf m (.unknown_clock "stfclock_get_frequency_jh7110_stg" idx))

/-- The function `stfclock_get_frequency_jh7110_sys` statement by statement
on the controller `m`. -/
def stfclock_get_frequency_jh7110_sys_run : Nat → Machine → Nat → Run
  | 0, _, _ => .out_of_fuel
  | fuel + 1, m, idx =>
    match jh7110_sys_external idx with
    | some name => .returned (clock_get_frequency m.sc name) m
    | none =>
      let reg := HREAD4 m.sc (idx * 4 % U32)
      let div := (reg &&& CLKDIV_MASK) >>> CLKDIV_SHIFT
      match jh7110_sys_mux_parent idx reg with
      | some parent => stfclock_get_frequency_jh7110_sys_run fuel m parent
      | none =>
        match jh7110_sys_div_parent idx div with
        | none =>
          .returned 0 (printf m (.unknown_clock "stfclock_get_frequency_jh7110_sys" idx))
        | some (parent, div) =>
          if div = 0 then
            .returned 0
              (printf m (.zero_divisor_for "stfclock_get_frequency_jh7110_sys" idx))
          else (stfclock_get_frequency_jh7110_sys_run fuel m parent).over div

/-- Two controller states with the same named clock inputs and, in every
register, the same bits 0..25 (the multiplexer and divisor fields): what
the resolvers of the JH7100, aon and sys variants decode. -/
def same_fields (sc sc2 : Softc) : Prop :=
  sc2.clock_frequency = sc.clock_frequency ∧
  ∀ r, HREAD4 sc2 r % 2 ^ 26 = HREAD4 sc r % 2 ^ 26

/-- The controller a run ends on differs from the one it started on in the
printed lines only. -/
def Run.keeps (m : Machine) (r : Run) : Prop :=
  ∀ m2, r.machine? = some m2 → m2.sc = m.sc ∧ m2.writes = m.writes

/-! ## Matching and attaching -/

/-- The five sets of operations `stfclock_attach` chooses from. A function
pointer of the clock or reset device is `none` (NULL) or `some v`, the
function `stfclock_..._v` of variant `v`. -/
inductive Variant where
  | jh7100
  | jh7110_aon
  | jh7110_pll
  | jh7110_stg
  | jh7110_sys
  deriving DecidableEq, Repr

/-- What `stfclock_match` and `stfclock_attach` use of their argument
`struct fdt_attach_args *faa` and of the kernel services they call on it:
the truth value of `OF_is_compatible(faa->fa_node, name)` for each name, the
member `fa_nreg`, and the value `bus_space_map` returns for `fa_reg[0]`
(non-zero is failure). -/
structure fdt_attach_args where
  OF_is_compatible : String → Bool
  fa_nreg : Int
  bus_space_map : Int

/-- The function `stfclock_match`: the value of the `||` chain, 1 or 0. -/
def stfclock_match (faa : fdt_attach_args) : Int :=
  if faa.OF_is_compatible "starfive,jh7100-clkgen" ∨
      faa.OF_is_compatible "starfive,jh7110-aoncrg" ∨
      faa.OF_is_compatible "starfive,jh7110-pll" ∨
      faa.OF_is_compatible "starfive,jh7110-stgcrg" ∨
      faa.OF_is_compatible "starfive,jh7110-syscrg" then 1
  else 0

/-- The softc as `stfclock_attach` leaves it, with what it prints and
registers: whether the register window is mapped (`sc_ioh`), the function
pointers of `sc_cd` and `sc_rd`, whether `reset_register` and
`clock_register` were called, and the text of each `printf` call without its
newline. The node and cookie members attach also sets (`sc_node`, `cd_node`,
`cd_cookie`, `rd_node`, `rd_cookie`) are left out. -/
structure AttachState where
  mapped : Bool
  cd_get_frequency : Option Variant
  cd_set_frequency : Option Variant
  cd_enable : Option Variant
  rd_reset : Option Variant
  reset_registered : Bool
  clock_registered : Bool
  console : List String
  deriving DecidableEq, Repr

/-- The zero-filled softc the autoconfiguration framework hands to attach. -/
def AttachState.zero : AttachState :=
  ⟨false, none, none, none, none, false, false, []⟩

/-- How a call of `stfclock_attach` ends: it returns, or the assertion
`KASSERT(sc->sc_cd.cd_get_frequency)` fails. -/
inductive Attach where
  | returned (sc : AttachState)
  | assertion_failed (sc : AttachState)
  deriving DecidableEq, Repr

/-- The `if ... else if` chain of `stfclock_attach` on the compatible
strings: the assignments and the `printf` of the first branch whose tag the
node carries, nothing when it carries none. -/
def attach_bind (faa : fdt_attach_args) (sc : AttachState) : AttachState :=
  if faa.OF_is_compatible "starfive,jh7100-clkgen" then
    { sc with
      cd_get_frequency := some .jh7100
      cd_set_frequency := some .jh7100
      cd_enable := some .jh7100
      console := sc.console ++ [""] }
  else if faa.OF_is_compatible "starfive,jh7110-aoncrg" then
    { sc with
      cd_get_frequency := some .jh7110_aon
      cd_set_frequency := some .jh7110_aon
      cd_enable := some .jh7110_aon
      rd_reset := some .jh7110_aon
      reset_registered := true
      console := sc.console ++ [": aoncrg"] }
  else if faa.OF_is_compatible "starfive,jh7110-pll" then
    { sc with
      cd_get_frequency := some .jh7110_pll
      cd_set_frequency := some .jh7110_pll
      cd_enable := some .jh7110_pll
      console := sc.console ++ [": pll"] }
  else if faa.OF_is_compatible "starfive,jh7110-stgcrg" then
    { sc with
      cd_get_frequency := some .jh7110_stg
      cd_set_frequency := some .jh7110_stg
      cd_enable := some .jh7110_stg
      rd_reset := some .jh7110_stg
      reset_registered := true
      console := sc.console ++ [": stgcrg"] }
  else if faa.OF_is_compatible "starfive,jh7110-syscrg" then
    { sc with
      cd_get_frequency := some .jh7110_sys
      cd_set_frequency := some .jh7110_sys
      cd_enable := some .jh7110_sys
      rd_reset := some .jh7110_sys
      reset_registered := true
      console := sc.console ++ [": syscrg"] }
  else sc

/-- The function `stfclock_attach` on the softc `sc`. -/
def stfclock_attach (faa : fdt_attach_args) (sc : AttachState) : Attach :=
  let map : Option AttachState :=
    if faa.fa_nreg ≥ 1 then
      if faa.bus_space_map ≠ 0 then none else some { sc with mapped := true }
    else some sc
  match map with
  | none => .returned { sc with console := sc.console ++ [": can't map registers"] }
  | some sc =>
    let sc := attach_bind faa sc
    if sc.cd_get_frequency = none then .assertion_failed sc
    else .returned { sc with clock_registered := true }

/-- A device-tree node with the given compatible strings and number of
register ranges, for which `bus_space_map` returns `map`. -/
def fdt_node (compatible : List String) (nreg map : Int) : fdt_attach_args where
  OF_is_compatible := fun name => compatible.contains name
  fa_nreg := nreg
  bus_space_map := map

/-! ## Message buffers of iked (imsg_util.c) -/

/-- The members of `struct ibuf` that imsg_util.c names: the data pointer
`buf` as the bytes it points to (`none` is NULL), the allocated `size`, the
write position `wpos` and the read position `rpos`. The structure is declared
outside this file; `rest` stands for the members the file does not name. -/
structure ibuf (Rest : Type) where
  buf : Option (List Nat)
  size : Nat
  wpos : Nat
  rpos : Nat
  rest : Rest

/-- The function `ibuf_setsize`: the returned `int` and the buffer
afterwards. -/
def ibuf_setsize {Rest : Type} (buf : ibuf Rest) (len : Nat) : Int × ibuf Rest :=
  if len > buf.size then (-1, buf)
  else (0, { buf with wpos := len })

/-! ## Theorems -/

/-! ### Register fields and results -/

theorem clkdiv_field (reg : Nat) :
    (reg &&& CLKDIV_MASK) >>> CLKDIV_SHIFT = reg % 2 ^ 24 := by
  have h : CLKDIV_MASK = 2 ^ 24 - 1 := by decide
  rw [h, Nat.and_pow_two_sub_one_eq_mod]
  rfl

theorem Result.over_ne_out_of_fuel {r : Result} (d : Nat) (h : r ≠ .out_of_fuel) :
    r.over d ≠ .out_of_fuel := by
  cases r <;> simp [Result.over] at h ⊢
  split <;> simp

theorem Result.times_ne_out_of_fuel {r : Result} (k : Nat) (h : r ≠ .out_of_fuel) :
    r.times k ≠ .out_of_fuel := by
  cases r <;> simp [Result.times] at h ⊢

/-! ### The parent relation descends in rank -/

theorem jh7100_div_dom {idx div : Nat} {x : Nat × Nat}
    (h : jh7100_div_parent idx div = some x) : idx ∈ jh7100_dividers := by
  by_contra hn
  simp only [jh7100_dividers, List.mem_cons, List.mem_singleton, List.not_mem_nil,
      not_or, or_false] at hn
  simp [jh7100_div_parent, hn] at h

theorem jh7100_div_rank {idx div parent d : Nat}
    (h : jh7100_div_parent idx div = some (parent, d)) :
    jh7100_rank parent < jh7100_rank idx := by
  have hm := jh7100_div_dom h
  simp only [jh7100_dividers, List.mem_cons, List.mem_singleton, List.not_mem_nil,
      or_false] at hm
  rcases hm with h1|h1|h1|h1|h1|h1|h1|h1|h1|h1|h1|h1|h1|h1|h1 <;> subst h1 <;>
    cases h <;> decide

theorem jh7100_mux_rank {idx reg mux parent : Nat}
    (h : jh7100_mux_parent idx reg mux = some parent) :
    jh7100_rank parent < jh7100_rank idx := by
  unfold jh7100_mux_parent at h
  split_ifs at h <;> cases h <;> subst_vars <;> decide

theorem jh7110_aon_div_dom {idx div : Nat} {x : Nat × Nat}
    (h : jh7110_aon_div_parent idx div = some x) : idx ∈ jh7110_aon_dividers := by
  by_contra hn
  simp only [jh7110_aon_dividers, List.mem_cons, List.mem_singleton, List.not_mem_nil,
      not_or, or_false] at hn
  simp [jh7110_aon_div_parent, hn] at h

theorem jh7110_aon_div_rank {idx div parent d : Nat}
    (h : jh7110_aon_div_parent idx div = some (parent, d)) :
    jh7110_aon_rank parent < jh7110_aon_rank idx := by
  have hm := jh7110_aon_div_dom h
  simp only [jh7110_aon_dividers, List.mem_cons, List.mem_singleton, List.not_mem_nil,
      or_false] at hm
  rcases hm with h1|h1|h1 <;> subst h1 <;> cases h <;> decide

theorem jh7110_aon_mux_rank {idx mux parent : Nat}
    (h : jh7110_aon_mux_parent idx mux = some parent) :
    jh7110_aon_rank parent < jh7110_aon_rank idx := by
  unfold jh7110_aon_mux_parent at h
  split_ifs at h <;> cases h <;> subst_vars <;> decide

theorem jh7110_sys_div_dom {idx div : Nat} {x : Nat × Nat}
    (h : jh7110_sys_div_parent idx div = some x) : idx ∈ jh7110_sys_dividers := by
  by_contra hn
  simp only [jh7110_sys_dividers, List.mem_cons, List.mem_singleton, List.not_mem_nil,
      not_or, or_false] at hn
  simp [jh7110_sys_div_parent, hn] at h

theorem jh7110_sys_div_rank {idx div parent d : Nat}
    (h : jh7110_sys_div_parent idx div = some (parent, d)) :
    jh7110_sys_rank parent < jh7110_sys_rank idx := by
  have hm := jh7110_sys_div_dom h
  simp only [jh7110_sys_dividers, List.mem_cons, List.mem_singleton, List.not_mem_nil,
      or_false] at hm
  rcases hm with h1|h1|h1|h1|h1|h1|h1|h1|h1|h1|h1|h1|h1|h1|h1|h1|h1|h1 <;> subst h1 <;>
    cases h <;> decide

theorem jh7110_sys_mux_rank {idx reg parent : Nat}
    (h : jh7110_sys_mux_parent idx reg = some parent) :
    jh7110_sys_rank parent < jh7110_sys_rank idx := by
  unfold jh7110_sys_mux_parent at h
  split_ifs at h <;> cases h <;> subst_vars <;> decide

/-! ### Enough fuel: the resolvers return, and more fuel changes nothing -/

theorem jh7100_rank_pll0 :
    jh7100_rank JH7100_CLK_OSC_SYS < jh7100_rank JH7100_CLK_PLL0_OUT := by decide

theorem jh7100_rank_pll1 :
    jh7100_rank JH7100_CLK_OSC_SYS < jh7100_rank JH7100_CLK_PLL1_OUT := by decide

theorem jh7100_rank_pll2 :
    jh7100_rank JH7100_CLK_PLL2_REF < jh7100_rank JH7100_CLK_PLL2_OUT := by decide

theorem jh7100_returns (sc : Softc) :
    ∀ fuel idx, jh7100_rank idx < fuel →
      stfclock_get_frequency_jh7100 fuel sc idx ≠ .out_of_fuel
  | 0, _, h => absurd h (Nat.not_lt_zero _)
  | fuel + 1, idx, h => by
    rw [stfclock_get_frequency_jh7100]
    split
    · simp
    split
    · simp
    split
    · rename_i h0
      subst h0
      exact Result.times_ne_out_of_fuel 40 (jh7100_returns sc fuel _
        (by have := jh7100_rank_pll0; omega))
    split
    · rename_i h0
      subst h0
      exact Result.times_ne_out_of_fuel 64 (jh7100_returns sc fuel _
        (by have := jh7100_rank_pll1; omega))
    split
    · rename_i h0
      subst h0
      exact Result.times_ne_out_of_fuel 55 (jh7100_returns sc fuel _
        (by have := jh7100_rank_pll2; omega))
    simp only []
    split
    · rename_i parent hp
      exact jh7100_returns sc fuel parent (by have := jh7100_mux_rank hp; omega)
    · split
      · simp
      · rename_i parent d hp
        exact Result.over_ne_out_of_fuel d (jh7100_returns sc fuel parent
          (by have := jh7100_div_rank hp; omega))

theorem jh7100_fuel_succ (sc : Softc) :
    ∀ fuel idx, jh7100_rank idx < fuel →
      stfclock_get_frequency_jh7100 (fuel + 1) sc idx
        = stfclock_get_frequency_jh7100 fuel sc idx
  | 0, _, h => absurd h (Nat.not_lt_zero _)
  | fuel + 1, idx, h => by
    conv_lhs => rw [stfclock_get_frequency_jh7100]
    conv_rhs => rw [stfclock_get_frequency_jh7100]
    split
    · rfl
    split
    · rfl
    split
    · rename_i h0
      subst h0
      rw [jh7100_fuel_succ sc fuel _ (by have := jh7100_rank_pll0; omega)]
    split
    · rename_i h0
      subst h0
      rw [jh7100_fuel_succ sc fuel _ (by have := jh7100_rank_pll1; omega)]
    split
    · rename_i h0
      subst h0
      rw [jh7100_fuel_succ sc fuel _ (by have := jh7100_rank_pll2; omega)]
    simp only []
    split
    · rename_i parent hp
      exact jh7100_fuel_succ sc fuel parent (by have := jh7100_mux_rank hp; omega)
    · split
      · rfl
      · rename_i parent d hp
        rw [jh7100_fuel_succ sc fuel parent (by have := jh7100_div_rank hp; omega)]

theorem jh7100_fuel_irrelevant (sc : Softc) (idx : Nat) :
    ∀ fuel, jh7100_rank idx < fuel →
      stfclock_get_frequency_jh7100 fuel sc idx
        = stfclock_get_frequency_jh7100 (jh7100_rank idx + 1) sc idx := by
  intro fuel h
  induction fuel with
  | zero => omega
  | succ n ih =>
    by_cases hn : jh7100_rank idx < n
    · rw [jh7100_fuel_succ sc n idx hn, ih hn]
    · have : n = jh7100_rank idx := by omega
      rw [this]

theorem jh7110_aon_returns (sc : Softc) :
    ∀ fuel idx, jh7110_aon_rank idx < fuel →
      stfclock_get_frequency_jh7110_aon fuel sc idx ≠ .out_of_fuel
  | 0, _, h => absurd h (Nat.not_lt_zero _)
  | fuel + 1, idx, h => by
    rw [stfclock_get_frequency_jh7110_aon]
    split
    · simp
    · simp only []
      split
      · rename_i parent hp
        exact jh7110_aon_returns sc fuel parent
          (by have := jh7110_aon_mux_rank hp; omega)
      · split
        · simp
        · rename_i parent d hp
          split
          · simp
          · exact Result.over_ne_out_of_fuel d (jh7110_aon_returns sc fuel parent
              (by have := jh7110_aon_div_rank hp; omega))

theorem jh7110_aon_fuel_succ (sc : Softc) :
    ∀ fuel idx, jh7110_aon_rank idx < fuel →
      stfclock_get_frequency_jh7110_aon (fuel + 1) sc idx
        = stfclock_get_frequency_jh7110_aon fuel sc idx
  | 0, _, h => absurd h (Nat.not_lt_zero _)
  | fuel + 1, idx, h => by
    conv_lhs => rw [stfclock_get_frequency_jh7110_aon]
    conv_rhs => rw [stfclock_get_frequency_jh7110_aon]
    split
    · rfl
    · simp only []
      split
      · rename_i parent hp
        exact jh7110_aon_fuel_succ sc fuel parent
          (by have := jh7110_aon_mux_rank hp; omega)
      · split
        · rfl
        · rename_i parent d hp
          rw [jh7110_aon_fuel_succ sc fuel parent
              (by have := jh7110_aon_div_rank hp; omega)]

theorem jh7110_aon_fuel_irrelevant (sc : Softc) (idx : Nat) :
    ∀ fuel, jh7110_aon_rank idx < fuel →
      stfclock_get_frequency_jh7110_aon fuel sc idx
        = stfclock_get_frequency_jh7110_aon (jh7110_aon_rank idx + 1) sc idx := by
  intro fuel h
  induction fuel with
  | zero => omega
  | succ n ih =>
    by_cases hn : jh7110_aon_rank idx < n
    · rw [jh7110_aon_fuel_succ sc n idx hn, ih hn]
    · have : n = jh7110_aon_rank idx := by omega
      rw [this]

theorem jh7110_sys_returns (sc : Softc) :
    ∀ fuel idx, jh7110_sys_rank idx < fuel →
      stfclock_get_frequency_jh7110_sys fuel sc idx ≠ .out_of_fuel
  | 0, _, h => absurd h (Nat.not_lt_zero _)
  | fuel + 1, idx, h => by
    rw [stfclock_get_frequency_jh7110_sys]
    split
    · simp
    · simp only []
      split
      · rename_i parent hp
        exact jh7110_sys_returns sc fuel parent
          (by have := jh7110_sys_mux_rank hp; omega)
      · split
        · simp
        · rename_i parent d hp
          split
          · simp
          · exact Result.over_ne_out_of_fuel d (jh7110_sys_returns sc fuel parent
              (by have := jh7110_sys_div_rank hp; omega))

theorem jh7110_sys_fuel_succ (sc : Softc) :
    ∀ fuel idx, jh7110_sys_rank idx < fuel →
      stfclock_get_frequency_jh7110_sys (fuel + 1) sc idx
        = stfclock_get_frequency_jh7110_sys fuel sc idx
  | 0, _, h => absurd h (Nat.not_lt_zero _)
  | fuel + 1, idx, h => by
    conv_lhs => rw [stfclock_get_frequency_jh7110_sys]
    conv_rhs => rw [stfclock_get_frequency_jh7110_sys]
    split
    · rfl
    · simp only []
      split
      · rename_i parent hp
        exact jh7110_sys_fuel_succ sc fuel parent
          (by have := jh7110_sys_mux_rank hp; omega)
      · split
        · rfl
        · rename_i parent d hp
          rw [jh7110_sys_fuel_succ sc fuel parent
              (by have := jh7110_sys_div_rank hp; omega)]

theorem jh7110_sys_fuel_irrelevant (sc : Softc) (idx : Nat) :
    ∀ fuel, jh7110_sys_rank idx < fuel →
      stfclock_get_frequency_jh7110_sys fuel sc idx
        = stfclock_get_frequency_jh7110_sys (jh7110_sys_rank idx + 1) sc idx := by
  intro fuel h
  induction fuel with
  | zero => omega
  | succ n ih =>
    by_cases hn : jh7110_sys_rank idx < n
    · rw [jh7110_sys_fuel_succ sc n idx hn, ih hn]
    · have : n = jh7110_sys_rank idx := by omega
      rw [this]

/-- No rank exceeds 6 (JH7100), 3 (aon), 5 (sys). -/
theorem jh7100_rank_le (idx : Nat) : jh7100_rank idx ≤ 6 := by
  unfold jh7100_rank; split_ifs <;> omega

theorem jh7110_aon_rank_le (idx : Nat) : jh7110_aon_rank idx ≤ 3 := by
  unfold jh7110_aon_rank; split_ifs <;> omega

theorem jh7110_sys_rank_le (idx : Nat) : jh7110_sys_rank idx ≤ 5 := by
  unfold jh7110_sys_rank; split_ifs <;> omega

/-- The aon and sys resolvers never execute a division by zero. -/
theorem jh7110_aon_no_fault (sc : Softc) :
    ∀ fuel idx, stfclock_get_frequency_jh7110_aon fuel sc idx ≠ .div_by_zero
  | 0, _ => by simp [stfclock_get_frequency_jh7110_aon]
  | fuel + 1, idx => by
    rw [stfclock_get_frequency_jh7110_aon]
    split
    · simp
    · simp only []
      split
      · exact jh7110_aon_no_fault sc fuel _
      · split
        · simp
        · rename_i parent d hp
          split
          · simp
          · rename_i hd
            have := jh7110_aon_no_fault sc fuel parent
            cases hr : stfclock_get_frequency_jh7110_aon fuel sc parent <;>
              simp [Result.over, hd, hr] at this ⊢

theorem jh7110_sys_no_fault (sc : Softc) :
    ∀ fuel idx, stfclock_get_frequency_jh7110_sys fuel sc idx ≠ .div_by_zero
  | 0, _ => by simp [stfclock_get_frequency_jh7110_sys]
  | fuel + 1, idx => by
    rw [stfclock_get_frequency_jh7110_sys]
    split
    · simp
    · simp only []
      split
      · exact jh7110_sys_no_fault sc fuel _
      · split
        · simp
        · rename_i parent d hp
          split
          · simp
          · rename_i hd
            have := jh7110_sys_no_fault sc fuel parent
            cases hr : stfclock_get_frequency_jh7110_sys fuel sc parent <;>
              simp [Result.over, hd, hr] at this ⊢

/-! ### One step of a divider -/

theorem Result.over_one (r : Result) : r.over 1 = r := by
  cases r <;> simp [Result.over]

theorem jh7100_div_offset {idx div : Nat} {x : Nat × Nat}
    (h : jh7100_div_parent idx div = some x) : idx * 4 % U32 = idx * 4 := by
  have hm := jh7100_div_dom h
  simp only [jh7100_dividers, List.mem_cons, List.mem_singleton, List.not_mem_nil,
      or_false] at hm
  rcases hm with h1|h1|h1|h1|h1|h1|h1|h1|h1|h1|h1|h1|h1|h1|h1 <;> subst h1 <;> rfl

theorem jh7100_div_not_other {idx div : Nat} {x : Nat × Nat}
    (h : jh7100_div_parent idx div = some x) (reg mux : Nat) :
    (idx ≠ JH7100_CLK_OSC_SYS ∧ idx ≠ JH7100_CLK_OSC_AUD ∧ idx ≠ JH7100_CLK_PLL0_OUT
      ∧ idx ≠ JH7100_CLK_PLL1_OUT ∧ idx ≠ JH7100_CLK_PLL2_OUT)
    ∧ jh7100_mux_parent idx reg mux = none := by
  have hm := jh7100_div_dom h
  simp only [jh7100_dividers, List.mem_cons, List.mem_singleton, List.not_mem_nil,
      or_false] at hm
  rcases hm with h1|h1|h1|h1|h1|h1|h1|h1|h1|h1|h1|h1|h1|h1|h1 <;> subst h1 <;>
    exact ⟨by decide, rfl⟩

theorem jh7100_div_unfold (sc : Softc) {idx parent d : Nat}
    (h : jh7100_div_parent idx (HREAD4 sc (idx * 4) % 2 ^ 24) = some (parent, d))
    (fuel : Nat) :
    stfclock_get_frequency_jh7100 (fuel + 1) sc idx
      = (stfclock_get_frequency_jh7100 fuel sc parent).over d := by
  rw [stfclock_get_frequency_jh7100]
  have ho := jh7100_div_not_other h (HREAD4 sc (idx * 4))
    ((HREAD4 sc (idx * 4) &&& CLKMUX_MASK) >>> CLKMUX_SHIFT)
  obtain ⟨⟨h1, h2, h3, h4, h5⟩, h6⟩ := ho
  simp only [if_neg h1, if_neg h2, if_neg h3, if_neg h4, if_neg h5,
    jh7100_div_offset h, h6, clkdiv_field, h]

theorem jh7100_div_step (sc : Softc) {idx parent d fuel : Nat}
    (h : jh7100_div_parent idx (HREAD4 sc (idx * 4) % 2 ^ 24) = some (parent, d))
    (hf : 7 ≤ fuel) :
    stfclock_get_frequency_jh7100 fuel sc parent ≠ .out_of_fuel ∧
    stfclock_get_frequency_jh7100 fuel sc idx
      = (stfclock_get_frequency_jh7100 fuel sc parent).over d := by
  have hr := jh7100_div_rank h
  have hle := jh7100_rank_le idx
  obtain ⟨f, rfl⟩ : ∃ f, fuel = f + 1 := ⟨fuel - 1, by omega⟩
  refine ⟨jh7100_returns sc _ _ (by omega), ?_⟩
  rw [jh7100_div_unfold sc h, jh7100_fuel_succ sc f parent (by omega)]

theorem jh7110_aon_div_offset {idx div : Nat} {x : Nat × Nat}
    (h : jh7110_aon_div_parent idx div = some x) : idx * 4 % U32 = idx * 4 := by
  have hm := jh7110_aon_div_dom h
  simp only [jh7110_aon_dividers, List.mem_cons, List.mem_singleton, List.not_mem_nil,
      or_false] at hm
  rcases hm with h1|h1|h1 <;> subst h1 <;> rfl

theorem jh7110_aon_div_not_other {idx div : Nat} {x : Nat × Nat}
    (h : jh7110_aon_div_parent idx div = some x) (mux : Nat) :
    jh7110_aon_external idx = none ∧ jh7110_aon_mux_parent idx mux = none := by
  have hm := jh7110_aon_div_dom h
  simp only [jh7110_aon_dividers, List.mem_cons, List.mem_singleton, List.not_mem_nil,
      or_false] at hm
  rcases hm with h1|h1|h1 <;> subst h1 <;> exact ⟨rfl, rfl⟩

theorem jh7110_aon_div_unfold (sc : Softc) {idx parent d : Nat}
    (h : jh7110_aon_div_parent idx (HREAD4 sc (idx * 4) % 2 ^ 24) = some (parent, d))
    (fuel : Nat) :
    stfclock_get_frequency_jh7110_aon (fuel + 1) sc idx
      = if d = 0 then .ok 0 [.zero_divisor_for "stfclock_get_frequency_jh7110_aon" idx]
        else (stfclock_get_frequency_jh7110_aon fuel sc parent).over d := by
  rw [stfclock_get_frequency_jh7110_aon]
  have ho := jh7110_aon_div_not_other h
    ((HREAD4 sc (idx * 4) &&& CLKMUX_MASK) >>> CLKMUX_SHIFT)
  simp only [ho.1, jh7110_aon_div_offset h, ho.2, clkdiv_field, h]

theorem jh7110_aon_div_step (sc : Softc) {idx parent d fuel : Nat}
    (h : jh7110_aon_div_parent idx (HREAD4 sc (idx * 4) % 2 ^ 24) = some (parent, d))
    (hd : d ≠ 0) (hf : 4 ≤ fuel) :
    stfclock_get_frequency_jh7110_aon fuel sc parent ≠ .out_of_fuel ∧
    stfclock_get_frequency_jh7110_aon fuel sc idx
      = (stfclock_get_frequency_jh7110_aon fuel sc parent).over d := by
  have hr := jh7110_aon_div_rank h
  have hle := jh7110_aon_rank_le idx
  obtain ⟨f, rfl⟩ : ∃ f, fuel = f + 1 := ⟨fuel - 1, by omega⟩
  refine ⟨jh7110_aon_returns sc _ _ (by omega), ?_⟩
  rw [jh7110_aon_div_unfold sc h, if_neg hd, jh7110_aon_fuel_succ sc f parent (by omega)]

theorem jh7110_sys_div_offset {idx div : Nat} {x : Nat × Nat}
    (h : jh7110_sys_div_parent idx div = some x) : idx * 4 % U32 = idx * 4 := by
  have hm := jh7110_sys_div_dom h
  simp only [jh7110_sys_dividers, List.mem_cons, List.mem_singleton, List.not_mem_nil,
      or_false] at hm
  rcases hm with h1|h1|h1|h1|h1|h1|h1|h1|h1|h1|h1|h1|h1|h1|h1|h1|h1|h1 <;> subst h1 <;> rfl

theorem jh7110_sys_div_not_other {idx div : Nat} {x : Nat × Nat}
    (h : jh7110_sys_div_parent idx div = some x) (reg : Nat) :
    jh7110_sys_external idx = none ∧ jh7110_sys_mux_parent idx reg = none := by
  have hm := jh7110_sys_div_dom h
  simp only [jh7110_sys_dividers, List.mem_cons, List.mem_singleton, List.not_mem_nil,
      or_false] at hm
  rcases hm with h1|h1|h1|h1|h1|h1|h1|h1|h1|h1|h1|h1|h1|h1|h1|h1|h1|h1 <;> subst h1 <;>
    exact ⟨rfl, rfl⟩

theorem jh7110_sys_div_unfold (sc : Softc) {idx parent d : Nat}
    (h : jh7110_sys_div_parent idx (HREAD4 sc (idx * 4) % 2 ^ 24) = some (parent, d))
    (fuel : Nat) :
    stfclock_get_frequency_jh7110_sys (fuel + 1) sc idx
      = if d = 0 then .ok 0 [.zero_divisor_for "stfclock_get_frequency_jh7110_sys" idx]
        else (stfclock_get_frequency_jh7110_sys fuel sc parent).over d := by
  rw [stfclock_get_frequency_jh7110_sys]
  have ho := jh7110_sys_div_not_other h (HREAD4 sc (idx * 4))
  simp only [ho.1, jh7110_sys_div_offset h, ho.2, clkdiv_field, h]

theorem jh7110_sys_div_step (sc : Softc) {idx parent d fuel : Nat}
    (h : jh7110_sys_div_parent idx (HREAD4 sc (idx * 4) % 2 ^ 24) = some (parent, d))
    (hd : d ≠ 0) (hf : 6 ≤ fuel) :
    stfclock_get_frequency_jh7110_sys fuel sc parent ≠ .out_of_fuel ∧
    stfclock_get_frequency_jh7110_sys fuel sc idx
      = (stfclock_get_frequency_jh7110_sys fuel sc parent).over d := by
  have hr := jh7110_sys_div_rank h
  have hle := jh7110_sys_rank_le idx
  obtain ⟨f, rfl⟩ : ∃ f, fuel = f + 1 := ⟨fuel - 1, by omega⟩
  refine ⟨jh7110_sys_returns sc _ _ (by omega), ?_⟩
  rw [jh7110_sys_div_unfold sc h, if_neg hd, jh7110_sys_fuel_succ sc f parent (by omega)]

/-- The divisor a divider `switch` hands back is the register field or the
constant 1. -/
theorem jh7100_div_field {idx div parent d : Nat}
    (h : jh7100_div_parent idx div = some (parent, d)) : d = div ∨ d = 1 := by
  have hm := jh7100_div_dom h
  simp only [jh7100_dividers, List.mem_cons, List.mem_singleton, List.not_mem_nil,
      or_false] at hm
  rcases hm with h1|h1|h1|h1|h1|h1|h1|h1|h1|h1|h1|h1|h1|h1|h1 <;> subst h1 <;>
    cases h <;> first | exact Or.inl rfl | exact Or.inr rfl

theorem jh7110_aon_div_field {idx div parent d : Nat}
    (h : jh7110_aon_div_parent idx div = some (parent, d)) : d = div ∨ d = 1 := by
  have hm := jh7110_aon_div_dom h
  simp only [jh7110_aon_dividers, List.mem_cons, List.mem_singleton, List.not_mem_nil,
      or_false] at hm
  rcases hm with h1|h1|h1 <;> subst h1 <;>
    cases h <;> first | exact Or.inl rfl | exact Or.inr rfl

theorem jh7110_sys_div_field {idx div parent d : Nat}
    (h : jh7110_sys_div_parent idx div = some (parent, d)) : d = div ∨ d = 1 := by
  have hm := jh7110_sys_div_dom h
  simp only [jh7110_sys_dividers, List.mem_cons, List.mem_singleton, List.not_mem_nil,
      or_false] at hm
  rcases hm with h1|h1|h1|h1|h1|h1|h1|h1|h1|h1|h1|h1|h1|h1|h1|h1|h1|h1 <;> subst h1 <;>
    cases h <;> first | exact Or.inl rfl | exact Or.inr rfl

/-- A resolver outcome that is neither fault is a returned frequency. -/
theorem Result.exists_ok {r : Result} (h1 : r ≠ .out_of_fuel) (h2 : r ≠ .div_by_zero) :
    ∃ p log, r = .ok p log := by
  cases r with
  | ok p log => exact ⟨p, log, rfl⟩
  | div_by_zero => exact absurd rfl h2
  | out_of_fuel => exact absurd rfl h1

theorem Result.over_ok {d p : Nat} {log : List Diag} (hd : d ≠ 0) :
    (Result.ok p log).over d = .ok (p / d) log := by
  simp [Result.over, hd]

/-- A divider wired with the constant divisor 1 returns what its parent
returns. -/
theorem jh7100_tap (sc : Softc) {idx parent fuel : Nat}
    (h : ∀ div, jh7100_div_parent idx div = some (parent, 1)) (hf : 7 ≤ fuel) :
    stfclock_get_frequency_jh7100 fuel sc idx
      = stfclock_get_frequency_jh7100 fuel sc parent :=
  ((jh7100_div_step sc (h _) hf).2).trans (Result.over_one _)

theorem jh7110_aon_tap (sc : Softc) {idx parent fuel : Nat}
    (h : ∀ div, jh7110_aon_div_parent idx div = some (parent, 1)) (hf : 4 ≤ fuel) :
    stfclock_get_frequency_jh7110_aon fuel sc idx
      = stfclock_get_frequency_jh7110_aon fuel sc parent :=
  ((jh7110_aon_div_step sc (h _) (by decide) hf).2).trans (Result.over_one _)

theorem jh7110_sys_tap (sc : Softc) {idx parent fuel : Nat}
    (h : ∀ div, jh7110_sys_div_parent idx div = some (parent, 1)) (hf : 6 ≤ fuel) :
    stfclock_get_frequency_jh7110_sys fuel sc idx
      = stfclock_get_frequency_jh7110_sys fuel sc parent :=
  ((jh7110_sys_div_step sc (h _) (by decide) hf).2).trans (Result.over_one _)

/-! ### Chains -/

theorem bit_24 (reg : Nat) : ((reg >>> 24) &&& 1 ≠ 0) ↔ reg.testBit 24 = true := by
  rw [Nat.testBit_to_div_mod, Nat.and_one_is_mod, Nat.shiftRight_eq_div_pow]
  simp only [decide_eq_true_eq]
  omega

theorem jh7100_step_unfold (sc : Softc) {idx parent d : Nat}
    (h : jh7100_step sc idx = some (parent, d)) (fuel : Nat) :
    stfclock_get_frequency_jh7100 (fuel + 1) sc idx
      = (stfclock_get_frequency_jh7100 fuel sc parent).over d := by
  rw [stfclock_get_frequency_jh7100]
  unfold jh7100_step at h
  split at h
  · cases h
  · rename_i hfirst
    simp only [not_or] at hfirst
    obtain ⟨h1, h2, h3, h4, h5⟩ := hfirst
    simp only [if_neg h1, if_neg h2, if_neg h3, if_neg h4, if_neg h5]
    simp only [] at h
    split at h
    · rename_i p hp
      cases h
      simp only [hp, Result.over_one]
    · rename_i hp
      simp only [hp, h]

theorem jh7110_aon_step_unfold (sc : Softc) {idx parent d : Nat}
    (h : jh7110_aon_step sc idx = some (parent, d)) (hd : d ≠ 0) (fuel : Nat) :
    stfclock_get_frequency_jh7110_aon (fuel + 1) sc idx
      = (stfclock_get_frequency_jh7110_aon fuel sc parent).over d := by
  rw [stfclock_get_frequency_jh7110_aon]
  unfold jh7110_aon_step at h
  split at h
  · cases h
  · rename_i hext
    simp only [hext]
    simp only [] at h
    split at h
    · rename_i p hp
      cases h
      simp only [hp, Result.over_one]
    · rename_i hp
      simp only [hp, h, if_neg hd]

theorem jh7110_sys_step_unfold (sc : Softc) {idx parent d : Nat}
    (h : jh7110_sys_step sc idx = some (parent, d)) (hd : d ≠ 0) (fuel : Nat) :
    stfclock_get_frequency_jh7110_sys (fuel + 1) sc idx
      = (stfclock_get_frequency_jh7110_sys fuel sc parent).over d := by
  rw [stfclock_get_frequency_jh7110_sys]
  unfold jh7110_sys_step at h
  split at h
  · cases h
  · rename_i hext
    simp only [hext]
    simp only [] at h
    split at h
    · rename_i p hp
      cases h
      simp only [hp, Result.over_one]
    · rename_i hp
      simp only [hp, h, if_neg hd]

theorem jh7100_chain_law (sc : Softc) (name : String) :
    ∀ (links : List (Nat × Nat)) (leaf fuel : Nat),
      is_chain (jh7100_step sc) leaf links = true →
      jh7100_external (chain_end leaf links) = some name →
      (∀ link ∈ links, link.2 ≠ 0) → links.length < fuel →
      stfclock_get_frequency_jh7100 fuel sc leaf
        = .ok (clock_get_frequency sc name / chain_divisor links) []
  | [], leaf, fuel, _, hend, _, hf => by
    obtain ⟨f, rfl⟩ : ∃ f, fuel = f + 1 := ⟨fuel - 1, by simp at hf; omega⟩
    simp only [chain_end, jh7100_external] at hend
    rw [stfclock_get_frequency_jh7100]
    split_ifs at hend with h1 h2
    · cases hend
      simp [h1, chain_divisor]
    · cases hend
      simp [h1, h2, chain_divisor]
  | (parent, d) :: rest, leaf, fuel, hc, hend, hd, hf => by
    obtain ⟨f, rfl⟩ : ∃ f, fuel = f + 1 := ⟨fuel - 1, by simp at hf; omega⟩
    simp only [is_chain, Bool.and_eq_true, beq_iff_eq] at hc
    have hd0 : d ≠ 0 := hd (parent, d) (List.mem_cons_self _ _)
    rw [jh7100_step_unfold sc hc.1,
      jh7100_chain_law sc name rest parent f hc.2 hend
        (fun l hl => hd l (List.mem_cons_of_mem _ hl)) (by simpa using hf),
      Result.over_ok hd0]
    simp only [chain_divisor, List.map_cons, List.prod_cons]
    rw [Nat.div_div_eq_div_mul, Nat.mul_comm]

theorem jh7110_aon_chain_law (sc : Softc) (name : String) :
    ∀ (links : List (Nat × Nat)) (leaf fuel : Nat),
      is_chain (jh7110_aon_step sc) leaf links = true →
      jh7110_aon_external (chain_end leaf links) = some name →
      (∀ link ∈ links, link.2 ≠ 0) → links.length < fuel →
      stfclock_get_frequency_jh7110_aon fuel sc leaf
        = .ok (clock_get_frequency sc name / chain_divisor links) []
  | [], leaf, fuel, _, hend, _, hf => by
    obtain ⟨f, rfl⟩ : ∃ f, fuel = f + 1 := ⟨fuel - 1, by simp at hf; omega⟩
    simp only [chain_end] at hend
    rw [stfclock_get_frequency_jh7110_aon]
    simp [hend, chain_divisor]
  | (parent, d) :: rest, leaf, fuel, hc, hend, hd, hf => by
    obtain ⟨f, rfl⟩ : ∃ f, fuel = f + 1 := ⟨fuel - 1, by simp at hf; omega⟩
    simp only [is_chain, Bool.and_eq_true, beq_iff_eq] at hc
    have hd0 : d ≠ 0 := hd (parent, d) (List.mem_cons_self _ _)
    rw [jh7110_aon_step_unfold sc hc.1 hd0,
      jh7110_aon_chain_law sc name rest parent f hc.2 hend
        (fun l hl => hd l (List.mem_cons_of_mem _ hl)) (by simpa using hf),
      Result.over_ok hd0]
    simp only [chain_divisor, List.map_cons, List.prod_cons]
    rw [Nat.div_div_eq_div_mul, Nat.mul_comm]

theorem jh7110_sys_chain_law (sc : Softc) (name : String) :
    ∀ (links : List (Nat × Nat)) (leaf fuel : Nat),
      is_chain (jh7110_sys_step sc) leaf links = true →
      jh7110_sys_external (chain_end leaf links) = some name →
      (∀ link ∈ links, link.2 ≠ 0) → links.length < fuel →
      stfclock_get_frequency_jh7110_sys fuel sc leaf
        = .ok (clock_get_frequency sc name / chain_divisor links) []
  | [], leaf, fuel, _, hend, _, hf => by
    obtain ⟨f, rfl⟩ : ∃ f, fuel = f + 1 := ⟨fuel - 1, by simp at hf; omega⟩
    simp only [chain_end] at hend
    rw [stfclock_get_frequency_jh7110_sys]
    simp [hend, chain_divisor]
  | (parent, d) :: rest, leaf, fuel, hc, hend, hd, hf => by
    obtain ⟨f, rfl⟩ : ∃ f, fuel = f + 1 := ⟨fuel - 1, by simp at hf; omega⟩
    simp only [is_chain, Bool.and_eq_true, beq_iff_eq] at hc
    have hd0 : d ≠ 0 := hd (parent, d) (List.mem_cons_self _ _)
    rw [jh7110_sys_step_unfold sc hc.1 hd0,
      jh7110_sys_chain_law sc name rest parent f hc.2 hend
        (fun l hl => hd l (List.mem_cons_of_mem _ hl)) (by simpa using hf),
      Result.over_ok hd0]
    simp only [chain_divisor, List.map_cons, List.prod_cons]
    rw [Nat.div_div_eq_div_mul, Nat.mul_comm]

/-- The steps of the chain TEMP_APB, APB_BUS, STG_AXIAHB, AXI_CFG0, BUS_ROOT. -/
theorem jh7110_sys_step_divider (sc : Softc) :
    jh7110_sys_step sc JH7110_SYSCLK_TEMP_APB
      = some (JH7110_SYSCLK_APB_BUS, HREAD4 sc (JH7110_SYSCLK_TEMP_APB * 4) % 2 ^ 24) ∧
    jh7110_sys_step sc JH7110_SYSCLK_APB_BUS
      = some (JH7110_SYSCLK_STG_AXIAHB, HREAD4 sc (JH7110_SYSCLK_APB_BUS * 4) % 2 ^ 24) ∧
    jh7110_sys_step sc JH7110_SYSCLK_STG_AXIAHB
      = some (JH7110_SYSCLK_AXI_CFG0, HREAD4 sc (JH7110_SYSCLK_STG_AXIAHB * 4) % 2 ^ 24) ∧
    jh7110_sys_step sc JH7110_SYSCLK_AXI_CFG0
      = some (JH7110_SYSCLK_BUS_ROOT, HREAD4 sc (JH7110_SYSCLK_AXI_CFG0 * 4) % 2 ^ 24) ∧
    jh7110_sys_step sc JH7110_SYSCLK_BUS_ROOT
      = some (if (HREAD4 sc (JH7110_SYSCLK_BUS_ROOT * 4)).testBit 24
          then JH7110_SYSCLK_PLL2_OUT else JH7110_SYSCLK_OSC, 1) := by
  refine ⟨?_, ?_, ?_, ?_, ?_⟩
  · rw [← clkdiv_field]; rfl
  · rw [← clkdiv_field]; rfl
  · rw [← clkdiv_field]; rfl
  · rw [← clkdiv_field]; rfl
  · have h : jh7110_sys_step sc JH7110_SYSCLK_BUS_ROOT
        = some (if (HREAD4 sc (JH7110_SYSCLK_BUS_ROOT * 4) >>> 24) &&& 1 ≠ 0
            then JH7110_SYSCLK_PLL2_OUT else JH7110_SYSCLK_OSC, 1) := rfl
    rw [h]
    by_cases hb : (HREAD4 sc (JH7110_SYSCLK_BUS_ROOT * 4)).testBit 24 = true
    · rw [if_pos hb, if_pos ((bit_24 _).2 hb)]
    · rw [if_neg hb, if_neg (fun hc => hb ((bit_24 _).1 hc))]

/-! ### Dividers that read their divisor from the register -/

/-- The register dividers are the labels of the divider `switch` for which a
zero field gives a zero divisor. -/
theorem register_dividers_eq :
    jh7100_register_dividers.Perm (jh7100_dividers.filter
        (fun idx => (jh7100_div_parent idx 0).map Prod.snd == some 0)) ∧
    jh7110_aon_register_dividers = jh7110_aon_dividers.filter
        (fun idx => (jh7110_aon_div_parent idx 0).map Prod.snd == some 0) ∧
    jh7110_sys_register_dividers = jh7110_sys_dividers.filter
        (fun idx => (jh7110_sys_div_parent idx 0).map Prod.snd == some 0) := by
  decide

theorem jh7100_register_divider (sc : Softc) {idx : Nat}
    (h : idx ∈ jh7100_register_dividers) :
    ∃ parent, jh7100_div_parent idx (HREAD4 sc (idx * 4) % 2 ^ 24)
      = some (parent, HREAD4 sc (idx * 4) % 2 ^ 24) := by
  simp only [jh7100_register_dividers, List.mem_cons, List.mem_singleton,
    List.not_mem_nil, or_false] at h
  rcases h with h1|h1|h1|h1|h1|h1|h1|h1|h1|h1 <;> subst h1 <;> exact ⟨_, rfl⟩

theorem jh7110_aon_register_divider (sc : Softc) {idx : Nat}
    (h : idx ∈ jh7110_aon_register_dividers) :
    ∃ parent, jh7110_aon_div_parent idx (HREAD4 sc (idx * 4) % 2 ^ 24)
      = some (parent, HREAD4 sc (idx * 4) % 2 ^ 24) := by
  simp only [jh7110_aon_register_dividers, List.mem_cons, List.mem_singleton,
    List.not_mem_nil, or_false] at h
  subst h
  exact ⟨_, rfl⟩

theorem jh7110_sys_register_divider (sc : Softc) {idx : Nat}
    (h : idx ∈ jh7110_sys_register_dividers) :
    ∃ parent, jh7110_sys_div_parent idx (HREAD4 sc (idx * 4) % 2 ^ 24)
      = some (parent, HREAD4 sc (idx * 4) % 2 ^ 24) := by
  simp only [jh7110_sys_register_dividers, List.mem_cons, List.mem_singleton,
    List.not_mem_nil, or_false] at h
  rcases h with h1|h1|h1|h1|h1|h1|h1|h1|h1|h1|h1|h1|h1|h1|h1 <;> subst h1 <;>
    exact ⟨_, rfl⟩

/-! ### The PLL block -/

theorem pll_fields_bounds (pllrm : Nat → Nat) (base : Nat) (pll : PllId) :
    (pll_read_fields pllrm base pll).fbdiv ≤ 4095 ∧
    (pll_read_fields pllrm base pll).frac ≤ 16777215 ∧
    (pll_read_fields pllrm base pll).prediv ≤ 63 ∧
    ((pll_read_fields pllrm base pll).postdiv1 = 1 ∨
      (pll_read_fields pllrm base pll).postdiv1 = 2 ∨
      (pll_read_fields pllrm base pll).postdiv1 = 4 ∨
      (pll_read_fields pllrm base pll).postdiv1 = 8) := by
  have hshift : ∀ y : Nat, 1 <<< (y &&& ((1 <<< 2) - 1)) = 1 ∨ 1 <<< (y &&& ((1 <<< 2) - 1)) = 2
      ∨ 1 <<< (y &&& ((1 <<< 2) - 1)) = 4 ∨ 1 <<< (y &&& ((1 <<< 2) - 1)) = 8 := by
    intro y
    have h : y &&& ((1 <<< 2) - 1) ≤ 3 := Nat.and_le_right
    interval_cases (y &&& ((1 <<< 2) - 1)) <;> simp
  cases pll <;>
    exact ⟨Nat.and_le_right, Nat.and_le_right, Nat.and_le_right, hshift _⟩

theorem pll_output_valid (parent : Nat) (f : PllFields) (hparent : parent < 2 ^ 32)
    (hfb : f.fbdiv ≤ 4095) (hfrac : f.frac ≤ 16777215)
    (hfb0 : f.fbdiv ≠ 0) (hpre0 : f.prediv ≠ 0) (hpost0 : f.postdiv1 ≠ 0)
    (hmode : f.dacpd = f.dsmpd) :
    pll_output parent f = .ok (spec_pll_output parent f % 2 ^ 32) [] := by
  unfold pll_output
  rw [if_neg (by simp [hfb0, hpre0, hpost0]), if_neg (by simp [hmode])]
  simp only [pll_expr, if_neg (show ¬(f.prediv = 0 ∨ f.postdiv1 = 0) by simp [hpre0, hpost0])]
  have h1 : f.fbdiv * 1000 % U32 = f.fbdiv * 1000 := Nat.mod_eq_of_lt (by simp only [U32]; omega)
  have h2 : f.frac * 1000 % U64 = f.frac * 1000 := Nat.mod_eq_of_lt (by simp only [U64]; omega)
  have h3 : (1 : Nat) <<< 24 = 2 ^ 24 := by decide
  have hfc : (if f.dacpd = 0 ∧ f.dsmpd = 0 then f.frac * 1000 / 2 ^ 24 else 0) ≤ 999 := by
    split
    · omega
    · omega
  rw [h1, h2, h3]
  have h4 : (f.fbdiv * 1000 + (if f.dacpd = 0 ∧ f.dsmpd = 0 then f.frac * 1000 / 2 ^ 24 else 0)) % U64
      = f.fbdiv * 1000 + (if f.dacpd = 0 ∧ f.dsmpd = 0 then f.frac * 1000 / 2 ^ 24 else 0) :=
    Nat.mod_eq_of_lt (by simp only [U64]; omega)
  rw [h4]
  have h5 : parent / 1000 * (f.fbdiv * 1000 + (if f.dacpd = 0 ∧ f.dsmpd = 0 then f.frac * 1000 / 2 ^ 24 else 0)) % U64
      = parent / 1000 * (f.fbdiv * 1000 + (if f.dacpd = 0 ∧ f.dsmpd = 0 then f.frac * 1000 / 2 ^ 24 else 0)) := by
    apply Nat.mod_eq_of_lt
    have ha : parent / 1000 ≤ 4294967 := by omega
    have hb : f.fbdiv * 1000 + (if f.dacpd = 0 ∧ f.dsmpd = 0 then f.frac * 1000 / 2 ^ 24 else 0) ≤ 4095999 := by omega
    calc _ ≤ 4294967 * 4095999 := Nat.mul_le_mul ha hb
      _ < U64 := by decide
  rw [h5]
  rfl

theorem pll_query_eq (sc : Softc) {idx : Nat} {pll : PllId} {pllrm : Nat → Nat}
    (hidx : pll_of_idx idx = some pll) (hparent : clock_get_frequency_idx sc 0 ≠ 0)
    (hnode : 0 ≤ sc.of_parent) (hrm : sc.regmap_bynode sc.of_parent = some pllrm) :
    stfclock_get_frequency_jh7110_pll sc idx
      = pll_output (clock_get_frequency_idx sc 0)
          (pll_read_fields pllrm (pll_base pll) pll) := by
  unfold stfclock_get_frequency_jh7110_pll
  simp only [if_neg hparent, hidx, if_neg (not_lt.mpr hnode), hrm]

theorem clock_get_frequency_idx_lt (sc : Softc) (i : Nat) :
    clock_get_frequency_idx sc i < 2 ^ 32 :=
  Nat.mod_lt _ (by decide)

theorem pll_query_valid (sc : Softc) {idx : Nat} {pll : PllId} {pllrm : Nat → Nat}
    (hidx : pll_of_idx idx = some pll) (hparent : clock_get_frequency_idx sc 0 ≠ 0)
    (hnode : 0 ≤ sc.of_parent) (hrm : sc.regmap_bynode sc.of_parent = some pllrm)
    (hmode : (pll_read_fields pllrm (pll_base pll) pll).dacpd
      = (pll_read_fields pllrm (pll_base pll) pll).dsmpd)
    (hfb : (pll_read_fields pllrm (pll_base pll) pll).fbdiv ≠ 0)
    (hpre : (pll_read_fields pllrm (pll_base pll) pll).prediv ≠ 0) :
    stfclock_get_frequency_jh7110_pll sc idx
      = .ok (spec_pll_output (clock_get_frequency_idx sc 0)
          (pll_read_fields pllrm (pll_base pll) pll) % 2 ^ 32) [] := by
  obtain ⟨b1, b2, -, b4⟩ := pll_fields_bounds pllrm (pll_base pll) pll
  rw [pll_query_eq sc hidx hparent hnode hrm]
  exact pll_output_valid _ _ (clock_get_frequency_idx_lt sc 0) b1 b2 hfb hpre
    (by omega) hmode

theorem spec_pll_output_mono (parent : Nat) {f1 f2 : PllFields}
    (hm1 : f1.dacpd = 0 ∧ f1.dsmpd = 0) (hm2 : f2.dacpd = 0 ∧ f2.dsmpd = 0)
    (hfb : f1.fbdiv = f2.fbdiv) (hpre : f1.prediv = f2.prediv)
    (hpost : f1.postdiv1 = f2.postdiv1) (hfrac : f1.frac ≤ f2.frac) :
    spec_pll_output parent f1 ≤ spec_pll_output parent f2 := by
  unfold spec_pll_output
  rw [if_pos hm1, if_pos hm2, hfb, hpre, hpost]
  apply Nat.div_le_div_right
  apply Nat.div_le_div_right
  apply Nat.mul_le_mul_left
  apply Nat.add_le_add_left
  apply Nat.div_le_div_right
  exact Nat.mul_le_mul_right _ hfrac

/-! ### Register writes -/

theorem testBit_one_shiftLeft (k j : Nat) : (1 <<< k).testBit j = decide (j = k) := by
  rw [Nat.shiftLeft_eq, Nat.one_mul, Nat.testBit_two_pow]
  by_cases h : j = k
  · simp [h]
  · have h2 : ¬ k = j := fun e => h e.symm
    simp [h, h2]

theorem testBit_complement (bits j : Nat) :
    (bits ^^^ (U32 - 1)).testBit j = (bits.testBit j ^^ decide (j < 32)) := by
  have h : U32 - 1 = 2 ^ 32 - 1 := rfl
  rw [Nat.testBit_xor, h, Nat.testBit_two_pow_sub_one]

theorem HREAD4_testBit_high (sc : Softc) (reg j : Nat) (hj : 32 ≤ j) :
    (HREAD4 sc reg).testBit j = false := by
  have h : HREAD4 sc reg < 2 ^ 32 := Nat.mod_lt _ (by decide)
  exact Nat.testBit_lt_two_pow (Nat.lt_of_lt_of_le h (Nat.pow_le_pow_right (by decide) hj))

theorem HWRITE4_read (m : Machine) (reg val : Nat) :
    HREAD4 (HWRITE4 m reg val).sc reg = val % U32 := by
  simp [HREAD4, HWRITE4]

theorem HWRITE4_other (m : Machine) (reg val r : Nat) (h : r ≠ reg) :
    (HWRITE4 m reg val).sc.regs r = m.sc.regs r := by
  simp [HWRITE4, h]

theorem HSET4_testBit (m : Machine) (reg k j : Nat) (hk : k < 32) :
    (HREAD4 (HSET4 m reg (1 <<< k)).sc reg).testBit j
      = if j = k then true else (HREAD4 m.sc reg).testBit j := by
  unfold HSET4
  rw [HWRITE4_read]
  have hU : U32 = 2 ^ 32 := rfl
  rw [hU, Nat.testBit_mod_two_pow, Nat.testBit_or, testBit_one_shiftLeft]
  by_cases hjk : j = k
  · subst hjk
    simp [hk]
  · by_cases hj : j < 32
    · simp [hjk, hj]
    · simp [hjk, hj]
      exact HREAD4_testBit_high m.sc reg j (by omega)

theorem HCLR4_testBit (m : Machine) (reg k j : Nat) (hk : k < 32) :
    (HREAD4 (HCLR4 m reg (1 <<< k)).sc reg).testBit j
      = if j = k then false else (HREAD4 m.sc reg).testBit j := by
  unfold HCLR4
  rw [HWRITE4_read]
  have hU : U32 = 2 ^ 32 := rfl
  rw [hU, Nat.testBit_mod_two_pow, Nat.testBit_and, ← hU, testBit_complement,
    testBit_one_shiftLeft]
  by_cases hjk : j = k
  · subst hjk
    simp [hk]
  · by_cases hj : j < 32
    · simp [hjk, hj]
    · simp [hjk, hj]
      exact HREAD4_testBit_high m.sc reg j (by omega)

theorem HREAD4_congr {sc sc2 : Softc} {reg : Nat} (h : sc2.regs reg = sc.regs reg) :
    HREAD4 sc2 reg = HREAD4 sc reg := by
  simp [HREAD4, h]

theorem set_gate_testBit (m : Machine) (idx : Nat) (enable : Bool) (j : Nat) :
    (HREAD4 (set_gate m idx enable).sc (idx * 4 % U32)).testBit j
      = if j = 31 then enable else (HREAD4 m.sc (idx * 4 % U32)).testBit j := by
  unfold set_gate
  cases enable
  · simpa using HCLR4_testBit m (idx * 4 % U32) 31 j (by decide)
  · simpa using HSET4_testBit m (idx * 4 % U32) 31 j (by decide)

theorem set_gate_other (m : Machine) (idx : Nat) (enable : Bool) (r : Nat)
    (h : r ≠ idx * 4 % U32) : (set_gate m idx enable).sc.regs r = m.sc.regs r := by
  unfold set_gate
  cases enable <;> simp [HSET4, HCLR4, HWRITE4, h]

theorem set_gate_writes (m : Machine) (idx : Nat) (enable : Bool) :
    (set_gate m idx enable).writes
      = m.writes ++ [(idx * 4 % U32, HREAD4 (set_gate m idx enable).sc (idx * 4 % U32))] := by
  unfold set_gate
  cases enable <;> simp [HSET4, HCLR4, HWRITE4, HREAD4]

theorem set_gate_log (m : Machine) (idx : Nat) (enable : Bool) :
    (set_gate m idx enable).log = m.log := by
  unfold set_gate
  cases enable <;> rfl

/-- Every gate label is small enough for `idx * 4` not to wrap. -/
theorem gates_offset :
    (∀ idx ∈ jh7100_gates, idx * 4 % U32 = idx * 4) ∧
    (∀ idx ∈ jh7110_aon_gates, idx * 4 % U32 = idx * 4) ∧
    (∀ idx ∈ jh7110_stg_gates, idx * 4 % U32 = idx * 4) ∧
    (∀ idx ∈ jh7110_sys_gates, idx * 4 % U32 = idx * 4) := by
  decide

theorem jh7100_enable_gate (m : Machine) {idx : Nat} (enable : Bool)
    (h : idx ∈ jh7100_gates) :
    stfclock_enable_jh7100 m idx enable = set_gate m idx enable := by
  simp only [stfclock_enable_jh7100, if_pos h]

theorem jh7110_aon_gates_not_composite :
    ∀ idx ∈ jh7110_aon_gates, idx ≠ JH7110_AONCLK_GMAC0_TX_INV := by
  decide

theorem jh7110_aon_enable_gate (m : Machine) {idx : Nat} (enable : Bool)
    (h : idx ∈ jh7110_aon_gates) :
    stfclock_enable_jh7110_aon m idx enable = set_gate m idx enable := by
  simp only [stfclock_enable_jh7110_aon, if_neg (jh7110_aon_gates_not_composite idx h),
    if_pos h]

theorem jh7110_stg_enable_gate (m : Machine) {idx : Nat} (enable : Bool)
    (h : idx ∈ jh7110_stg_gates) :
    stfclock_enable_jh7110_stg m idx enable = set_gate m idx enable := by
  simp only [stfclock_enable_jh7110_stg, if_pos h]

theorem jh7110_sys_gates_not_composite :
    ∀ idx ∈ jh7110_sys_gates, idx ≠ JH7110_SYSCLK_GMAC1_TX_INV := by
  decide

theorem jh7110_sys_enable_gate (m : Machine) {idx : Nat} (enable : Bool) (fuel : Nat)
    (h : idx ∈ jh7110_sys_gates) (h1 : idx ≠ JH7110_SYSCLK_GMAC1_GTXC)
    (h0 : idx ≠ JH7110_SYSCLK_GMAC0_GTXC) :
    stfclock_enable_jh7110_sys (fuel + 1) m idx enable = some (set_gate m idx enable) := by
  simp only [stfclock_enable_jh7110_sys, if_neg (jh7110_sys_gates_not_composite idx h),
    if_neg h1, if_neg h0, if_pos h]

theorem jh7110_sys_enable_gtxc (m : Machine) (enable : Bool) (fuel : Nat) :
    stfclock_enable_jh7110_sys (fuel + 2) m JH7110_SYSCLK_GMAC1_GTXC enable
      = some (set_gate (set_gate m JH7110_SYSCLK_GMAC1_GTXCLK enable)
          JH7110_SYSCLK_GMAC1_GTXC enable) ∧
    stfclock_enable_jh7110_sys (fuel + 2) m JH7110_SYSCLK_GMAC0_GTXC enable
      = some (set_gate (set_gate m JH7110_SYSCLK_GMAC0_GTXCLK enable)
          JH7110_SYSCLK_GMAC0_GTXC enable) := by
  constructor <;> rfl

/-! ### PLL modes -/

theorem pll_output_frac_irrelevant (parent : Nat) {f f2 : PllFields}
    (hd : f.dacpd = 1) (hs : f.dsmpd = 1) (hd2 : f2.dacpd = 1) (hs2 : f2.dsmpd = 1)
    (hfb : f2.fbdiv = f.fbdiv) (hpre : f2.prediv = f.prediv)
    (hpost : f2.postdiv1 = f.postdiv1) :
    pll_output parent f2 = pll_output parent f := by
  simp [pll_output, hd, hs, hd2, hs2, hfb, hpre, hpost]

/-! ### The effect of a gate write -/

/-- Gating from a state `m0` that agrees with `m` on the gate register: bit
31 becomes `enable`, the other bits are those of `m`. -/
theorem set_gate_from (m m0 : Machine) (idx : Nat) (enable : Bool)
    (h : m0.sc.regs (idx * 4 % U32) = m.sc.regs (idx * 4 % U32)) (j : Nat) :
    (HREAD4 (set_gate m0 idx enable).sc (idx * 4 % U32)).testBit j
      = if j = 31 then enable else (HREAD4 m.sc (idx * 4 % U32)).testBit j := by
  rw [set_gate_testBit, HREAD4_congr h]

theorem set_gate_effect (m : Machine) (idx : Nat) (enable : Bool)
    (hoff : idx * 4 % U32 = idx * 4) :
    (∀ j, (HREAD4 (set_gate m idx enable).sc (idx * 4)).testBit j
        = if j = 31 then enable else (HREAD4 m.sc (idx * 4)).testBit j) ∧
    (∀ r, r ≠ idx * 4 → (set_gate m idx enable).sc.regs r = m.sc.regs r) := by
  constructor
  · intro j
    have h := set_gate_testBit m idx enable j
    rwa [hoff] at h
  · intro r hr
    exact set_gate_other m idx enable r (by rw [hoff]; exact hr)

theorem set_gate_twice_effect (m : Machine) (up idx : Nat) (enable : Bool)
    (hup : up * 4 % U32 = up * 4) (hoff : idx * 4 % U32 = idx * 4)
    (hne : idx * 4 ≠ up * 4) :
    (∀ j, (HREAD4 (set_gate (set_gate m up enable) idx enable).sc (idx * 4)).testBit j
        = if j = 31 then enable else (HREAD4 m.sc (idx * 4)).testBit j) ∧
    (∀ j, (HREAD4 (set_gate (set_gate m up enable) idx enable).sc (up * 4)).testBit j
        = if j = 31 then enable else (HREAD4 m.sc (up * 4)).testBit j) ∧
    (∀ r, r ≠ idx * 4 → r ≠ up * 4 →
      (set_gate (set_gate m up enable) idx enable).sc.regs r = m.sc.regs r) := by
  obtain ⟨a1, a2⟩ := set_gate_effect m up enable hup
  obtain ⟨b1, b2⟩ := set_gate_effect (set_gate m up enable) idx enable hoff
  refine ⟨?_, ?_, ?_⟩
  · intro j
    rw [b1 j, HREAD4_congr (a2 _ hne)]
  · intro j
    rw [HREAD4_congr (b2 _ (Ne.symm hne)), a1 j]
  · intro r h1 h2
    rw [b2 r h1, a2 r h2]

/-- Gate on, then gate off, from states that agree with `m` on the gate
register: bit 31 ends clear, the other bits are those of `m`. -/
theorem set_gate_round_trip (m m0 m1 : Machine) (idx : Nat)
    (hoff : idx * 4 % U32 = idx * 4)
    (h0 : m0.sc.regs (idx * 4) = m.sc.regs (idx * 4))
    (h1 : m1.sc.regs (idx * 4) = (set_gate m0 idx true).sc.regs (idx * 4)) :
    (∀ j, (HREAD4 (set_gate m1 idx false).sc (idx * 4)).testBit j
        = if j = 31 then false else (HREAD4 m.sc (idx * 4)).testBit j) ∧
    ((HREAD4 m.sc (idx * 4)).testBit 31 = false →
      HREAD4 (set_gate m1 idx false).sc (idx * 4) = HREAD4 m.sc (idx * 4)) := by
  have key : ∀ j, (HREAD4 (set_gate m1 idx false).sc (idx * 4)).testBit j
      = if j = 31 then false else (HREAD4 m.sc (idx * 4)).testBit j := by
    intro j
    have e1 := set_gate_from (set_gate m0 idx true) m1 idx false (by rw [hoff]; exact h1) j
    have e0 := set_gate_from m m0 idx true (by rw [hoff]; exact h0) j
    rw [hoff] at e1 e0
    rw [e1, e0]
    by_cases hj : j = 31 <;> simp [hj]
  refine ⟨key, fun hclear => Nat.eq_of_testBit_eq (fun j => ?_)⟩
  rw [key j]
  by_cases hj : j = 31
  · rw [if_pos hj, hj, hclear]
  · rw [if_neg hj]

/-- Every label of the sys gate `switch` ends in the gate statement on its
own register, from a state that agrees with the initial one on that
register. -/
theorem jh7110_sys_enable_own (m : Machine) {idx : Nat} (enable : Bool) (fuel : Nat)
    (h : idx ∈ jh7110_sys_gates) :
    ∃ m0, stfclock_enable_jh7110_sys (fuel + 2) m idx enable
        = some (set_gate m0 idx enable)
      ∧ m0.sc.regs (idx * 4) = m.sc.regs (idx * 4) := by
  by_cases h1 : idx = JH7110_SYSCLK_GMAC1_GTXC
  · subst h1
    exact ⟨_, (jh7110_sys_enable_gtxc m enable fuel).1,
      set_gate_other m _ enable _ (by decide)⟩
  · by_cases h0 : idx = JH7110_SYSCLK_GMAC0_GTXC
    · subst h0
      exact ⟨_, (jh7110_sys_enable_gtxc m enable fuel).2,
        set_gate_other m _ enable _ (by decide)⟩
    · exact ⟨m, jh7110_sys_enable_gate m enable (fuel + 1) h h1 h0, rfl⟩

/-! ### The effect of a reset write -/

theorem reset_offset (base idx : Nat) (hb : base ≤ 0x2f8) (h : idx < 2 ^ 32) :
    (base + idx / 32 * 4 % U32) % U32 = base + 4 * (idx / 32) := by
  have hU : U32 = 4294967296 := by decide
  rw [hU]
  omega

theorem write_bit_effect (m : Machine) (off k : Nat) (b : Bool) (hk : k < 32) :
    (∀ j, (HREAD4 (if b then HSET4 m off (1 <<< k) else HCLR4 m off (1 <<< k)).sc
          off).testBit j
        = if j = k then b else (HREAD4 m.sc off).testBit j) ∧
    (∀ r, r ≠ off →
      (if b then HSET4 m off (1 <<< k) else HCLR4 m off (1 <<< k)).sc.regs r
        = m.sc.regs r) ∧
    (if b then HSET4 m off (1 <<< k) else HCLR4 m off (1 <<< k)).log = m.log ∧
    (if b then HSET4 m off (1 <<< k) else HCLR4 m off (1 <<< k)).writes
      = m.writes ++ [(off,
          HREAD4 (if b then HSET4 m off (1 <<< k) else HCLR4 m off (1 <<< k)).sc off)] := by
  cases b
  · refine ⟨fun j => ?_, fun r hr => ?_, rfl, ?_⟩
    · simpa using HCLR4_testBit m off k j hk
    · simp [HCLR4, HWRITE4, hr]
    · simp [HCLR4, HWRITE4, HREAD4]
  · refine ⟨fun j => ?_, fun r hr => ?_, rfl, ?_⟩
    · simpa using HSET4_testBit m off k j hk
    · simp [HSET4, HWRITE4, hr]
    · simp [HSET4, HWRITE4, HREAD4]

theorem write_bit_round_trip (m : Machine) (off k : Nat) (hk : k < 32) :
    (∀ j, (HREAD4 (HCLR4 (HSET4 m off (1 <<< k)) off (1 <<< k)).sc off).testBit j
        = if j = k then false else (HREAD4 m.sc off).testBit j) ∧
    ((HREAD4 m.sc off).testBit k = false →
      HREAD4 (HCLR4 (HSET4 m off (1 <<< k)) off (1 <<< k)).sc off = HREAD4 m.sc off) := by
  have key : ∀ j, (HREAD4 (HCLR4 (HSET4 m off (1 <<< k)) off (1 <<< k)).sc off).testBit j
      = if j = k then false else (HREAD4 m.sc off).testBit j := by
    intro j
    rw [HCLR4_testBit _ off k j hk, HSET4_testBit m off k j hk]
    by_cases hj : j = k <;> simp [hj]
  refine ⟨key, fun hclear => Nat.eq_of_testBit_eq (fun j => ?_)⟩
  rw [key j]
  by_cases hj : j = k
  · rw [if_pos hj, hj, hclear]
  · rw [if_neg hj]

theorem stfclock_reset_jh7110_aon_eq (m : Machine) (idx : Nat) (assert : Bool)
    (h : idx < 2 ^ 32) :
    stfclock_reset_jh7110_aon m idx assert
      = if assert then HSET4 m (JH7110_AONCLK_ASSERT_OFFSET + 4 * (idx / 32))
          (1 <<< (idx % 32))
        else HCLR4 m (JH7110_AONCLK_ASSERT_OFFSET + 4 * (idx / 32)) (1 <<< (idx % 32)) := by
  simp only [stfclock_reset_jh7110_aon, reset_offset JH7110_AONCLK_ASSERT_OFFSET idx (by decide) h]

theorem stfclock_reset_jh7110_stg_eq (m : Machine) (idx : Nat) (assert : Bool)
    (h : idx < 2 ^ 32) :
    stfclock_reset_jh7110_stg m idx assert
      = if assert then HSET4 m (JH7110_STGCLK_ASSERT_OFFSET + 4 * (idx / 32))
          (1 <<< (idx % 32))
        else HCLR4 m (JH7110_STGCLK_ASSERT_OFFSET + 4 * (idx / 32)) (1 <<< (idx % 32)) := by
  simp only [stfclock_reset_jh7110_stg, reset_offset JH7110_STGCLK_ASSERT_OFFSET idx (by decide) h]

theorem stfclock_reset_jh7110_sys_eq (m : Machine) (idx : Nat) (assert : Bool)
    (h : idx < 2 ^ 32) :
    stfclock_reset_jh7110_sys m idx assert
      = if assert then HSET4 m (JH7110_SYSCLK_ASSERT_OFFSET + 4 * (idx / 32))
          (1 <<< (idx % 32))
        else HCLR4 m (JH7110_SYSCLK_ASSERT_OFFSET + 4 * (idx / 32)) (1 <<< (idx % 32)) := by
  simp only [stfclock_reset_jh7110_sys, reset_offset JH7110_SYSCLK_ASSERT_OFFSET idx (by decide) h]

/-! ### The register bits a query depends on -/

theorem clkmux_field (reg : Nat) :
    (reg &&& CLKMUX_MASK) >>> CLKMUX_SHIFT = reg / 2 ^ 24 % 4 := by
  have hM : CLKMUX_MASK = (2 ^ 2 - 1) <<< 24 := by decide
  have h4 : (4 : Nat) = 2 ^ 2 := rfl
  have hS : CLKMUX_SHIFT = 24 := rfl
  refine Nat.eq_of_testBit_eq (fun i => ?_)
  rw [h4, hS, ← Nat.shiftRight_eq_div_pow, Nat.testBit_mod_two_pow, Nat.testBit_shiftRight,
    Nat.testBit_shiftRight, Nat.testBit_and, hM, Nat.testBit_shiftLeft,
    Nat.testBit_two_pow_sub_one]
  by_cases hi : i < 2 <;> simp [hi]

theorem bit_24_field (reg : Nat) : (reg >>> 24) &&& 1 = reg / 2 ^ 24 % 2 := by
  rw [Nat.and_one_is_mod, Nat.shiftRight_eq_div_pow]

theorem fields_of_low_bits {a b : Nat} (h : a % 2 ^ 26 = b % 2 ^ 26) :
    (a &&& CLKMUX_MASK) >>> CLKMUX_SHIFT = (b &&& CLKMUX_MASK) >>> CLKMUX_SHIFT ∧
    (a >>> 24) &&& 1 = (b >>> 24) &&& 1 ∧
    (a &&& CLKDIV_MASK) >>> CLKDIV_SHIFT = (b &&& CLKDIV_MASK) >>> CLKDIV_SHIFT := by
  rw [clkmux_field, clkmux_field, bit_24_field, bit_24_field, clkdiv_field, clkdiv_field]
  have e26 : (2 : Nat) ^ 26 = 67108864 := by norm_num
  have e24 : (2 : Nat) ^ 24 = 16777216 := by norm_num
  rw [e26] at h
  rw [e24]
  omega

theorem jh7100_mux_dom {idx reg mux parent : Nat}
    (h : jh7100_mux_parent idx reg mux = some parent) : idx ∈ jh7100_readers := by
  by_contra hn
  simp only [jh7100_readers, jh7100_dividers, List.cons_append, List.nil_append,
    List.mem_cons, List.mem_singleton, List.not_mem_nil, not_or, or_false] at hn
  simp [jh7100_mux_parent, hn] at h

theorem jh7100_div_reader {idx div : Nat} {x : Nat × Nat}
    (h : jh7100_div_parent idx div = some x) : idx ∈ jh7100_readers :=
  List.mem_append_right _ (jh7100_div_dom h)

theorem jh7100_mux_parent_congr (idx mux : Nat) {a b : Nat}
    (h : (a >>> 24) &&& 1 = (b >>> 24) &&& 1) :
    jh7100_mux_parent idx a mux = jh7100_mux_parent idx b mux := by
  unfold jh7100_mux_parent
  simp only [h]

theorem readers_offset :
    (∀ idx ∈ jh7100_readers, idx * 4 % U32 = idx * 4) ∧
    (∀ idx ∈ jh7110_aon_readers, idx * 4 % U32 = idx * 4) ∧
    (∀ idx ∈ jh7110_sys_readers, idx * 4 % U32 = idx * 4) := by
  decide

theorem clock_get_frequency_congr {sc sc2 : Softc}
    (h : sc2.clock_frequency = sc.clock_frequency) (name : String) :
    clock_get_frequency sc2 name = clock_get_frequency sc name := by
  simp [clock_get_frequency, h]

theorem jh7100_query_congr (sc sc2 : Softc)
    (hclk : sc2.clock_frequency = sc.clock_frequency)
    (hregs : ∀ idx ∈ jh7100_readers,
      HREAD4 sc2 (idx * 4) % 2 ^ 26 = HREAD4 sc (idx * 4) % 2 ^ 26) :
    ∀ fuel idx, stfclock_get_frequency_jh7100 fuel sc2 idx
      = stfclock_get_frequency_jh7100 fuel sc idx := by
  intro fuel
  induction fuel with
  | zero => intro idx; rfl
  | succ fuel ih =>
    intro idx
    conv_lhs => rw [stfclock_get_frequency_jh7100]
    conv_rhs => rw [stfclock_get_frequency_jh7100]
    simp only [clock_get_frequency_congr hclk, ih]
    by_cases hm : idx ∈ jh7100_readers
    · obtain ⟨h1, h2, h3⟩ := fields_of_low_bits (hregs idx hm)
      rw [readers_offset.1 idx hm, h1, h3, jh7100_mux_parent_congr idx _ h2]
    · have hmux : ∀ reg mux, jh7100_mux_parent idx reg mux = none := by
        intro reg mux
        cases h : jh7100_mux_parent idx reg mux with
        | none => rfl
        | some p => exact absurd (jh7100_mux_dom h) hm
      have hdiv : ∀ div, jh7100_div_parent idx div = none := by
        intro div
        cases h : jh7100_div_parent idx div with
        | none => rfl
        | some p => exact absurd (jh7100_div_reader h) hm
      simp only [hmux, hdiv]

theorem jh7110_aon_mux_dom {idx mux parent : Nat}
    (h : jh7110_aon_mux_parent idx mux = some parent) : idx ∈ jh7110_aon_readers := by
  by_contra hn
  simp only [jh7110_aon_readers, jh7110_aon_dividers, List.cons_append, List.nil_append,
    List.mem_cons, List.mem_singleton, List.not_mem_nil, not_or, or_false] at hn
  simp [jh7110_aon_mux_parent, hn] at h

theorem jh7110_aon_div_reader {idx div : Nat} {x : Nat × Nat}
    (h : jh7110_aon_div_parent idx div = some x) : idx ∈ jh7110_aon_readers :=
  List.mem_append_right _ (jh7110_aon_div_dom h)

theorem jh7110_aon_query_congr (sc sc2 : Softc)
    (hclk : sc2.clock_frequency = sc.clock_frequency)
    (hregs : ∀ idx ∈ jh7110_aon_readers,
      HREAD4 sc2 (idx * 4) % 2 ^ 26 = HREAD4 sc (idx * 4) % 2 ^ 26) :
    ∀ fuel idx, stfclock_get_frequency_jh7110_aon fuel sc2 idx
      = stfclock_get_frequency_jh7110_aon fuel sc idx := by
  intro fuel
  induction fuel with
  | zero => intro idx; rfl
  | succ fuel ih =>
    intro idx
    conv_lhs => rw [stfclock_get_frequency_jh7110_aon]
    conv_rhs => rw [stfclock_get_frequency_jh7110_aon]
    simp only [clock_get_frequency_congr hclk, ih]
    by_cases hm : idx ∈ jh7110_aon_readers
    · obtain ⟨h1, _, h3⟩ := fields_of_low_bits (hregs idx hm)
      rw [readers_offset.2.1 idx hm, h1, h3]
    · have hmux : ∀ mux, jh7110_aon_mux_parent idx mux = none := by
        intro mux
        cases h : jh7110_aon_mux_parent idx mux with
        | none => rfl
        | some p => exact absurd (jh7110_aon_mux_dom h) hm
      have hdiv : ∀ div, jh7110_aon_div_parent idx div = none := by
        intro div
        cases h : jh7110_aon_div_parent idx div with
        | none => rfl
        | some p => exact absurd (jh7110_aon_div_reader h) hm
      simp only [hmux, hdiv]

theorem jh7110_sys_mux_dom {idx reg parent : Nat}
    (h : jh7110_sys_mux_parent idx reg = some parent) : idx ∈ jh7110_sys_readers := by
  by_contra hn
  simp only [jh7110_sys_readers, jh7110_sys_dividers, List.cons_append, List.nil_append,
    List.mem_cons, List.mem_singleton, List.not_mem_nil, not_or, or_false] at hn
  simp [jh7110_sys_mux_parent, hn] at h

theorem jh7110_sys_div_reader {idx div : Nat} {x : Nat × Nat}
    (h : jh7110_sys_div_parent idx div = some x) : idx ∈ jh7110_sys_readers :=
  List.mem_append_right _ (jh7110_sys_div_dom h)

theorem jh7110_sys_mux_parent_congr (idx : Nat) {a b : Nat}
    (h : (a >>> 24) &&& 1 = (b >>> 24) &&& 1) :
    jh7110_sys_mux_parent idx a = jh7110_sys_mux_parent idx b := by
  unfold jh7110_sys_mux_parent
  simp only [h]

theorem jh7110_sys_query_congr (sc sc2 : Softc)
    (hclk : sc2.clock_frequency = sc.clock_frequency)
    (hregs : ∀ idx ∈ jh7110_sys_readers,
      HREAD4 sc2 (idx * 4) % 2 ^ 26 = HREAD4 sc (idx * 4) % 2 ^ 26) :
    ∀ fuel idx, stfclock_get_frequency_jh7110_sys fuel sc2 idx
      = stfclock_get_frequency_jh7110_sys fuel sc idx := by
  intro fuel
  induction fuel with
  | zero => intro idx; rfl
  | succ fuel ih =>
    intro idx
    conv_lhs => rw [stfclock_get_frequency_jh7110_sys]
    conv_rhs => rw [stfclock_get_frequency_jh7110_sys]
    simp only [clock_get_frequency_congr hclk, ih]
    by_cases hm : idx ∈ jh7110_sys_readers
    · obtain ⟨_, h2, h3⟩ := fields_of_low_bits (hregs idx hm)
      rw [readers_offset.2.2 idx hm, h3, jh7110_sys_mux_parent_congr idx h2]
    · have hmux : ∀ reg, jh7110_sys_mux_parent idx reg = none := by
        intro reg
        cases h : jh7110_sys_mux_parent idx reg with
        | none => rfl
        | some p => exact absurd (jh7110_sys_mux_dom h) hm
      have hdiv : ∀ div, jh7110_sys_div_parent idx div = none := by
        intro div
        cases h : jh7110_sys_div_parent idx div with
        | none => rfl
        | some p => exact absurd (jh7110_sys_div_reader h) hm
      simp only [hmux, hdiv]

/-- A gate write keeps bits 0..25 of every register. -/
theorem set_gate_low_bits (m : Machine) (idx : Nat) (enable : Bool) (r : Nat) :
    HREAD4 (set_gate m idx enable).sc r % 2 ^ 26 = HREAD4 m.sc r % 2 ^ 26 := by
  by_cases hr : r = idx * 4 % U32
  · subst hr
    refine Nat.eq_of_testBit_eq (fun j => ?_)
    rw [Nat.testBit_mod_two_pow, Nat.testBit_mod_two_pow, set_gate_testBit]
    by_cases hj : j < 26
    · have h31 : j ≠ 31 := by omega
      simp [hj, h31]
    · simp [hj]
  · rw [HREAD4_congr (set_gate_other m idx enable r hr)]

theorem set_gate_clock_frequency (m : Machine) (idx : Nat) (enable : Bool) :
    (set_gate m idx enable).sc.clock_frequency = m.sc.clock_frequency := by
  unfold set_gate
  cases enable <;> rfl

/-! ### Gating keeps the decoded fields -/

theorem same_fields_refl (sc : Softc) : same_fields sc sc := ⟨rfl, fun _ => rfl⟩

theorem same_fields_trans {a b c : Softc} (h1 : same_fields a b) (h2 : same_fields b c) :
    same_fields a c :=
  ⟨h2.1.trans h1.1, fun r => (h2.2 r).trans (h1.2 r)⟩

theorem set_gate_same_fields (m : Machine) (idx : Nat) (enable : Bool) :
    same_fields m.sc (set_gate m idx enable).sc :=
  ⟨set_gate_clock_frequency m idx enable, set_gate_low_bits m idx enable⟩

theorem jh7100_enable_same_fields (m : Machine) (idx : Nat) (enable : Bool) :
    same_fields m.sc (stfclock_enable_jh7100 m idx enable).sc := by
  unfold stfclock_enable_jh7100
  split_ifs
  · exact set_gate_same_fields m idx enable
  · exact same_fields_refl _
  · exact same_fields_refl _

theorem jh7110_aon_enable_same_fields (m : Machine) (idx : Nat) (enable : Bool) :
    same_fields m.sc (stfclock_enable_jh7110_aon m idx enable).sc := by
  simp only [stfclock_enable_jh7110_aon]
  split_ifs
  · exact set_gate_same_fields m _ enable
  · exact same_fields_refl _
  · exact set_gate_same_fields m _ enable
  · exact same_fields_refl _

theorem jh7110_sys_enable_same_fields :
    ∀ (fuel : Nat) (m : Machine) (idx : Nat) (enable : Bool) (m2 : Machine),
      stfclock_enable_jh7110_sys fuel m idx enable = some m2 → same_fields m.sc m2.sc := by
  intro fuel
  induction fuel with
  | zero => intro m idx enable m2 h; simp [stfclock_enable_jh7110_sys] at h
  | succ fuel ih =>
    intro m idx enable m2 h
    have tail : ∀ (m1 : Machine) (i : Nat), same_fields m.sc m1.sc →
        (if i ∈ jh7110_sys_gates then some (set_gate m1 i enable)
          else some (printf m1 (.unknown_clock "stfclock_enable_jh7110_sys" i))) = some m2 →
        same_fields m.sc m2.sc := by
      intro m1 i h1 h2
      split_ifs at h2
      · cases h2
        exact same_fields_trans h1 (set_gate_same_fields m1 i enable)
      · cases h2
        exact h1
    rw [stfclock_enable_jh7110_sys] at h
    by_cases hinv : idx = JH7110_SYSCLK_GMAC1_TX_INV
    · simp only [if_pos hinv] at h
      exact tail m _ (same_fields_refl _) h
    · simp only [if_neg hinv] at h
      by_cases h1 : idx = JH7110_SYSCLK_GMAC1_GTXC
      · simp only [if_pos h1] at h
        cases hp : stfclock_enable_jh7110_sys fuel m JH7110_SYSCLK_GMAC1_GTXCLK enable with
        | none => simp [hp] at h
        | some m1 =>
          simp only [hp, Option.map_some'] at h
          exact tail m1 _ (ih m _ enable m1 hp) h
      · simp only [if_neg h1] at h
        by_cases h0 : idx = JH7110_SYSCLK_GMAC0_GTXC
        · simp only [if_pos h0] at h
          cases hp : stfclock_enable_jh7110_sys fuel m JH7110_SYSCLK_GMAC0_GTXCLK enable with
          | none => simp [hp] at h
          | some m1 =>
            simp only [hp, Option.map_some'] at h
            exact tail m1 _ (ih m _ enable m1 hp) h
        · simp only [if_neg h0] at h
          exact tail m _ (same_fields_refl _) h

theorem jh7110_sys_enable_returns (m : Machine) (idx : Nat) (enable : Bool) (fuel : Nat) :
    ∃ m2, stfclock_enable_jh7110_sys (fuel + 2) m idx enable = some m2 := by
  by_cases h1 : idx = JH7110_SYSCLK_GMAC1_GTXC
  · subst h1
    exact ⟨_, (jh7110_sys_enable_gtxc m enable fuel).1⟩
  · by_cases h0 : idx = JH7110_SYSCLK_GMAC0_GTXC
    · subst h0
      exact ⟨_, (jh7110_sys_enable_gtxc m enable fuel).2⟩
    · rw [stfclock_enable_jh7110_sys]
      simp only [if_neg h1, if_neg h0]
      by_cases hinv : idx = JH7110_SYSCLK_GMAC1_TX_INV
      · simp only [if_pos hinv]
        split_ifs <;> exact ⟨_, rfl⟩
      · simp only [if_neg hinv]
        split_ifs <;> exact ⟨_, rfl⟩

theorem jh7100_same_fields_query {sc sc2 : Softc} (h : same_fields sc sc2) (fuel idx : Nat) :
    stfclock_get_frequency_jh7100 fuel sc2 idx = stfclock_get_frequency_jh7100 fuel sc idx :=
  jh7100_query_congr sc sc2 h.1 (fun i _ => h.2 (i * 4)) fuel idx

theorem jh7110_aon_same_fields_query {sc sc2 : Softc} (h : same_fields sc sc2)
    (fuel idx : Nat) :
    stfclock_get_frequency_jh7110_aon fuel sc2 idx
      = stfclock_get_frequency_jh7110_aon fuel sc idx :=
  jh7110_aon_query_congr sc sc2 h.1 (fun i _ => h.2 (i * 4)) fuel idx

theorem jh7110_sys_same_fields_query {sc sc2 : Softc} (h : same_fields sc sc2)
    (fuel idx : Nat) :
    stfclock_get_frequency_jh7110_sys fuel sc2 idx
      = stfclock_get_frequency_jh7110_sys fuel sc idx :=
  jh7110_sys_query_congr sc sc2 h.1 (fun i _ => h.2 (i * 4)) fuel idx


/-! ### Resets and the registers a query decodes -/

theorem readers_below_reset :
    (∀ c ∈ jh7110_aon_readers, c * 4 < JH7110_AONCLK_ASSERT_OFFSET) ∧
    (∀ c ∈ jh7110_sys_readers, c * 4 < JH7110_SYSCLK_ASSERT_OFFSET) := by
  decide

theorem write_bit_clock_frequency (m : Machine) (off bits : Nat) (b : Bool) :
    (if b then HSET4 m off bits else HCLR4 m off bits).sc.clock_frequency
      = m.sc.clock_frequency := by
  cases b <;> rfl

theorem write_bit_query_regs (m : Machine) (off k : Nat) (b : Bool) (c : Nat)
    (h : c * 4 < off) :
    HREAD4 (if b then HSET4 m off (1 <<< k) else HCLR4 m off (1 <<< k)).sc (c * 4) % 2 ^ 26
      = HREAD4 m.sc (c * 4) % 2 ^ 26 := by
  have hne : c * 4 ≠ off := by omega
  have hr : (if b then HSET4 m off (1 <<< k) else HCLR4 m off (1 <<< k)).sc.regs (c * 4)
      = m.sc.regs (c * 4) := by
    cases b
    · simp [HCLR4, HWRITE4, hne]
    · simp [HSET4, HWRITE4, hne]
  rw [HREAD4_congr hr]

theorem jh7110_aon_reset_query (m : Machine) (idx : Nat) (assert : Bool)
    (h : idx < 2 ^ 32) (fuel cid : Nat) :
    stfclock_get_frequency_jh7110_aon fuel (stfclock_reset_jh7110_aon m idx assert).sc cid
      = stfclock_get_frequency_jh7110_aon fuel m.sc cid := by
  rw [stfclock_reset_jh7110_aon_eq m idx assert h]
  refine jh7110_aon_query_congr _ _ (write_bit_clock_frequency m _ _ assert)
    (fun c hc => ?_) fuel cid
  exact write_bit_query_regs m _ _ assert c
    (Nat.lt_of_lt_of_le (readers_below_reset.1 c hc) (Nat.le_add_right _ _))

theorem jh7110_sys_reset_query (m : Machine) (idx : Nat) (assert : Bool)
    (h : idx < 2 ^ 32) (fuel cid : Nat) :
    stfclock_get_frequency_jh7110_sys fuel (stfclock_reset_jh7110_sys m idx assert).sc cid
      = stfclock_get_frequency_jh7110_sys fuel m.sc cid := by
  rw [stfclock_reset_jh7110_sys_eq m idx assert h]
  refine jh7110_sys_query_congr _ _ (write_bit_clock_frequency m _ _ assert)
    (fun c hc => ?_) fuel cid
  exact write_bit_query_regs m _ _ assert c
    (Nat.lt_of_lt_of_le (readers_below_reset.2 c hc) (Nat.le_add_right _ _))

theorem write_bit_writes (m : Machine) (off bits : Nat) (b : Bool) :
    ∃ word, (if b then HSET4 m off bits else HCLR4 m off bits).writes
      = m.writes ++ [(off, word)] := by
  cases b
  · exact ⟨_, rfl⟩
  · exact ⟨_, rfl⟩

theorem status_offset_hit (base k : Nat) (idx : Nat) :
    (base + 4 * (idx / 32) = base + 4 * k) ↔ (32 * k ≤ idx ∧ idx < 32 * k + 32) := by
  omega

/-! ### Oscillators, fixed multipliers and root multiplexers in closed form -/

theorem jh7100_osc (sc : Softc) (fuel : Nat) :
    stfclock_get_frequency_jh7100 (fuel + 1) sc JH7100_CLK_OSC_SYS
      = .ok (clock_get_frequency sc "osc_sys") [] ∧
    stfclock_get_frequency_jh7100 (fuel + 1) sc JH7100_CLK_OSC_AUD
      = .ok (clock_get_frequency sc "osc_aud") [] :=
  ⟨rfl, rfl⟩

theorem jh7100_pll01 (sc : Softc) (fuel : Nat) :
    stfclock_get_frequency_jh7100 (fuel + 2) sc JH7100_CLK_PLL0_OUT
      = .ok (40 * clock_get_frequency sc "osc_sys" % U32) [] ∧
    stfclock_get_frequency_jh7100 (fuel + 2) sc JH7100_CLK_PLL1_OUT
      = .ok (64 * clock_get_frequency sc "osc_sys" % U32) [] :=
  ⟨rfl, rfl⟩

theorem jh7100_pll2_ref (sc : Softc) (fuel : Nat) :
    stfclock_get_frequency_jh7100 (fuel + 2) sc JH7100_CLK_PLL2_REF
      = .ok (clock_get_frequency sc
          (if HREAD4 sc (JH7100_CLK_PLL2_REF * 4) / 2 ^ 24 % 4 ≠ 0 then "osc_aud"
            else "osc_sys")) [] := by
  have h : jh7100_step sc JH7100_CLK_PLL2_REF
      = some (if (HREAD4 sc (JH7100_CLK_PLL2_REF * 4) &&& CLKMUX_MASK) >>> CLKMUX_SHIFT ≠ 0
          then JH7100_CLK_OSC_AUD else JH7100_CLK_OSC_SYS, 1) := rfl
  rw [jh7100_step_unfold sc h, Result.over_one, ← clkmux_field]
  split_ifs
  · exact (jh7100_osc sc fuel).2
  · exact (jh7100_osc sc fuel).1

theorem jh7100_pll2_out (sc : Softc) (fuel : Nat) :
    stfclock_get_frequency_jh7100 (fuel + 3) sc JH7100_CLK_PLL2_OUT
      = .ok (55 * clock_get_frequency sc
          (if HREAD4 sc (JH7100_CLK_PLL2_REF * 4) / 2 ^ 24 % 4 ≠ 0 then "osc_aud"
            else "osc_sys") % U32) [] := by
  have h : stfclock_get_frequency_jh7100 (fuel + 3) sc JH7100_CLK_PLL2_OUT
      = (stfclock_get_frequency_jh7100 (fuel + 2) sc JH7100_CLK_PLL2_REF).times 55 := rfl
  rw [h, jh7100_pll2_ref]
  rfl

/-- The parent the CPUNDBUS_ROOT multiplexer of the JH7100 routes for the
selector value `sel`. -/
theorem jh7100_cpundbus_root (sc : Softc) (fuel : Nat) :
    stfclock_get_frequency_jh7100 (fuel + 1) sc JH7100_CLK_CPUNDBUS_ROOT
      = stfclock_get_frequency_jh7100 fuel sc
          (if HREAD4 sc 0 / 2 ^ 24 % 4 = 1 then JH7100_CLK_PLL0_OUT
            else if HREAD4 sc 0 / 2 ^ 24 % 4 = 2 then JH7100_CLK_PLL1_OUT
            else if HREAD4 sc 0 / 2 ^ 24 % 4 = 3 then JH7100_CLK_PLL2_OUT
            else JH7100_CLK_OSC_SYS) := by
  have h : jh7100_step sc JH7100_CLK_CPUNDBUS_ROOT
      = some (if (HREAD4 sc 0 &&& CLKMUX_MASK) >>> CLKMUX_SHIFT = 1 then JH7100_CLK_PLL0_OUT
          else if (HREAD4 sc 0 &&& CLKMUX_MASK) >>> CLKMUX_SHIFT = 2 then JH7100_CLK_PLL1_OUT
          else if (HREAD4 sc 0 &&& CLKMUX_MASK) >>> CLKMUX_SHIFT = 3 then JH7100_CLK_PLL2_OUT
          else JH7100_CLK_OSC_SYS, 1) := rfl
  rw [jh7100_step_unfold sc h, Result.over_one, ← clkmux_field]

theorem jh7110_sys_roots (sc : Softc) (fuel : Nat) :
    stfclock_get_frequency_jh7110_sys (fuel + 1) sc JH7110_SYSCLK_CPU_ROOT
      = stfclock_get_frequency_jh7110_sys fuel sc
          (if (HREAD4 sc 0).testBit 24 then JH7110_SYSCLK_PLL0_OUT else JH7110_SYSCLK_OSC) ∧
    stfclock_get_frequency_jh7110_sys (fuel + 1) sc JH7110_SYSCLK_BUS_ROOT
      = stfclock_get_frequency_jh7110_sys fuel sc
          (if (HREAD4 sc (JH7110_SYSCLK_BUS_ROOT * 4)).testBit 24 then JH7110_SYSCLK_PLL2_OUT
            else JH7110_SYSCLK_OSC) := by
  have h0 : jh7110_sys_step sc JH7110_SYSCLK_CPU_ROOT
      = some (if (HREAD4 sc 0 >>> 24) &&& 1 ≠ 0 then JH7110_SYSCLK_PLL0_OUT
          else JH7110_SYSCLK_OSC, 1) := rfl
  have h5 : jh7110_sys_step sc JH7110_SYSCLK_BUS_ROOT
      = some (if (HREAD4 sc (JH7110_SYSCLK_BUS_ROOT * 4) >>> 24) &&& 1 ≠ 0
          then JH7110_SYSCLK_PLL2_OUT else JH7110_SYSCLK_OSC, 1) := rfl
  rw [jh7110_sys_step_unfold sc h0 (by decide), jh7110_sys_step_unfold sc h5 (by decide),
    Result.over_one, Result.over_one]
  simp only [bit_24, and_self]

theorem jh7110_aon_external_query (sc : Softc) (fuel : Nat) :
    stfclock_get_frequency_jh7110_aon (fuel + 1) sc JH7110_AONCLK_OSC
      = .ok (clock_get_frequency sc "osc") [] ∧
    stfclock_get_frequency_jh7110_aon (fuel + 1) sc JH7110_AONCLK_STG_AXIAHB
      = .ok (clock_get_frequency sc "stg_axiahb") [] ∧
    stfclock_get_frequency_jh7110_aon (fuel + 1) sc JH7110_AONCLK_GMAC0_RMII_REFIN
      = .ok (clock_get_frequency sc "gmac0_rmii_refin") [] :=
  ⟨rfl, rfl, rfl⟩

theorem jh7110_sys_external_query (sc : Softc) (fuel : Nat) :
    stfclock_get_frequency_jh7110_sys (fuel + 1) sc JH7110_SYSCLK_OSC
      = .ok (clock_get_frequency sc "osc") [] ∧
    stfclock_get_frequency_jh7110_sys (fuel + 1) sc JH7110_SYSCLK_PLL0_OUT
      = .ok (clock_get_frequency sc "pll0_out") [] ∧
    stfclock_get_frequency_jh7110_sys (fuel + 1) sc JH7110_SYSCLK_PLL1_OUT
      = .ok (clock_get_frequency sc "pll1_out") [] ∧
    stfclock_get_frequency_jh7110_sys (fuel + 1) sc JH7110_SYSCLK_PLL2_OUT
      = .ok (clock_get_frequency sc "pll2_out") [] :=
  ⟨rfl, rfl, rfl, rfl⟩

/-! ### Queries as operations: what a run leaves behind -/

theorem Run.result_times (m : Machine) (k : Nat) (r : Run) :
    (r.times k).result m = (r.result m).times k := by
  cases r <;> rfl

theorem Run.result_over (m : Machine) (d : Nat) (r : Run) :
    (r.over d).result m = (r.result m).over d := by
  cases r with
  | returned freq m2 =>
    by_cases hd : d = 0 <;> simp [Run.over, Run.result, Result.over, hd]
  | div_by_zero m2 => rfl
  | out_of_fuel => rfl

theorem Run.result_returned (m : Machine) (freq : Nat) :
    (Run.returned freq m).result m = .ok freq [] := by
  simp [Run.result]

theorem Run.result_printf (m : Machine) (freq : Nat) (line : Diag) :
    (Run.returned freq (printf m line)).result m = .ok freq [line] := by
  simp [Run.result, printf]

theorem Run.keeps_times {m : Machine} {r : Run} (k : Nat) (h : r.keeps m) :
    (r.times k).keeps m := by
  cases r <;> exact h

theorem Run.keeps_over {m : Machine} {r : Run} (d : Nat) (h : r.keeps m) :
    (r.over d).keeps m := by
  cases r with
  | returned freq m2 =>
    intro m3 h3
    simp only [Run.over] at h3
    split at h3 <;> exact h m3 h3
  | div_by_zero m2 => exact h
  | out_of_fuel => exact h

theorem Run.keeps_returned (m : Machine) (freq : Nat) : (Run.returned freq m).keeps m := by
  intro m2 h
  cases h
  exact ⟨rfl, rfl⟩

theorem Run.keeps_printf (m : Machine) (freq : Nat) (line : Diag) :
    (Run.returned freq (printf m line)).keeps m := by
  intro m2 h
  cases h
  exact ⟨rfl, rfl⟩

theorem jh7100_run_result (m : Machine) :
    ∀ fuel idx, (stfclock_get_frequency_jh7100_run fuel m idx).result m
      = stfclock_get_frequency_jh7100 fuel m.sc idx := by
  intro fuel
  induction fuel with
  | zero => intro idx; rfl
  | succ fuel ih =>
    intro idx
    rw [stfclock_get_frequency_jh7100_run, stfclock_get_frequency_jh7100]
    split_ifs
    · exact Run.result_returned m _
    · exact Run.result_returned m _
    · rw [Run.result_times, ih]
    · rw [Run.result_times, ih]
    · rw [Run.result_times, ih]
    · simp only []
      split
      · exact ih _
      · split
        · exact Run.result_printf m _ _
        · rw [Run.result_over, ih]

theorem jh7100_run_keeps (m : Machine) :
    ∀ fuel idx, (stfclock_get_frequency_jh7100_run fuel m idx).keeps m := by
  intro fuel
  induction fuel with
  | zero => intro idx m2 h; cases h
  | succ fuel ih =>
    intro idx
    rw [stfclock_get_frequency_jh7100_run]
    split_ifs
    · exact Run.keeps_returned m _
    · exact Run.keeps_returned m _
    · exact Run.keeps_times _ (ih _)
    · exact Run.keeps_times _ (ih _)
    · exact Run.keeps_times _ (ih _)
    · simp only []
      split
      · exact ih _
      · split
        · exact Run.keeps_printf m _ _
        · exact Run.keeps_over _ (ih _)

theorem jh7110_aon_run_result (m : Machine) :
    ∀ fuel idx, (stfclock_get_frequency_jh7110_aon_run fuel m idx).result m
      = stfclock_get_frequency_jh7110_aon fuel m.sc idx := by
  intro fuel
  induction fuel with
  | zero => intro idx; rfl
  | succ fuel ih =>
    intro idx
    rw [stfclock_get_frequency_jh7110_aon_run, stfclock_get_frequency_jh7110_aon]
    split
    · exact Run.result_returned m _
    · simp only []
      split
      · exact ih _
      · split
        · exact Run.result_printf m _ _
        · split_ifs
          · exact Run.result_printf m _ _
          · rw [Run.result_over, ih]

theorem jh7110_aon_run_keeps (m : Machine) :
    ∀ fuel idx, (stfclock_get_frequency_jh7110_aon_run fuel m idx).keeps m := by
  intro fuel
  induction fuel with
  | zero => intro idx m2 h; cases h
  | succ fuel ih =>
    intro idx
    rw [stfclock_get_frequency_jh7110_aon_run]
    split
    · exact Run.keeps_returned m _
    · simp only []
      split
      · exact ih _
      · split
        · exact Run.keeps_printf m _ _
        · split_ifs
          · exact Run.keeps_printf m _ _
          · exact Run.keeps_over _ (ih _)

theorem jh7110_sys_run_result (m : Machine) :
    ∀ fuel idx, (stfclock_get_frequency_jh7110_sys_run fuel m idx).result m
      = stfclock_get_frequency_jh7110_sys fuel m.sc idx := by
  intro fuel
  induction fuel with
  | zero => intro idx; rfl
  | succ fuel ih =>
    intro idx
    rw [stfclock_get_frequency_jh7110_sys_run, stfclock_get_frequency_jh7110_sys]
    split
    · exact Run.result_returned m _
    · simp only []
      split
      · exact ih _
      · split
        · exact Run.result_printf m _ _
        · split_ifs
          · exact Run.result_printf m _ _
          · rw [Run.result_over, ih]

theorem jh7110_sys_run_keeps (m : Machine) :
    ∀ fuel idx, (stfclock_get_frequency_jh7110_sys_run fuel m idx).keeps m := by
  intro fuel
  induction fuel with
  | zero => intro idx m2 h; cases h
  | succ fuel ih =>
    intro idx
    rw [stfclock_get_frequency_jh7110_sys_run]
    split
    · exact Run.keeps_returned m _
    · simp only []
      split
      · exact ih _
      · split
        · exact Run.keeps_printf m _ _
        · split_ifs
          · exact Run.keeps_printf m _ _
          · exact Run.keeps_over _ (ih _)

theorem pll_output_run_result (m : Machine) (parent : Nat) (f : PllFields) :
    (pll_output_run m parent f).result m = pll_output parent f := by
  unfold pll_output_run pll_output
  by_cases h0 : f.fbdiv = 0 ∨ f.prediv = 0 ∨ f.postdiv1 = 0
  · simp only [if_pos h0]
    exact Run.result_printf m _ _
  · simp only [if_neg h0]
    by_cases h1 : f.dacpd ≠ f.dsmpd
    · simp only [if_pos h1]
      exact Run.result_returned m _
    · simp only [if_neg h1]
      generalize pll_expr parent f.fbdiv _ f.prediv f.postdiv1 = o
      cases o with
      | none => rfl
      | some v => exact Run.result_returned m _

theorem pll_output_run_keeps (m : Machine) (parent : Nat) (f : PllFields) :
    (pll_output_run m parent f).keeps m := by
  unfold pll_output_run
  by_cases h0 : f.fbdiv = 0 ∨ f.prediv = 0 ∨ f.postdiv1 = 0
  · simp only [if_pos h0]
    exact Run.keeps_printf m _ _
  · simp only [if_neg h0]
    by_cases h1 : f.dacpd ≠ f.dsmpd
    · simp only [if_pos h1]
      exact Run.keeps_returned m _
    · simp only [if_neg h1]
      generalize pll_expr parent f.fbdiv _ f.prediv f.postdiv1 = o
      cases o with
      | none =>
        intro m2 h
        cases h
        exact ⟨rfl, rfl⟩
      | some v => exact Run.keeps_returned m _

theorem jh7110_pll_run_result (m : Machine) (idx : Nat) :
    (stfclock_get_frequency_jh7110_pll_run m idx).result m
      = stfclock_get_frequency_jh7110_pll m.sc idx := by
  unfold stfclock_get_frequency_jh7110_pll_run stfclock_get_frequency_jh7110_pll
  by_cases h0 : clock_get_frequency_idx m.sc 0 = 0
  · simp only [if_pos h0]
    exact Run.result_printf m _ _
  · simp only [if_neg h0]
    cases pll_of_idx idx with
    | none => exact Run.result_printf m _ _
    | some pll =>
      by_cases h1 : m.sc.of_parent < 0
      · simp only [if_pos h1]
        exact Run.result_printf m _ _
      · simp only [if_neg h1]
        cases m.sc.regmap_bynode m.sc.of_parent with
        | none => exact Run.result_printf m _ _
        | some pllrm => exact pll_output_run_result m _ _

theorem jh7110_pll_run_keeps (m : Machine) (idx : Nat) :
    (stfclock_get_frequency_jh7110_pll_run m idx).keeps m := by
  unfold stfclock_get_frequency_jh7110_pll_run
  by_cases h0 : clock_get_frequency_idx m.sc 0 = 0
  · simp only [if_pos h0]
    exact Run.keeps_printf m _ _
  · simp only [if_neg h0]
    cases pll_of_idx idx with
    | none => exact Run.keeps_printf m _ _
    | some pll =>
      by_cases h1 : m.sc.of_parent < 0
      · simp only [if_pos h1]
        exact Run.keeps_printf m _ _
      · simp only [if_neg h1]
        cases m.sc.regmap_bynode m.sc.of_parent with
        | none => exact Run.keeps_printf m _ _
        | some pllrm => exact pll_output_run_keeps m _ _

theorem jh7110_stg_run_result (m : Machine) (idx : Nat) :
    (stfclock_get_frequency_jh7110_stg_run m idx).result m
      = stfclock_get_frequency_jh7110_stg m.sc idx :=
  Run.result_printf m _ _

theorem Run.result_ne_out_of_fuel {m : Machine} {r : Run}
    (h : r.result m ≠ .out_of_fuel) : ∃ m2, r.machine? = some m2 := by
  cases r with
  | returned freq m2 => exact ⟨m2, rfl⟩
  | div_by_zero m2 => exact ⟨m2, rfl⟩
  | out_of_fuel => exact absurd rfl h

theorem pll_output_run_ends (m : Machine) (parent : Nat) (f : PllFields) :
    ∃ m2, (pll_output_run m parent f).machine? = some m2 := by
  unfold pll_output_run
  by_cases h0 : f.fbdiv = 0 ∨ f.prediv = 0 ∨ f.postdiv1 = 0
  · simp only [if_pos h0]
    exact ⟨_, rfl⟩
  · simp only [if_neg h0]
    by_cases h1 : f.dacpd ≠ f.dsmpd
    · simp only [if_pos h1]
      exact ⟨_, rfl⟩
    · simp only [if_neg h1]
      generalize pll_expr parent f.fbdiv _ f.prediv f.postdiv1 = o
      cases o with
      | none => exact ⟨_, rfl⟩
      | some v => exact ⟨_, rfl⟩

theorem jh7110_pll_run_ends (m : Machine) (idx : Nat) :
    ∃ m2, (stfclock_get_frequency_jh7110_pll_run m idx).machine? = some m2 := by
  unfold stfclock_get_frequency_jh7110_pll_run
  by_cases h0 : clock_get_frequency_idx m.sc 0 = 0
  · simp only [if_pos h0]
    exact ⟨_, rfl⟩
  · simp only [if_neg h0]
    cases pll_of_idx idx with
    | none => exact ⟨_, rfl⟩
    | some pll =>
      by_cases h1 : m.sc.of_parent < 0
      · simp only [if_pos h1]
        exact ⟨_, rfl⟩
      · simp only [if_neg h1]
        cases m.sc.regmap_bynode m.sc.of_parent with
        | none => exact ⟨_, rfl⟩
        | some pllrm => exact pll_output_run_ends m _ _

theorem Run.ends_result {m : Machine} {r : Run} (h : ∃ m2, r.machine? = some m2) :
    r.result m ≠ .out_of_fuel := by
  obtain ⟨m2, h2⟩ := h
  cases r with
  | returned freq m3 => simp [Run.result]
  | div_by_zero m3 => simp [Run.result]
  | out_of_fuel => cases h2

theorem jh7110_pll_returns (sc : Softc) (idx : Nat) :
    stfclock_get_frequency_jh7110_pll sc idx ≠ .out_of_fuel := by
  have h := Run.ends_result (m := Machine.start sc) (jh7110_pll_run_ends (Machine.start sc) idx)
  rwa [jh7110_pll_run_result] at h

/-- The parent the GMACUSB_ROOT multiplexer of the JH7100 routes for the
selector value in bits 24..25 of its register. -/
theorem jh7100_gmacusb_root (sc : Softc) (fuel : Nat) :
    stfclock_get_frequency_jh7100 (fuel + 1) sc JH7100_CLK_GMACUSB_ROOT
      = stfclock_get_frequency_jh7100 fuel sc
          (if HREAD4 sc (JH7100_CLK_GMACUSB_ROOT * 4) / 2 ^ 24 % 4 = 1 then JH7100_CLK_PLL0_OUT
            else if HREAD4 sc (JH7100_CLK_GMACUSB_ROOT * 4) / 2 ^ 24 % 4 = 2
              then JH7100_CLK_PLL2_OUT
            else JH7100_CLK_OSC_SYS) := by
  have h : jh7100_step sc JH7100_CLK_GMACUSB_ROOT
      = some (if (HREAD4 sc (JH7100_CLK_GMACUSB_ROOT * 4) &&& CLKMUX_MASK) >>> CLKMUX_SHIFT = 1
          then JH7100_CLK_PLL0_OUT
          else if (HREAD4 sc (JH7100_CLK_GMACUSB_ROOT * 4) &&& CLKMUX_MASK) >>> CLKMUX_SHIFT = 2
            then JH7100_CLK_PLL2_OUT
          else JH7100_CLK_OSC_SYS, 1) := rfl
  rw [jh7100_step_unfold sc h, Result.over_one, ← clkmux_field]

/-! ### PLL post-divider -/

theorem post_divider_field (reg : Nat) :
    1 <<< ((reg >>> 28) &&& ((1 <<< 2) - 1)) = 2 ^ (reg / 2 ^ 28 % 4) := by
  have h : ((1 : Nat) <<< 2) - 1 = 2 ^ 2 - 1 := by decide
  rw [h, Nat.and_pow_two_sub_one_eq_mod, Nat.shiftRight_eq_div_pow, Nat.shiftLeft_eq,
    Nat.one_mul]

theorem pll_postdiv1_decoded (pllrm : Nat → Nat) :
    (pll_read_fields pllrm (pll_base .pll0) .pll0).postdiv1
      = 2 ^ (regmap_read_4 pllrm (0x18 + 8) / 2 ^ 28 % 4) ∧
    (pll_read_fields pllrm (pll_base .pll1) .pll1).postdiv1
      = 2 ^ (regmap_read_4 pllrm (0x24 + 4) / 2 ^ 28 % 4) ∧
    (pll_read_fields pllrm (pll_base .pll2) .pll2).postdiv1
      = 2 ^ (regmap_read_4 pllrm (0x2c + 4) / 2 ^ 28 % 4) :=
  ⟨post_divider_field _, post_divider_field _, post_divider_field _⟩

theorem pll_output_rejects (parent : Nat) (f : PllFields) (hpost : f.postdiv1 ≠ 0) :
    pll_output parent f = .ok 0 [.zero_divisor "stfclock_get_frequency_jh7110_pll"]
      ↔ f.fbdiv = 0 ∨ f.prediv = 0 := by
  unfold pll_output
  by_cases h0 : f.fbdiv = 0 ∨ f.prediv = 0 ∨ f.postdiv1 = 0
  · rw [if_pos h0]
    constructor
    · intro _
      rcases h0 with h | h | h
      · exact Or.inl h
      · exact Or.inr h
      · exact absurd h hpost
    · intro _
      rfl
  · rw [if_neg h0]
    have hn : ¬ (f.fbdiv = 0 ∨ f.prediv = 0) := fun h =>
      h0 (h.elim Or.inl (fun h2 => Or.inr (Or.inl h2)))
    constructor
    · intro h
      exfalso
      by_cases h1 : f.dacpd ≠ f.dsmpd
      · rw [if_pos h1] at h
        simp at h
      · rw [if_neg h1] at h
        simp only [] at h
        split at h <;> simp at h
    · intro h
      exact absurd h hn

/-! ### Nodes whose parent no switch handles -/

theorem jh7110_sys_missing_parents (sc : Softc) (fuel : Nat) :
    stfclock_get_frequency_jh7110_sys (fuel + 1) sc JH7110_SYSCLK_GMAC1_TX
      = .ok 0 [.unknown_clock "stfclock_get_frequency_jh7110_sys" JH7110_SYSCLK_GMAC1_TX] ∧
    stfclock_get_frequency_jh7110_sys (fuel + 1) sc JH7110_SYSCLK_GMAC1_RMII_REFIN
      = .ok 0 [.unknown_clock "stfclock_get_frequency_jh7110_sys"
          JH7110_SYSCLK_GMAC1_RMII_REFIN] :=
  ⟨rfl, rfl⟩

theorem jh7110_sys_gmac1_tx_inv (sc : Softc) (fuel : Nat) :
    stfclock_get_frequency_jh7110_sys (fuel + 2) sc JH7110_SYSCLK_GMAC1_TX_INV
      = .ok 0 [.unknown_clock "stfclock_get_frequency_jh7110_sys" JH7110_SYSCLK_GMAC1_TX] :=
  rfl

theorem jh7110_sys_gmac1_rmii_rtx (sc : Softc) (fuel : Nat) :
    stfclock_get_frequency_jh7110_sys (fuel + 2) sc JH7110_SYSCLK_GMAC1_RMII_RTX
      = if HREAD4 sc (JH7110_SYSCLK_GMAC1_RMII_RTX * 4) % 2 ^ 24 = 0 then
          .ok 0 [.zero_divisor_for "stfclock_get_frequency_jh7110_sys"
            JH7110_SYSCLK_GMAC1_RMII_RTX]
        else .ok 0 [.unknown_clock "stfclock_get_frequency_jh7110_sys"
          JH7110_SYSCLK_GMAC1_RMII_REFIN] := by
  have h : jh7110_sys_div_parent JH7110_SYSCLK_GMAC1_RMII_RTX
      (HREAD4 sc (JH7110_SYSCLK_GMAC1_RMII_RTX * 4) % 2 ^ 24)
      = some (JH7110_SYSCLK_GMAC1_RMII_REFIN,
          HREAD4 sc (JH7110_SYSCLK_GMAC1_RMII_RTX * 4) % 2 ^ 24) := rfl
  rw [jh7110_sys_div_unfold sc h (fuel + 1), (jh7110_sys_missing_parents sc fuel).2]
  split_ifs with hd
  · rfl
  · simp only [Result.over, if_neg hd, Nat.zero_div]

theorem jh7110_aon_gmac0_gtxclk (sc : Softc) (fuel : Nat) :
    stfclock_get_frequency_jh7110_aon (fuel + 1) sc JH7110_AONCLK_GMAC0_GTXCLK
      = .ok 0 [.unknown_clock "stfclock_get_frequency_jh7110_aon"
          JH7110_AONCLK_GMAC0_GTXCLK] :=
  rfl

theorem jh7110_aon_gmac0_tx (sc : Softc) (fuel : Nat) :
    stfclock_get_frequency_jh7110_aon (fuel + 1) sc JH7110_AONCLK_GMAC0_TX
      = stfclock_get_frequency_jh7110_aon fuel sc
          (if HREAD4 sc (JH7110_AONCLK_GMAC0_TX * 4) / 2 ^ 24 % 4 ≠ 0
            then JH7110_AONCLK_GMAC0_RMII_RTX else JH7110_AONCLK_GMAC0_GTXCLK) := by
  have h : jh7110_aon_step sc JH7110_AONCLK_GMAC0_TX
      = some (if (HREAD4 sc (JH7110_AONCLK_GMAC0_TX * 4) &&& CLKMUX_MASK) >>> CLKMUX_SHIFT ≠ 0
          then JH7110_AONCLK_GMAC0_RMII_RTX else JH7110_AONCLK_GMAC0_GTXCLK, 1) := rfl
  rw [jh7110_aon_step_unfold sc h (by decide), Result.over_one, ← clkmux_field]

theorem jh7110_aon_gmac0_tx_inv (sc : Softc) (fuel : Nat) :
    stfclock_get_frequency_jh7110_aon (fuel + 1) sc JH7110_AONCLK_GMAC0_TX_INV
      = stfclock_get_frequency_jh7110_aon fuel sc JH7110_AONCLK_GMAC0_TX := by
  have h : jh7110_aon_step sc JH7110_AONCLK_GMAC0_TX_INV
      = some (JH7110_AONCLK_GMAC0_TX, 1) := rfl
  rw [jh7110_aon_step_unfold sc h (by decide), Result.over_one]

theorem set_gate_twice_writes (m : Machine) (up idx : Nat) (enable : Bool)
    (hne : idx * 4 % U32 ≠ up * 4 % U32) :
    (set_gate (set_gate m up enable) idx enable).writes
      = m.writes ++ [(up * 4 % U32,
            HREAD4 (set_gate (set_gate m up enable) idx enable).sc (up * 4 % U32)),
          (idx * 4 % U32,
            HREAD4 (set_gate (set_gate m up enable) idx enable).sc (idx * 4 % U32))] := by
  rw [set_gate_writes (set_gate m up enable) idx enable, set_gate_writes m up enable,
    HREAD4_congr (set_gate_other (set_gate m up enable) idx enable (up * 4 % U32)
      (Ne.symm hne))]
  simp

/-! ### Attach -/

theorem attach_bind_matched (faa : fdt_attach_args) (sc : AttachState)
    (hmatch : stfclock_match faa ≠ 0) :
    ∃ v, v = (if faa.OF_is_compatible "starfive,jh7100-clkgen" then Variant.jh7100
          else if faa.OF_is_compatible "starfive,jh7110-aoncrg" then Variant.jh7110_aon
          else if faa.OF_is_compatible "starfive,jh7110-pll" then Variant.jh7110_pll
          else if faa.OF_is_compatible "starfive,jh7110-stgcrg" then Variant.jh7110_stg
          else Variant.jh7110_sys) ∧
      (attach_bind faa sc).cd_get_frequency = some v ∧
      (attach_bind faa sc).cd_set_frequency = some v ∧
      (attach_bind faa sc).cd_enable = some v ∧
      (attach_bind faa sc).rd_reset
        = (if v = .jh7110_aon ∨ v = .jh7110_stg ∨ v = .jh7110_sys then some v
          else sc.rd_reset) ∧
      (attach_bind faa sc).reset_registered
        = (if v = .jh7110_aon ∨ v = .jh7110_stg ∨ v = .jh7110_sys then true
          else sc.reset_registered) ∧
      (attach_bind faa sc).mapped = sc.mapped ∧
      (attach_bind faa sc).clock_registered = sc.clock_registered := by
  refine ⟨_, rfl, ?_⟩
  unfold stfclock_match at hmatch
  unfold attach_bind
  by_cases h1 : faa.OF_is_compatible "starfive,jh7100-clkgen" = true
  · simp [h1]
  · by_cases h2 : faa.OF_is_compatible "starfive,jh7110-aoncrg" = true
    · simp [h1, h2]
    · by_cases h3 : faa.OF_is_compatible "starfive,jh7110-pll" = true
      · simp [h1, h2, h3]
      · by_cases h4 : faa.OF_is_compatible "starfive,jh7110-stgcrg" = true
        · simp [h1, h2, h3, h4]
        · by_cases h5 : faa.OF_is_compatible "starfive,jh7110-syscrg" = true
          · simp [h1, h2, h3, h4, h5]
          · simp [h1, h2, h3, h4, h5] at hmatch

/-! ### Claims -/

/-- C1: in every controller variant the frequency query returns 0 for every
identifier that is not a case label of that variant's resolver (with the
unknown-clock line in the JH7100, aon and sys variants); in the stg variant
that is every identifier. -/
theorem unknown_identifier_returns_zero (sc : Softc) (idx fuel : Nat) :
    (idx ∉ jh7100_clocks →
      stfclock_get_frequency_jh7100 (fuel + 1) sc idx
        = .ok 0 [.unknown_clock "stfclock_get_frequency_jh7100" idx]) ∧
    (idx ∉ jh7110_aon_clocks →
      stfclock_get_frequency_jh7110_aon (fuel + 1) sc idx
        = .ok 0 [.unknown_clock "stfclock_get_frequency_jh7110_aon" idx]) ∧
    (idx ∉ jh7110_sys_clocks →
      stfclock_get_frequency_jh7110_sys (fuel + 1) sc idx
        = .ok 0 [.unknown_clock "stfclock_get_frequency_jh7110_sys" idx]) ∧
    (idx ∉ jh7110_pll_clocks →
      (stfclock_get_frequency_jh7110_pll sc idx).freq? = some 0) ∧
    stfclock_get_frequency_jh7110_stg sc idx
      = .ok 0 [.unknown_clock "stfclock_get_frequency_jh7110_stg" idx] := by
  refine ⟨?_, ?_, ?_, ?_, rfl⟩
  · intro h
    simp only [jh7100_clocks, List.mem_cons, List.mem_singleton, List.not_mem_nil,
      not_or, or_false] at h
    simp [stfclock_get_frequency_jh7100, jh7100_mux_parent, jh7100_div_parent, h]
  · intro h
    simp only [jh7110_aon_clocks, List.mem_cons, List.mem_singleton, List.not_mem_nil,
      not_or, or_false] at h
    simp [stfclock_get_frequency_jh7110_aon, jh7110_aon_external, jh7110_aon_mux_parent,
      jh7110_aon_div_parent, h]
  · intro h
    simp only [jh7110_sys_clocks, List.mem_cons, List.mem_singleton, List.not_mem_nil,
      not_or, or_false] at h
    simp [stfclock_get_frequency_jh7110_sys, jh7110_sys_external, jh7110_sys_mux_parent,
      jh7110_sys_div_parent, h]
  · intro h
    simp only [jh7110_pll_clocks, List.mem_cons, List.mem_singleton, List.not_mem_nil,
      not_or, or_false] at h
    unfold stfclock_get_frequency_jh7110_pll
    by_cases hp : clock_get_frequency_idx sc 0 = 0
    · simp [hp, Result.freq?]
    · simp [hp, pll_of_idx, h, Result.freq?]

/-- Witness for C1: identifier 1000 on the example board, in all four
table-driven variants. -/
theorem unknown_identifier_returns_zero_witness :
    (1000 ∉ jh7100_clocks ∧ 1000 ∉ jh7110_aon_clocks ∧ 1000 ∉ jh7110_sys_clocks
      ∧ 1000 ∉ jh7110_pll_clocks) ∧
    stfclock_get_frequency_jh7100 1 (board zero_regs) 1000
      = .ok 0 [.unknown_clock "stfclock_get_frequency_jh7100" 1000] ∧
    stfclock_get_frequency_jh7110_aon 1 (board zero_regs) 1000
      = .ok 0 [.unknown_clock "stfclock_get_frequency_jh7110_aon" 1000] ∧
    stfclock_get_frequency_jh7110_sys 1 (board zero_regs) 1000
      = .ok 0 [.unknown_clock "stfclock_get_frequency_jh7110_sys" 1000] ∧
    (stfclock_get_frequency_jh7110_pll (board zero_regs) 1000).freq? = some 0 :=
  have h := unknown_identifier_returns_zero (board zero_regs) 1000 0
  ⟨by decide, h.1 (by decide), h.2.1 (by decide), h.2.2.1 (by decide),
    h.2.2.2.1 (by decide)⟩


/-- C2: for every label of a divider `switch` (JH7100, aon, sys), with
`parent` the wired parent and `d` the divisor it selects (bits 0..23 of the
register at byte offset `idx * 4`, or the constant 1), if `d` is non-zero the
query returns the parent's frequency divided by `d`, truncating; the fixed
taps return exactly what their parent returns. In the JH7100 resolver a
division by zero further up the chain propagates. -/
theorem divided_node_frequency (sc : Softc) (idx parent d fuel : Nat) :
    (jh7100_div_parent idx (HREAD4 sc (idx * 4) % 2 ^ 24) = some (parent, d) →
      d ≠ 0 → 7 ≤ fuel →
      (d = HREAD4 sc (idx * 4) % 2 ^ 24 ∨ d = 1) ∧
      stfclock_get_frequency_jh7100 fuel sc parent ≠ .out_of_fuel ∧
      (∀ p log, stfclock_get_frequency_jh7100 fuel sc parent = .ok p log →
        stfclock_get_frequency_jh7100 fuel sc idx = .ok (p / d) log) ∧
      (stfclock_get_frequency_jh7100 fuel sc parent = .div_by_zero →
        stfclock_get_frequency_jh7100 fuel sc idx = .div_by_zero)) ∧
    (jh7110_aon_div_parent idx (HREAD4 sc (idx * 4) % 2 ^ 24) = some (parent, d) →
      d ≠ 0 → 4 ≤ fuel →
      (d = HREAD4 sc (idx * 4) % 2 ^ 24 ∨ d = 1) ∧
      ∃ p log, stfclock_get_frequency_jh7110_aon fuel sc parent = .ok p log ∧
        stfclock_get_frequency_jh7110_aon fuel sc idx = .ok (p / d) log) ∧
    (jh7110_sys_div_parent idx (HREAD4 sc (idx * 4) % 2 ^ 24) = some (parent, d) →
      d ≠ 0 → 6 ≤ fuel →
      (d = HREAD4 sc (idx * 4) % 2 ^ 24 ∨ d = 1) ∧
      ∃ p log, stfclock_get_frequency_jh7110_sys fuel sc parent = .ok p log ∧
        stfclock_get_frequency_jh7110_sys fuel sc idx = .ok (p / d) log) ∧
    (∀ tap ∈ [(JH7100_CLK_SDIO0_AHB, JH7100_CLK_AHB_BUS),
        (JH7100_CLK_SDIO1_AHB, JH7100_CLK_AHB_BUS),
        (JH7100_CLK_GMAC_AHB, JH7100_CLK_AHB_BUS),
        (JH7100_CLK_SDIO0_CCLKINT_INV, JH7100_CLK_SDIO0_CCLKINT),
        (JH7100_CLK_SDIO1_CCLKINT_INV, JH7100_CLK_SDIO1_CCLKINT)],
      7 ≤ fuel →
      stfclock_get_frequency_jh7100 fuel sc tap.1
        = stfclock_get_frequency_jh7100 fuel sc tap.2) ∧
    (∀ tap ∈ [(JH7110_AONCLK_GMAC0_AXI, JH7110_AONCLK_STG_AXIAHB),
        (JH7110_AONCLK_GMAC0_TX_INV, JH7110_AONCLK_GMAC0_TX)],
      4 ≤ fuel →
      stfclock_get_frequency_jh7110_aon fuel sc tap.1
        = stfclock_get_frequency_jh7110_aon fuel sc tap.2) ∧
    (∀ tap ∈ [(JH7110_SYSCLK_GMAC1_AXI, JH7110_SYSCLK_STG_AXIAHB),
        (JH7110_SYSCLK_UART0_CORE, JH7110_SYSCLK_OSC),
        (JH7110_SYSCLK_GMAC1_TX_INV, JH7110_SYSCLK_GMAC1_TX)],
      6 ≤ fuel →
      stfclock_get_frequency_jh7110_sys fuel sc tap.1
        = stfclock_get_frequency_jh7110_sys fuel sc tap.2) := by
  refine ⟨?_, ?_, ?_, ?_, ?_, ?_⟩
  · intro h hd hf
    obtain ⟨h1, h2⟩ := jh7100_div_step sc h hf
    refine ⟨jh7100_div_field h, h1, ?_, ?_⟩
    · intro p log hp
      rw [h2, hp, Result.over_ok hd]
    · intro hp
      rw [h2, hp]
      rfl
  · intro h hd hf
    obtain ⟨h1, h2⟩ := jh7110_aon_div_step sc h hd hf
    obtain ⟨p, log, hp⟩ := Result.exists_ok h1 (jh7110_aon_no_fault sc fuel parent)
    exact ⟨jh7110_aon_div_field h, p, log, hp, by rw [h2, hp, Result.over_ok hd]⟩
  · intro h hd hf
    obtain ⟨h1, h2⟩ := jh7110_sys_div_step sc h hd hf
    obtain ⟨p, log, hp⟩ := Result.exists_ok h1 (jh7110_sys_no_fault sc fuel parent)
    exact ⟨jh7110_sys_div_field h, p, log, hp, by rw [h2, hp, Result.over_ok hd]⟩
  · intro tap ht hf
    simp only [List.mem_cons, List.mem_singleton, List.not_mem_nil, or_false] at ht
    rcases ht with rfl | rfl | rfl | rfl | rfl
    all_goals exact jh7100_tap sc (fun _ => rfl) hf
  · intro tap ht hf
    simp only [List.mem_cons, List.mem_singleton, List.not_mem_nil, or_false] at ht
    rcases ht with rfl | rfl
    all_goals exact jh7110_aon_tap sc (fun _ => rfl) hf
  · intro tap ht hf
    simp only [List.mem_cons, List.mem_singleton, List.not_mem_nil, or_false] at ht
    rcases ht with rfl | rfl | rfl
    all_goals exact jh7110_sys_tap sc (fun _ => rfl) hf

/-- Witness for C2: AHB_BUS (JH7100), GMAC0_RMII_RTX (aon) and TEMP_APB (sys)
with divisor 2, and the fixed tap SDIO0_AHB, on the example board. -/
theorem divided_node_frequency_witness :
    (jh7100_div_parent JH7100_CLK_AHB_BUS
        (HREAD4 (board (uniform_regs 0x01000002)) (JH7100_CLK_AHB_BUS * 4) % 2 ^ 24)
        = some (JH7100_CLK_CPUNBUS_ROOT_DIV, 2) ∧
      ∀ p log, stfclock_get_frequency_jh7100 7 (board (uniform_regs 0x01000002))
          JH7100_CLK_CPUNBUS_ROOT_DIV = .ok p log →
        stfclock_get_frequency_jh7100 7 (board (uniform_regs 0x01000002))
          JH7100_CLK_AHB_BUS = .ok (p / 2) log) ∧
    (∃ p log, stfclock_get_frequency_jh7110_aon 4 (board (uniform_regs 0x01000002))
          JH7110_AONCLK_GMAC0_RMII_REFIN = .ok p log ∧
        stfclock_get_frequency_jh7110_aon 4 (board (uniform_regs 0x01000002))
          JH7110_AONCLK_GMAC0_RMII_RTX = .ok (p / 2) log) ∧
    (∃ p log, stfclock_get_frequency_jh7110_sys 6 (board (uniform_regs 0x01000002))
          JH7110_SYSCLK_APB_BUS = .ok p log ∧
        stfclock_get_frequency_jh7110_sys 6 (board (uniform_regs 0x01000002))
          JH7110_SYSCLK_TEMP_APB = .ok (p / 2) log) ∧
    stfclock_get_frequency_jh7100 7 (board (uniform_regs 0x01000002)) JH7100_CLK_SDIO0_AHB
      = stfclock_get_frequency_jh7100 7 (board (uniform_regs 0x01000002))
          JH7100_CLK_AHB_BUS :=
  ⟨⟨by decide,
      ((divided_node_frequency (board (uniform_regs 0x01000002)) JH7100_CLK_AHB_BUS
        JH7100_CLK_CPUNBUS_ROOT_DIV 2 7).1 (by decide) (by decide) (by decide)).2.2.1⟩,
    ((divided_node_frequency (board (uniform_regs 0x01000002))
      JH7110_AONCLK_GMAC0_RMII_RTX JH7110_AONCLK_GMAC0_RMII_REFIN 2 4).2.1
        (by decide) (by decide) (by decide)).2,
    ((divided_node_frequency (board (uniform_regs 0x01000002))
      JH7110_SYSCLK_TEMP_APB JH7110_SYSCLK_APB_BUS 2 6).2.2.1
        (by decide) (by decide) (by decide)).2,
    (divided_node_frequency (board (uniform_regs 0x01000002)) 0 0 0 7).2.2.2.1
      (JH7100_CLK_SDIO0_AHB, JH7100_CLK_AHB_BUS) (by decide) (by decide)⟩

/-- C3: chain law. Along every path the resolver takes from `leaf` through
multiplexers and dividers (`links`, each with its divisor, 1 for a
multiplexer) down to an oscillator of frequency F, with every divisor
non-zero, the query on `leaf` returns F divided by the product of the
divisors (JH7100, aon and sys). In the sys variant, for every register state
with non-zero divisor fields d1..d4 on TEMP_APB, APB_BUS, STG_AXIAHB and
AXI_CFG0, the query on TEMP_APB returns F / (d1*d2*d3*d4), F being the
frequency of PLL2_OUT when bit 24 of BUS_ROOT's register is set and of OSC
otherwise. -/
theorem chain_law (sc : Softc) (name : String) (links : List (Nat × Nat))
    (leaf fuel : Nat) :
    (is_chain (jh7100_step sc) leaf links = true →
      jh7100_external (chain_end leaf links) = some name →
      (∀ link ∈ links, link.2 ≠ 0) → links.length < fuel →
      stfclock_get_frequency_jh7100 fuel sc leaf
        = .ok (clock_get_frequency sc name / chain_divisor links) []) ∧
    (is_chain (jh7110_aon_step sc) leaf links = true →
      jh7110_aon_external (chain_end leaf links) = some name →
      (∀ link ∈ links, link.2 ≠ 0) → links.length < fuel →
      stfclock_get_frequency_jh7110_aon fuel sc leaf
        = .ok (clock_get_frequency sc name / chain_divisor links) []) ∧
    (is_chain (jh7110_sys_step sc) leaf links = true →
      jh7110_sys_external (chain_end leaf links) = some name →
      (∀ link ∈ links, link.2 ≠ 0) → links.length < fuel →
      stfclock_get_frequency_jh7110_sys fuel sc leaf
        = .ok (clock_get_frequency sc name / chain_divisor links) []) ∧
    (HREAD4 sc (JH7110_SYSCLK_TEMP_APB * 4) % 2 ^ 24 ≠ 0 →
      HREAD4 sc (JH7110_SYSCLK_APB_BUS * 4) % 2 ^ 24 ≠ 0 →
      HREAD4 sc (JH7110_SYSCLK_STG_AXIAHB * 4) % 2 ^ 24 ≠ 0 →
      HREAD4 sc (JH7110_SYSCLK_AXI_CFG0 * 4) % 2 ^ 24 ≠ 0 →
      6 ≤ fuel →
      stfclock_get_frequency_jh7110_sys fuel sc JH7110_SYSCLK_TEMP_APB
        = .ok ((if (HREAD4 sc (JH7110_SYSCLK_BUS_ROOT * 4)).testBit 24
                then clock_get_frequency sc "pll2_out"
                else clock_get_frequency sc "osc")
              / (HREAD4 sc (JH7110_SYSCLK_TEMP_APB * 4) % 2 ^ 24
                  * (HREAD4 sc (JH7110_SYSCLK_APB_BUS * 4) % 2 ^ 24)
                  * (HREAD4 sc (JH7110_SYSCLK_STG_AXIAHB * 4) % 2 ^ 24)
                  * (HREAD4 sc (JH7110_SYSCLK_AXI_CFG0 * 4) % 2 ^ 24))) []) := by
  refine ⟨jh7100_chain_law sc name links leaf fuel,
    jh7110_aon_chain_law sc name links leaf fuel,
    jh7110_sys_chain_law sc name links leaf fuel, ?_⟩
  intro h1 h2 h3 h4 hf
  obtain ⟨s1, s2, s3, s4, s5⟩ := jh7110_sys_step_divider sc
  by_cases hb : (HREAD4 sc (JH7110_SYSCLK_BUS_ROOT * 4)).testBit 24 = true
  · rw [if_pos hb] at s5
    rw [if_pos hb]
    have h := jh7110_sys_chain_law sc "pll2_out"
      [(JH7110_SYSCLK_APB_BUS, HREAD4 sc (JH7110_SYSCLK_TEMP_APB * 4) % 2 ^ 24),
       (JH7110_SYSCLK_STG_AXIAHB, HREAD4 sc (JH7110_SYSCLK_APB_BUS * 4) % 2 ^ 24),
       (JH7110_SYSCLK_AXI_CFG0, HREAD4 sc (JH7110_SYSCLK_STG_AXIAHB * 4) % 2 ^ 24),
       (JH7110_SYSCLK_BUS_ROOT, HREAD4 sc (JH7110_SYSCLK_AXI_CFG0 * 4) % 2 ^ 24),
       (JH7110_SYSCLK_PLL2_OUT, 1)] JH7110_SYSCLK_TEMP_APB fuel
      (by simp only [is_chain, s1, s2, s3, s4, s5, beq_self_eq_true, Bool.and_self])
      rfl
      (by
        intro link hl
        simp only [List.mem_cons, List.mem_singleton, List.not_mem_nil, or_false] at hl
        rcases hl with rfl | rfl | rfl | rfl | rfl
        · exact h1
        · exact h2
        · exact h3
        · exact h4
        · exact one_ne_zero)
      (by simpa using hf)
    rw [h]
    simp only [chain_divisor, List.map_cons, List.map_nil, List.prod_cons, List.prod_nil,
      Nat.mul_one, Nat.mul_assoc]
  · rw [if_neg hb] at s5
    rw [if_neg hb]
    have h := jh7110_sys_chain_law sc "osc"
      [(JH7110_SYSCLK_APB_BUS, HREAD4 sc (JH7110_SYSCLK_TEMP_APB * 4) % 2 ^ 24),
       (JH7110_SYSCLK_STG_AXIAHB, HREAD4 sc (JH7110_SYSCLK_APB_BUS * 4) % 2 ^ 24),
       (JH7110_SYSCLK_AXI_CFG0, HREAD4 sc (JH7110_SYSCLK_STG_AXIAHB * 4) % 2 ^ 24),
       (JH7110_SYSCLK_BUS_ROOT, HREAD4 sc (JH7110_SYSCLK_AXI_CFG0 * 4) % 2 ^ 24),
       (JH7110_SYSCLK_OSC, 1)] JH7110_SYSCLK_TEMP_APB fuel
      (by simp only [is_chain, s1, s2, s3, s4, s5, beq_self_eq_true, Bool.and_self])
      rfl
      (by
        intro link hl
        simp only [List.mem_cons, List.mem_singleton, List.not_mem_nil, or_false] at hl
        rcases hl with rfl | rfl | rfl | rfl | rfl
        · exact h1
        · exact h2
        · exact h3
        · exact h4
        · exact one_ne_zero)
      (by simpa using hf)
    rw [h]
    simp only [chain_divisor, List.map_cons, List.map_nil, List.prod_cons, List.prod_nil,
      Nat.mul_one, Nat.mul_assoc]

/-- Witness for C3: the TEMP_APB chain with four divisors 2 below PLL2_OUT
(24 MHz / 16), a JH7100 chain PERH0_SRC, PERH0_ROOT, OSC_SYS and an aon chain
GMAC0_TX_INV, GMAC0_TX, GMAC0_RMII_RTX, GMAC0_RMII_REFIN. -/
theorem chain_law_witness :
    stfclock_get_frequency_jh7110_sys 6 (board (uniform_regs 0x01000002))
      JH7110_SYSCLK_TEMP_APB = .ok 1500000 [] ∧
    (is_chain (jh7100_step (board (uniform_regs 2))) JH7100_CLK_PERH0_SRC
        [(JH7100_CLK_PERH0_ROOT, 2), (JH7100_CLK_OSC_SYS, 1)] = true ∧
      stfclock_get_frequency_jh7100 3 (board (uniform_regs 2)) JH7100_CLK_PERH0_SRC
        = .ok 12000000 []) ∧
    (is_chain (jh7110_aon_step (board (uniform_regs 0x01000002)))
        JH7110_AONCLK_GMAC0_TX_INV
        [(JH7110_AONCLK_GMAC0_TX, 1), (JH7110_AONCLK_GMAC0_RMII_RTX, 1),
         (JH7110_AONCLK_GMAC0_RMII_REFIN, 2)] = true ∧
      stfclock_get_frequency_jh7110_aon 4 (board (uniform_regs 0x01000002))
        JH7110_AONCLK_GMAC0_TX_INV = .ok 12000000 []) :=
  ⟨(chain_law (board (uniform_regs 0x01000002)) "osc" [] 0 6).2.2.2
      (by decide) (by decide) (by decide) (by decide) (by decide),
    ⟨by decide,
      (chain_law (board (uniform_regs 2)) "osc_sys"
        [(JH7100_CLK_PERH0_ROOT, 2), (JH7100_CLK_OSC_SYS, 1)] JH7100_CLK_PERH0_SRC 3).1
        (by decide) (by decide) (by decide) (by decide)⟩,
    ⟨by decide,
      (chain_law (board (uniform_regs 0x01000002)) "gmac0_rmii_refin"
        [(JH7110_AONCLK_GMAC0_TX, 1), (JH7110_AONCLK_GMAC0_RMII_RTX, 1),
         (JH7110_AONCLK_GMAC0_RMII_REFIN, 2)] JH7110_AONCLK_GMAC0_TX_INV 4).2.1
        (by decide) (by decide) (by decide) (by decide)⟩⟩

/-- C4: in the aon and sys variants, a divider that reads its divisor from
its register returns 0, with the zero-divisor line, when bits 0..23 of that
register are zero. This holds with a recursion budget of one call, so the
parent is not resolved, and the outcome is a return, not a division. -/
theorem zero_divisor_returns_zero (sc : Softc) (idx fuel : Nat) :
    (idx ∈ jh7110_aon_register_dividers → HREAD4 sc (idx * 4) % 2 ^ 24 = 0 →
      stfclock_get_frequency_jh7110_aon (fuel + 1) sc idx
        = .ok 0 [.zero_divisor_for "stfclock_get_frequency_jh7110_aon" idx]) ∧
    (idx ∈ jh7110_sys_register_dividers → HREAD4 sc (idx * 4) % 2 ^ 24 = 0 →
      stfclock_get_frequency_jh7110_sys (fuel + 1) sc idx
        = .ok 0 [.zero_divisor_for "stfclock_get_frequency_jh7110_sys" idx]) := by
  constructor
  · intro hm hz
    obtain ⟨parent, hp⟩ := jh7110_aon_register_divider sc hm
    rw [jh7110_aon_div_unfold sc hp, if_pos hz]
  · intro hm hz
    obtain ⟨parent, hp⟩ := jh7110_sys_register_divider sc hm
    rw [jh7110_sys_div_unfold sc hp, if_pos hz]

/-- Witness for C4: GMAC0_RMII_RTX (aon) and TEMP_CORE (sys) over registers
that read zero, with a budget of one call. -/
theorem zero_divisor_returns_zero_witness :
    (JH7110_AONCLK_GMAC0_RMII_RTX ∈ jh7110_aon_register_dividers ∧
      HREAD4 (board zero_regs) (JH7110_AONCLK_GMAC0_RMII_RTX * 4) % 2 ^ 24 = 0 ∧
      stfclock_get_frequency_jh7110_aon 1 (board zero_regs) JH7110_AONCLK_GMAC0_RMII_RTX
        = .ok 0 [.zero_divisor_for "stfclock_get_frequency_jh7110_aon"
            JH7110_AONCLK_GMAC0_RMII_RTX]) ∧
    (JH7110_SYSCLK_TEMP_CORE ∈ jh7110_sys_register_dividers ∧
      HREAD4 (board zero_regs) (JH7110_SYSCLK_TEMP_CORE * 4) % 2 ^ 24 = 0 ∧
      stfclock_get_frequency_jh7110_sys 1 (board zero_regs) JH7110_SYSCLK_TEMP_CORE
        = .ok 0 [.zero_divisor_for "stfclock_get_frequency_jh7110_sys"
            JH7110_SYSCLK_TEMP_CORE]) :=
  ⟨⟨by decide, by decide,
      (zero_divisor_returns_zero (board zero_regs) JH7110_AONCLK_GMAC0_RMII_RTX 0).1
        (by decide) (by decide)⟩,
    ⟨by decide, by decide,
      (zero_divisor_returns_zero (board zero_regs) JH7110_SYSCLK_TEMP_CORE 0).2
        (by decide) (by decide)⟩⟩

/-- C5 (the code departs from the claim): in the JH7100 resolver a divider
that reads its divisor from its register executes `freq / div` with
`div = 0` when bits 0..23 of the register are zero; the query does not return
0. The sibling resolvers of the JH7110 check `div == 0` first. -/
theorem jh7100_zero_divisor_divides (sc : Softc) (idx fuel : Nat)
    (hm : idx ∈ jh7100_register_dividers)
    (hz : HREAD4 sc (idx * 4) % 2 ^ 24 = 0) (hf : 7 ≤ fuel) :
    stfclock_get_frequency_jh7100 fuel sc idx = .div_by_zero := by
  obtain ⟨parent, hp⟩ := jh7100_register_divider sc hm
  obtain ⟨h1, h2⟩ := jh7100_div_step sc hp hf
  rw [h2, hz]
  cases hr : stfclock_get_frequency_jh7100 fuel sc parent with
  | ok p log => rfl
  | div_by_zero => rfl
  | out_of_fuel => exact absurd hr h1

/-- Failing input for C5: PERH0_SRC over registers that read zero. -/
theorem jh7100_zero_divisor_divides_witness :
    JH7100_CLK_PERH0_SRC ∈ jh7100_register_dividers ∧
    HREAD4 (board zero_regs) (JH7100_CLK_PERH0_SRC * 4) % 2 ^ 24 = 0 ∧
    stfclock_get_frequency_jh7100 7 (board zero_regs) JH7100_CLK_PERH0_SRC
      = .div_by_zero :=
  ⟨by decide, by decide,
    jh7100_zero_divisor_divides (board zero_regs) JH7100_CLK_PERH0_SRC 7
      (by decide) (by decide) (by decide)⟩

/-- Counterexample for C6: PLL0 with a 24 MHz parent, both mode bits 0,
fbdiv = 200, prediv = 1, postdiv1 = 1 is a valid configuration whose formula
value is 4,800,000,000; the query returns 505,032,704, that value cut to 32
bits. -/
theorem pll_output_truncated :
    clock_get_frequency_idx (board (pll_regs .pll0 0 0 200 0 0 1)) 0 = 24000000 ∧
    pll_read_fields (pll_regs .pll0 0 0 200 0 0 1) (pll_base .pll0) .pll0
      = { dacpd := 0, dsmpd := 0, fbdiv := 200, frac := 0, prediv := 1, postdiv1 := 1 } ∧
    24000000 / 1000 * (200 * 1000 + 0 * 1000 / 2 ^ 24) / 1 / 1 = 4800000000 ∧
    stfclock_get_frequency_jh7110_pll (board (pll_regs .pll0 0 0 200 0 0 1))
      JH7110_CLK_PLL0_OUT = .ok 505032704 [] ∧
    stfclock_get_frequency_jh7110_pll (board (pll_regs .pll0 0 0 200 0 0 1))
      JH7110_CLK_PLL0_OUT ≠ .ok 4800000000 [] := by
  decide

/-- C6 (amended): for every PLL node and every valid configuration (non-zero
parent frequency, parent node and regmap present, dacpd = dsmpd, fbdiv and
prediv non-zero) the query returns the formula value
`parent / 1000 * (fbdiv * 1000 + frac_contribution) / prediv / postdiv1`
reduced modulo 2^32, the width of the returned `uint32_t`; the 64-bit
computation itself never wraps, so the returned value is exactly the formula
value whenever that is below 2^32. -/
theorem pll_output_frequency (sc : Softc) (idx : Nat) (pll : PllId) (pllrm : Nat → Nat)
    (hidx : pll_of_idx idx = some pll) (hparent : clock_get_frequency_idx sc 0 ≠ 0)
    (hnode : 0 ≤ sc.of_parent) (hrm : sc.regmap_bynode sc.of_parent = some pllrm)
    (hmode : (pll_read_fields pllrm (pll_base pll) pll).dacpd
      = (pll_read_fields pllrm (pll_base pll) pll).dsmpd)
    (hfb : (pll_read_fields pllrm (pll_base pll) pll).fbdiv ≠ 0)
    (hpre : (pll_read_fields pllrm (pll_base pll) pll).prediv ≠ 0) :
    stfclock_get_frequency_jh7110_pll sc idx
      = .ok (spec_pll_output (clock_get_frequency_idx sc 0)
          (pll_read_fields pllrm (pll_base pll) pll) % 2 ^ 32) [] ∧
    (spec_pll_output (clock_get_frequency_idx sc 0)
        (pll_read_fields pllrm (pll_base pll) pll) < 2 ^ 32 →
      stfclock_get_frequency_jh7110_pll sc idx
        = .ok (spec_pll_output (clock_get_frequency_idx sc 0)
            (pll_read_fields pllrm (pll_base pll) pll)) []) := by
  have h := pll_query_valid sc hidx hparent hnode hrm hmode hfb hpre
  refine ⟨h, fun hlt => ?_⟩
  rw [h, Nat.mod_eq_of_lt hlt]

/-- Witness for C6: PLL1 with a 24 MHz parent, fbdiv = 125, frac = 2^23
(half), prediv = 3, postdiv1 = 2, both mode bits 0. -/
theorem pll_output_frequency_witness :
    stfclock_get_frequency_jh7110_pll (board (pll_regs .pll1 0 0 125 8388608 1 3))
        JH7110_CLK_PLL1_OUT
      = .ok (spec_pll_output 24000000
          { dacpd := 0, dsmpd := 0, fbdiv := 125, frac := 8388608, prediv := 3,
            postdiv1 := 2 }) [] ∧
    spec_pll_output 24000000
      { dacpd := 0, dsmpd := 0, fbdiv := 125, frac := 8388608, prediv := 3,
        postdiv1 := 2 } = 502000000 :=
  ⟨(pll_output_frequency (board (pll_regs .pll1 0 0 125 8388608 1 3))
      JH7110_CLK_PLL1_OUT .pll1 (pll_regs .pll1 0 0 125 8388608 1 3)
      (by decide) (by decide) (by decide) rfl (by decide) (by decide) (by decide)).2
      (by decide),
    by decide⟩

/-- C7: a PLL whose fields decode to dacpd = dsmpd = 0, fbdiv = 100,
frac = 0, prediv = 2, postdiv1 = 1, fed by a 24 MHz parent, reports
1,200,000,000 Hz. -/
theorem pll_reference_configuration (sc : Softc) (idx : Nat) (pll : PllId)
    (pllrm : Nat → Nat)
    (hidx : pll_of_idx idx = some pll)
    (hparent : clock_get_frequency_idx sc 0 = 24000000)
    (hnode : 0 ≤ sc.of_parent) (hrm : sc.regmap_bynode sc.of_parent = some pllrm)
    (hfields : pll_read_fields pllrm (pll_base pll) pll
      = { dacpd := 0, dsmpd := 0, fbdiv := 100, frac := 0, prediv := 2, postdiv1 := 1 }) :
    stfclock_get_frequency_jh7110_pll sc idx = .ok 1200000000 [] := by
  rw [pll_query_eq sc hidx (by rw [hparent]; decide) hnode hrm, hparent, hfields]
  decide

/-- Witness for C7: the three PLLs of the example board, each programmed
with the reference configuration. -/
theorem pll_reference_configuration_witness :
    stfclock_get_frequency_jh7110_pll (board (pll_regs .pll0 0 0 100 0 0 2))
      JH7110_CLK_PLL0_OUT = .ok 1200000000 [] ∧
    stfclock_get_frequency_jh7110_pll (board (pll_regs .pll1 0 0 100 0 0 2))
      JH7110_CLK_PLL1_OUT = .ok 1200000000 [] ∧
    stfclock_get_frequency_jh7110_pll (board (pll_regs .pll2 0 0 100 0 0 2))
      JH7110_CLK_PLL2_OUT = .ok 1200000000 [] :=
  ⟨pll_reference_configuration (board (pll_regs .pll0 0 0 100 0 0 2)) JH7110_CLK_PLL0_OUT
      .pll0 (pll_regs .pll0 0 0 100 0 0 2) (by decide) (by decide) (by decide) rfl
      (by decide),
    pll_reference_configuration (board (pll_regs .pll1 0 0 100 0 0 2)) JH7110_CLK_PLL1_OUT
      .pll1 (pll_regs .pll1 0 0 100 0 0 2) (by decide) (by decide) (by decide) rfl
      (by decide),
    pll_reference_configuration (board (pll_regs .pll2 0 0 100 0 0 2)) JH7110_CLK_PLL2_OUT
      .pll2 (pll_regs .pll2 0 0 100 0 0 2) (by decide) (by decide) (by decide) rfl
      (by decide)⟩

/-- Counterexample for C8: PLL0 with a 24 MHz parent, both mode bits 0,
fbdiv = 178, prediv = 1, postdiv1 = 1. Raising frac from 16039019 to 16055796
lowers the returned frequency from 4,294,944,000 to 704, because the larger
value, 4,294,968,000, does not fit the 32-bit return type. -/
theorem pll_frac_not_monotone :
    (16039019 ≤ 16055796 ∧ 16055796 < 2 ^ 24) ∧
    pll_read_fields (pll_regs .pll0 0 0 178 16039019 0 1) (pll_base .pll0) .pll0
      = { dacpd := 0, dsmpd := 0, fbdiv := 178, frac := 16039019, prediv := 1,
          postdiv1 := 1 } ∧
    pll_read_fields (pll_regs .pll0 0 0 178 16055796 0 1) (pll_base .pll0) .pll0
      = { dacpd := 0, dsmpd := 0, fbdiv := 178, frac := 16055796, prediv := 1,
          postdiv1 := 1 } ∧
    stfclock_get_frequency_jh7110_pll (board (pll_regs .pll0 0 0 178 16039019 0 1))
      JH7110_CLK_PLL0_OUT = .ok 4294944000 [] ∧
    stfclock_get_frequency_jh7110_pll (board (pll_regs .pll0 0 0 178 16055796 0 1))
      JH7110_CLK_PLL0_OUT = .ok 704 [] ∧
    ¬ (4294944000 ≤ 704) := by
  decide

/-- C8 (amended): for a PLL node with both mode bits 0, two register states
that give the same valid parent frequency, fbdiv, prediv and postdiv1 and
fractions frac1 ≤ frac2 return frequencies v1 ≤ v2, provided the formula
value for frac2 is below 2^32 (fits the returned `uint32_t`). -/
theorem pll_monotone_in_frac (sc1 sc2 : Softc) (idx : Nat) (pll : PllId)
    (rm1 rm2 : Nat → Nat)
    (hidx : pll_of_idx idx = some pll)
    (hparent : clock_get_frequency_idx sc1 0 ≠ 0)
    (hsame : clock_get_frequency_idx sc1 0 = clock_get_frequency_idx sc2 0)
    (hnode1 : 0 ≤ sc1.of_parent) (hnode2 : 0 ≤ sc2.of_parent)
    (hrm1 : sc1.regmap_bynode sc1.of_parent = some rm1)
    (hrm2 : sc2.regmap_bynode sc2.of_parent = some rm2)
    (hmode1 : (pll_read_fields rm1 (pll_base pll) pll).dacpd = 0
      ∧ (pll_read_fields rm1 (pll_base pll) pll).dsmpd = 0)
    (hmode2 : (pll_read_fields rm2 (pll_base pll) pll).dacpd = 0
      ∧ (pll_read_fields rm2 (pll_base pll) pll).dsmpd = 0)
    (hfb : (pll_read_fields rm1 (pll_base pll) pll).fbdiv
      = (pll_read_fields rm2 (pll_base pll) pll).fbdiv)
    (hfb0 : (pll_read_fields rm1 (pll_base pll) pll).fbdiv ≠ 0)
    (hpre : (pll_read_fields rm1 (pll_base pll) pll).prediv
      = (pll_read_fields rm2 (pll_base pll) pll).prediv)
    (hpre0 : (pll_read_fields rm1 (pll_base pll) pll).prediv ≠ 0)
    (hpost : (pll_read_fields rm1 (pll_base pll) pll).postdiv1
      = (pll_read_fields rm2 (pll_base pll) pll).postdiv1)
    (hfrac : (pll_read_fields rm1 (pll_base pll) pll).frac
      ≤ (pll_read_fields rm2 (pll_base pll) pll).frac)
    (hfit : spec_pll_output (clock_get_frequency_idx sc2 0)
      (pll_read_fields rm2 (pll_base pll) pll) < 2 ^ 32) :
    ∃ v1 v2, stfclock_get_frequency_jh7110_pll sc1 idx = .ok v1 [] ∧
      stfclock_get_frequency_jh7110_pll sc2 idx = .ok v2 [] ∧ v1 ≤ v2 := by
  have q1 := pll_query_valid sc1 hidx hparent hnode1 hrm1
    (by rw [hmode1.1, hmode1.2]) hfb0 hpre0
  have q2 := pll_query_valid sc2 hidx (by rw [← hsame]; exact hparent) hnode2 hrm2
    (by rw [hmode2.1, hmode2.2]) (by rw [← hfb]; exact hfb0) (by rw [← hpre]; exact hpre0)
  refine ⟨_, _, q1, q2, ?_⟩
  rw [Nat.mod_eq_of_lt hfit, hsame]
  exact Nat.le_trans (Nat.mod_le _ _)
    (spec_pll_output_mono _ hmode1 hmode2 hfb hpre hpost hfrac)

/-- Witness for C8: PLL2 with a 24 MHz parent, fbdiv = 100, prediv = 2,
postdiv1 = 1, and frac going from 0 to 2^23. -/
theorem pll_monotone_in_frac_witness :
    ∃ v1 v2,
      stfclock_get_frequency_jh7110_pll (board (pll_regs .pll2 0 0 100 0 0 2))
        JH7110_CLK_PLL2_OUT = .ok v1 [] ∧
      stfclock_get_frequency_jh7110_pll (board (pll_regs .pll2 0 0 100 8388608 0 2))
        JH7110_CLK_PLL2_OUT = .ok v2 [] ∧ v1 ≤ v2 :=
  pll_monotone_in_frac (board (pll_regs .pll2 0 0 100 0 0 2))
    (board (pll_regs .pll2 0 0 100 8388608 0 2)) JH7110_CLK_PLL2_OUT .pll2
    (pll_regs .pll2 0 0 100 0 0 2) (pll_regs .pll2 0 0 100 8388608 0 2)
    (by decide) (by decide) (by decide) (by decide) (by decide) rfl rfl
    (by decide) (by decide) (by decide) (by decide) (by decide) (by decide)
    (by decide) (by decide) (by decide)

/-- C9: a PLL query whose decoded mode bits disagree (dacpd ≠ dsmpd) returns
0, whatever the parent frequency, the other fields and the device-tree parent
are; identifiers that are not a PLL return 0 as well. -/
theorem pll_mode_mismatch_returns_zero (sc : Softc) (idx : Nat) :
    (∀ pll pllrm, pll_of_idx idx = some pll →
      sc.regmap_bynode sc.of_parent = some pllrm →
      (pll_read_fields pllrm (pll_base pll) pll).dacpd
        ≠ (pll_read_fields pllrm (pll_base pll) pll).dsmpd →
      (stfclock_get_frequency_jh7110_pll sc idx).freq? = some 0) ∧
    (pll_of_idx idx = none →
      (stfclock_get_frequency_jh7110_pll sc idx).freq? = some 0) := by
  constructor
  · intro pll pllrm hidx hrm hne
    unfold stfclock_get_frequency_jh7110_pll
    by_cases hp : clock_get_frequency_idx sc 0 = 0
    · simp only [if_pos hp, Result.freq?]
    · by_cases hn : sc.of_parent < 0
      · simp only [if_neg hp, hidx, if_pos hn, Result.freq?]
      · simp only [if_neg hp, hidx, if_neg hn, hrm, pll_output]
        rw [if_pos hne]
        split <;> rfl
  · intro hidx
    unfold stfclock_get_frequency_jh7110_pll
    by_cases hp : clock_get_frequency_idx sc 0 = 0
    · simp only [if_pos hp, Result.freq?]
    · simp only [if_neg hp, hidx, Result.freq?]

/-- Witness for C9: PLL0 with dacpd = 1, dsmpd = 0 and otherwise the
reference configuration; PLL1 with dacpd = 0, dsmpd = 1; identifier 7. -/
theorem pll_mode_mismatch_returns_zero_witness :
    (stfclock_get_frequency_jh7110_pll (board (pll_regs .pll0 1 0 100 0 0 2))
      JH7110_CLK_PLL0_OUT).freq? = some 0 ∧
    (stfclock_get_frequency_jh7110_pll (board (pll_regs .pll1 0 1 100 0 0 2))
      JH7110_CLK_PLL1_OUT).freq? = some 0 ∧
    (stfclock_get_frequency_jh7110_pll (board zero_regs) 7).freq? = some 0 :=
  ⟨(pll_mode_mismatch_returns_zero (board (pll_regs .pll0 1 0 100 0 0 2))
      JH7110_CLK_PLL0_OUT).1 .pll0 (pll_regs .pll0 1 0 100 0 0 2) (by decide) rfl
      (by decide),
    (pll_mode_mismatch_returns_zero (board (pll_regs .pll1 0 1 100 0 0 2))
      JH7110_CLK_PLL1_OUT).1 .pll1 (pll_regs .pll1 0 1 100 0 0 2) (by decide) rfl
      (by decide),
    (pll_mode_mismatch_returns_zero (board zero_regs) 7).2 (by decide)⟩

/-- C10: the PLL query returns 0 when the parent frequency at input 0 is 0,
when the device-tree parent or its regmap is missing, and when the decoded
fbdiv or prediv is 0. -/
theorem pll_failure_returns_zero (sc : Softc) (idx : Nat) :
    (clock_get_frequency_idx sc 0 = 0 →
      (stfclock_get_frequency_jh7110_pll sc idx).freq? = some 0) ∧
    (sc.of_parent < 0 →
      (stfclock_get_frequency_jh7110_pll sc idx).freq? = some 0) ∧
    (sc.regmap_bynode sc.of_parent = none →
      (stfclock_get_frequency_jh7110_pll sc idx).freq? = some 0) ∧
    (∀ pll pllrm, pll_of_idx idx = some pll →
      sc.regmap_bynode sc.of_parent = some pllrm →
      (pll_read_fields pllrm (pll_base pll) pll).fbdiv = 0
        ∨ (pll_read_fields pllrm (pll_base pll) pll).prediv = 0 →
      (stfclock_get_frequency_jh7110_pll sc idx).freq? = some 0) := by
  have hstart : ∀ (P : Prop),
      (clock_get_frequency_idx sc 0 ≠ 0 → ∀ pll, pll_of_idx idx = some pll →
        ¬ sc.of_parent < 0 → P →
        (match sc.regmap_bynode sc.of_parent with
          | none => Result.ok 0 [.no_pll_regmap "stfclock_get_frequency_jh7110_pll"]
          | some pllrm => pll_output (clock_get_frequency_idx sc 0)
              (pll_read_fields pllrm (pll_base pll) pll)).freq? = some 0) →
      P → (stfclock_get_frequency_jh7110_pll sc idx).freq? = some 0 := by
    intro P hmain hP
    unfold stfclock_get_frequency_jh7110_pll
    by_cases hp : clock_get_frequency_idx sc 0 = 0
    · simp only [if_pos hp, Result.freq?]
    · cases hidx : pll_of_idx idx with
      | none => simp only [if_neg hp, Result.freq?]
      | some pll =>
        by_cases hn : sc.of_parent < 0
        · simp only [if_neg hp, if_pos hn, Result.freq?]
        · simp only [if_neg hp, if_neg hn]
          exact hmain hp pll hidx hn hP
  refine ⟨?_, ?_, ?_, ?_⟩
  · intro hp
    unfold stfclock_get_frequency_jh7110_pll
    simp only [if_pos hp, Result.freq?]
  · intro hn
    exact hstart (sc.of_parent < 0) (fun _ _ _ hnn h => absurd h hnn) hn
  · intro hrm
    refine hstart (sc.regmap_bynode sc.of_parent = none) (fun _ _ _ _ h => ?_) hrm
    simp only [h, Result.freq?]
  · intro pll pllrm hidx hrm hz
    refine hstart True (fun _ q hq _ _ => ?_) trivial
    have hpll : q = pll := Option.some.inj (hq.symm.trans hidx)
    subst hpll
    simp only [hrm, pll_output]
    rw [if_pos (by rcases hz with h | h <;> simp [h])]
    rfl

/-- Witness for C10: a dead parent clock, a missing device-tree parent, a
missing regmap, fbdiv = 0 and prediv = 0, each with everything else in the
reference configuration. -/
theorem pll_failure_returns_zero_witness :
    (stfclock_get_frequency_jh7110_pll
      (board_with 0 1 (some (pll_regs .pll0 0 0 100 0 0 2))) JH7110_CLK_PLL0_OUT).freq?
        = some 0 ∧
    (stfclock_get_frequency_jh7110_pll
      (board_with 24000000 (-1) (some (pll_regs .pll0 0 0 100 0 0 2)))
        JH7110_CLK_PLL0_OUT).freq? = some 0 ∧
    (stfclock_get_frequency_jh7110_pll
      (board_with 24000000 1 none) JH7110_CLK_PLL0_OUT).freq? = some 0 ∧
    (stfclock_get_frequency_jh7110_pll (board (pll_regs .pll0 0 0 0 0 0 2))
      JH7110_CLK_PLL0_OUT).freq? = some 0 ∧
    (stfclock_get_frequency_jh7110_pll (board (pll_regs .pll1 0 0 100 0 0 0))
      JH7110_CLK_PLL1_OUT).freq? = some 0 :=
  ⟨(pll_failure_returns_zero (board_with 0 1 (some (pll_regs .pll0 0 0 100 0 0 2)))
      JH7110_CLK_PLL0_OUT).1 (by decide),
    (pll_failure_returns_zero
      (board_with 24000000 (-1) (some (pll_regs .pll0 0 0 100 0 0 2)))
      JH7110_CLK_PLL0_OUT).2.1 (by decide),
    (pll_failure_returns_zero (board_with 24000000 1 none)
      JH7110_CLK_PLL0_OUT).2.2.1 rfl,
    (pll_failure_returns_zero (board (pll_regs .pll0 0 0 0 0 0 2))
      JH7110_CLK_PLL0_OUT).2.2.2 .pll0 (pll_regs .pll0 0 0 0 0 0 2) (by decide) rfl
      (Or.inl (by decide)),
    (pll_failure_returns_zero (board (pll_regs .pll1 0 0 100 0 0 0))
      JH7110_CLK_PLL1_OUT).2.2.2 .pll1 (pll_regs .pll1 0 0 100 0 0 0) (by decide) rfl
      (Or.inr (by decide))⟩

/-- C11 (the code departs from the claim): a PLL query with a live parent
clock, parent node and regmap, non-zero fbdiv and prediv, and mode bits that
disagree returns 0 and prints nothing: the statement
`if (dacpd != dsmpd) return 0;` has no `printf`, unlike every other failing
return of the function. -/
theorem pll_mode_mismatch_silent (sc : Softc) (idx : Nat) (pll : PllId)
    (pllrm : Nat → Nat)
    (hidx : pll_of_idx idx = some pll) (hparent : clock_get_frequency_idx sc 0 ≠ 0)
    (hnode : 0 ≤ sc.of_parent) (hrm : sc.regmap_bynode sc.of_parent = some pllrm)
    (hfb : (pll_read_fields pllrm (pll_base pll) pll).fbdiv ≠ 0)
    (hpre : (pll_read_fields pllrm (pll_base pll) pll).prediv ≠ 0)
    (hne : (pll_read_fields pllrm (pll_base pll) pll).dacpd
      ≠ (pll_read_fields pllrm (pll_base pll) pll).dsmpd) :
    stfclock_get_frequency_jh7110_pll sc idx = .ok 0 [] := by
  obtain ⟨-, -, -, b4⟩ := pll_fields_bounds pllrm (pll_base pll) pll
  rw [pll_query_eq sc hidx hparent hnode hrm]
  unfold pll_output
  rw [if_neg (by
    intro h
    rcases h with h | h | h
    · exact hfb h
    · exact hpre h
    · omega), if_pos hne]

/-- Failing input for C11: PLL0 with dacpd = 1, dsmpd = 0, fbdiv = 100,
prediv = 2 and a 24 MHz parent. -/
theorem pll_mode_mismatch_silent_witness :
    pll_read_fields (pll_regs .pll0 1 0 100 0 0 2) (pll_base .pll0) .pll0
      = { dacpd := 1, dsmpd := 0, fbdiv := 100, frac := 0, prediv := 2, postdiv1 := 1 } ∧
    stfclock_get_frequency_jh7110_pll (board (pll_regs .pll0 1 0 100 0 0 2))
      JH7110_CLK_PLL0_OUT = .ok 0 [] :=
  ⟨by decide,
    pll_mode_mismatch_silent (board (pll_regs .pll0 1 0 100 0 0 2)) JH7110_CLK_PLL0_OUT
      .pll0 (pll_regs .pll0 1 0 100 0 0 2) (by decide) (by decide) (by decide) rfl
      (by decide) (by decide) (by decide)⟩

/-- Counterexample for C12: PLL0 with both mode bits 1, a 24 MHz parent,
fbdiv = 200, prediv = 1, postdiv1 = 1. The value
`parent / 1000 * (fbdiv * 1000) / prediv / postdiv1` is 4,800,000,000; the
query returns 505,032,704. -/
theorem pll_integer_mode_truncated :
    pll_read_fields (pll_regs .pll0 1 1 200 0 0 1) (pll_base .pll0) .pll0
      = { dacpd := 1, dsmpd := 1, fbdiv := 200, frac := 0, prediv := 1, postdiv1 := 1 } ∧
    clock_get_frequency_idx (board (pll_regs .pll0 1 1 200 0 0 1)) 0 = 24000000 ∧
    24000000 / 1000 * (200 * 1000) / 1 / 1 = 4800000000 ∧
    stfclock_get_frequency_jh7110_pll (board (pll_regs .pll0 1 1 200 0 0 1))
      JH7110_CLK_PLL0_OUT = .ok 505032704 [] ∧
    stfclock_get_frequency_jh7110_pll (board (pll_regs .pll0 1 1 200 0 0 1))
      JH7110_CLK_PLL0_OUT ≠ .ok 4800000000 [] := by
  decide

/-- C12 (amended): with both mode bits 1 the query does not depend on the
frac field: a second state with the same parent frequency, fbdiv, prediv and
postdiv1 and any frac gives the same outcome. In a valid configuration that
outcome is `parent / 1000 * (fbdiv * 1000) / prediv / postdiv1` reduced modulo
2^32 (the value itself when it is below 2^32); with both mode bits 0 the
fractional contribution `frac * 1000 / 2^24` is added to `fbdiv * 1000`. -/
theorem pll_mode_selection (sc sc2 : Softc) (idx : Nat) (pll : PllId)
    (pllrm rm2 : Nat → Nat)
    (hidx : pll_of_idx idx = some pll) (hparent : clock_get_frequency_idx sc 0 ≠ 0)
    (hnode : 0 ≤ sc.of_parent) (hrm : sc.regmap_bynode sc.of_parent = some pllrm) :
    (clock_get_frequency_idx sc2 0 = clock_get_frequency_idx sc 0 →
      0 ≤ sc2.of_parent → sc2.regmap_bynode sc2.of_parent = some rm2 →
      (pll_read_fields pllrm (pll_base pll) pll).dacpd = 1 →
      (pll_read_fields pllrm (pll_base pll) pll).dsmpd = 1 →
      (pll_read_fields rm2 (pll_base pll) pll).dacpd = 1 →
      (pll_read_fields rm2 (pll_base pll) pll).dsmpd = 1 →
      (pll_read_fields rm2 (pll_base pll) pll).fbdiv
        = (pll_read_fields pllrm (pll_base pll) pll).fbdiv →
      (pll_read_fields rm2 (pll_base pll) pll).prediv
        = (pll_read_fields pllrm (pll_base pll) pll).prediv →
      (pll_read_fields rm2 (pll_base pll) pll).postdiv1
        = (pll_read_fields pllrm (pll_base pll) pll).postdiv1 →
      stfclock_get_frequency_jh7110_pll sc2 idx
        = stfclock_get_frequency_jh7110_pll sc idx) ∧
    ((pll_read_fields pllrm (pll_base pll) pll).fbdiv ≠ 0 →
      (pll_read_fields pllrm (pll_base pll) pll).prediv ≠ 0 →
      (pll_read_fields pllrm (pll_base pll) pll).dacpd = 1 →
      (pll_read_fields pllrm (pll_base pll) pll).dsmpd = 1 →
      stfclock_get_frequency_jh7110_pll sc idx
        = .ok (clock_get_frequency_idx sc 0 / 1000
            * ((pll_read_fields pllrm (pll_base pll) pll).fbdiv * 1000)
            / (pll_read_fields pllrm (pll_base pll) pll).prediv
            / (pll_read_fields pllrm (pll_base pll) pll).postdiv1 % 2 ^ 32) [] ∧
      (clock_get_frequency_idx sc 0 / 1000
          * ((pll_read_fields pllrm (pll_base pll) pll).fbdiv * 1000)
          / (pll_read_fields pllrm (pll_base pll) pll).prediv
          / (pll_read_fields pllrm (pll_base pll) pll).postdiv1 < 2 ^ 32 →
        stfclock_get_frequency_jh7110_pll sc idx
          = .ok (clock_get_frequency_idx sc 0 / 1000
              * ((pll_read_fields pllrm (pll_base pll) pll).fbdiv * 1000)
              / (pll_read_fields pllrm (pll_base pll) pll).prediv
              / (pll_read_fields pllrm (pll_base pll) pll).postdiv1) [])) ∧
    ((pll_read_fields pllrm (pll_base pll) pll).fbdiv ≠ 0 →
      (pll_read_fields pllrm (pll_base pll) pll).prediv ≠ 0 →
      (pll_read_fields pllrm (pll_base pll) pll).dacpd = 0 →
      (pll_read_fields pllrm (pll_base pll) pll).dsmpd = 0 →
      stfclock_get_frequency_jh7110_pll sc idx
        = .ok (clock_get_frequency_idx sc 0 / 1000
            * ((pll_read_fields pllrm (pll_base pll) pll).fbdiv * 1000
                + (pll_read_fields pllrm (pll_base pll) pll).frac * 1000 / 2 ^ 24)
            / (pll_read_fields pllrm (pll_base pll) pll).prediv
            / (pll_read_fields pllrm (pll_base pll) pll).postdiv1 % 2 ^ 32) []) := by
  refine ⟨?_, ?_, ?_⟩
  · intro hp2 hnode2 hrm2 hd hs hd2 hs2 hfb hpre hpost
    rw [pll_query_eq sc hidx hparent hnode hrm,
      pll_query_eq sc2 hidx (by rw [hp2]; exact hparent) hnode2 hrm2, hp2]
    exact pll_output_frac_irrelevant _ hd hs hd2 hs2 hfb hpre hpost
  · intro hfb hpre hd hs
    have h := pll_query_valid sc hidx hparent hnode hrm (by rw [hd, hs]) hfb hpre
    have hv : spec_pll_output (clock_get_frequency_idx sc 0)
          (pll_read_fields pllrm (pll_base pll) pll)
        = clock_get_frequency_idx sc 0 / 1000
            * ((pll_read_fields pllrm (pll_base pll) pll).fbdiv * 1000)
            / (pll_read_fields pllrm (pll_base pll) pll).prediv
            / (pll_read_fields pllrm (pll_base pll) pll).postdiv1 := by
      simp [spec_pll_output, hd]
    rw [hv] at h
    refine ⟨h, fun hlt => ?_⟩
    rw [h, Nat.mod_eq_of_lt hlt]
  · intro hfb hpre hd hs
    have h := pll_query_valid sc hidx hparent hnode hrm (by rw [hd, hs]) hfb hpre
    have hv : spec_pll_output (clock_get_frequency_idx sc 0)
          (pll_read_fields pllrm (pll_base pll) pll)
        = clock_get_frequency_idx sc 0 / 1000
            * ((pll_read_fields pllrm (pll_base pll) pll).fbdiv * 1000
                + (pll_read_fields pllrm (pll_base pll) pll).frac * 1000 / 2 ^ 24)
            / (pll_read_fields pllrm (pll_base pll) pll).prediv
            / (pll_read_fields pllrm (pll_base pll) pll).postdiv1 := by
      simp [spec_pll_output, hd, hs]
    rw [hv] at h
    exact h

/-- Witness for C12: PLL1 with both mode bits 1, fbdiv = 100, prediv = 2 and
frac 0 against frac 2^23 (same 1.2 GHz), and PLL1 with both mode bits 0 and
frac 2^23 (1.206 GHz). -/
theorem pll_mode_selection_witness :
    stfclock_get_frequency_jh7110_pll (board (pll_regs .pll1 1 1 100 8388608 0 2))
        JH7110_CLK_PLL1_OUT
      = stfclock_get_frequency_jh7110_pll (board (pll_regs .pll1 1 1 100 0 0 2))
        JH7110_CLK_PLL1_OUT ∧
    stfclock_get_frequency_jh7110_pll (board (pll_regs .pll1 1 1 100 0 0 2))
        JH7110_CLK_PLL1_OUT = .ok 1200000000 [] ∧
    stfclock_get_frequency_jh7110_pll (board (pll_regs .pll1 0 0 100 8388608 0 2))
        JH7110_CLK_PLL1_OUT = .ok 1206000000 [] :=
  have h := pll_mode_selection (board (pll_regs .pll1 1 1 100 0 0 2))
    (board (pll_regs .pll1 1 1 100 8388608 0 2)) JH7110_CLK_PLL1_OUT .pll1
    (pll_regs .pll1 1 1 100 0 0 2) (pll_regs .pll1 1 1 100 8388608 0 2)
    (by decide) (by decide) (by decide) rfl
  have h0 := pll_mode_selection (board (pll_regs .pll1 0 0 100 8388608 0 2))
    (board (pll_regs .pll1 0 0 100 8388608 0 2)) JH7110_CLK_PLL1_OUT .pll1
    (pll_regs .pll1 0 0 100 8388608 0 2) (pll_regs .pll1 0 0 100 8388608 0 2)
    (by decide) (by decide) (by decide) rfl
  ⟨h.1 (by decide) (by decide) rfl (by decide) (by decide) (by decide) (by decide)
      (by decide) (by decide) (by decide),
    (h.2.1 (by decide) (by decide) (by decide) (by decide)).2 (by decide),
    h0.2.2 (by decide) (by decide) (by decide) (by decide)⟩

/-- Counterexample for C13: in the sys variant GMAC1_GTXC has a gate bit of
its own (register 107 * 4), and enabling it over registers that read zero
also changes the register of GMAC1_GTXCLK at 100 * 4 from 0 to 0x80000000. -/
theorem gate_writes_upstream_register :
    JH7110_SYSCLK_GMAC1_GTXC ∈ jh7110_sys_gates ∧
    JH7110_SYSCLK_GMAC1_GTXCLK * 4 ≠ JH7110_SYSCLK_GMAC1_GTXC * 4 ∧
    HREAD4 (board zero_regs) (JH7110_SYSCLK_GMAC1_GTXCLK * 4) = 0 ∧
    (stfclock_enable_jh7110_sys 2 (Machine.start (board zero_regs))
        JH7110_SYSCLK_GMAC1_GTXC true).map
      (fun m => HREAD4 m.sc (JH7110_SYSCLK_GMAC1_GTXCLK * 4)) = some 0x80000000 := by
  decide

/-- C13 (amended): for every label of a gate `switch` (JH7100, aon, stg, sys)
and every register state, the enable operation leaves the register at byte
offset `idx * 4` with bit 31 equal to `enable` and every other bit as it was.
Every other register is unchanged, except that in the sys variant GMAC1_GTXC
and GMAC0_GTXC first gate the upstream GMAC1_GTXCLK (100 * 4) and
GMAC0_GTXCLK (108 * 4) the same way. -/
theorem gate_sets_bit_31 (m : Machine) (idx : Nat) (enable : Bool) (fuel : Nat) :
    (idx ∈ jh7100_gates →
      (∀ j, (HREAD4 (stfclock_enable_jh7100 m idx enable).sc (idx * 4)).testBit j
          = if j = 31 then enable else (HREAD4 m.sc (idx * 4)).testBit j) ∧
      (∀ r, r ≠ idx * 4 →
        (stfclock_enable_jh7100 m idx enable).sc.regs r = m.sc.regs r)) ∧
    (idx ∈ jh7110_aon_gates →
      (∀ j, (HREAD4 (stfclock_enable_jh7110_aon m idx enable).sc (idx * 4)).testBit j
          = if j = 31 then enable else (HREAD4 m.sc (idx * 4)).testBit j) ∧
      (∀ r, r ≠ idx * 4 →
        (stfclock_enable_jh7110_aon m idx enable).sc.regs r = m.sc.regs r)) ∧
    (idx ∈ jh7110_stg_gates →
      (∀ j, (HREAD4 (stfclock_enable_jh7110_stg m idx enable).sc (idx * 4)).testBit j
          = if j = 31 then enable else (HREAD4 m.sc (idx * 4)).testBit j) ∧
      (∀ r, r ≠ idx * 4 →
        (stfclock_enable_jh7110_stg m idx enable).sc.regs r = m.sc.regs r)) ∧
    (idx ∈ jh7110_sys_gates → idx ≠ JH7110_SYSCLK_GMAC1_GTXC →
      idx ≠ JH7110_SYSCLK_GMAC0_GTXC →
      ∃ m2, stfclock_enable_jh7110_sys (fuel + 1) m idx enable = some m2 ∧
        (∀ j, (HREAD4 m2.sc (idx * 4)).testBit j
          = if j = 31 then enable else (HREAD4 m.sc (idx * 4)).testBit j) ∧
        (∀ r, r ≠ idx * 4 → m2.sc.regs r = m.sc.regs r)) ∧
    (∃ m2, stfclock_enable_jh7110_sys (fuel + 2) m JH7110_SYSCLK_GMAC1_GTXC enable
        = some m2 ∧
      (∀ j, (HREAD4 m2.sc (JH7110_SYSCLK_GMAC1_GTXC * 4)).testBit j
        = if j = 31 then enable
          else (HREAD4 m.sc (JH7110_SYSCLK_GMAC1_GTXC * 4)).testBit j) ∧
      (∀ j, (HREAD4 m2.sc (JH7110_SYSCLK_GMAC1_GTXCLK * 4)).testBit j
        = if j = 31 then enable
          else (HREAD4 m.sc (JH7110_SYSCLK_GMAC1_GTXCLK * 4)).testBit j) ∧
      (∀ r, r ≠ JH7110_SYSCLK_GMAC1_GTXC * 4 → r ≠ JH7110_SYSCLK_GMAC1_GTXCLK * 4 →
        m2.sc.regs r = m.sc.regs r)) ∧
    (∃ m2, stfclock_enable_jh7110_sys (fuel + 2) m JH7110_SYSCLK_GMAC0_GTXC enable
        = some m2 ∧
      (∀ j, (HREAD4 m2.sc (JH7110_SYSCLK_GMAC0_GTXC * 4)).testBit j
        = if j = 31 then enable
          else (HREAD4 m.sc (JH7110_SYSCLK_GMAC0_GTXC * 4)).testBit j) ∧
      (∀ j, (HREAD4 m2.sc (JH7110_SYSCLK_GMAC0_GTXCLK * 4)).testBit j
        = if j = 31 then enable
          else (HREAD4 m.sc (JH7110_SYSCLK_GMAC0_GTXCLK * 4)).testBit j) ∧
      (∀ r, r ≠ JH7110_SYSCLK_GMAC0_GTXC * 4 → r ≠ JH7110_SYSCLK_GMAC0_GTXCLK * 4 →
        m2.sc.regs r = m.sc.regs r)) := by
  obtain ⟨o1, o2, o3, o4⟩ := gates_offset
  refine ⟨?_, ?_, ?_, ?_, ?_, ?_⟩
  · intro h
    rw [jh7100_enable_gate m enable h]
    exact set_gate_effect m idx enable (o1 idx h)
  · intro h
    rw [jh7110_aon_enable_gate m enable h]
    exact set_gate_effect m idx enable (o2 idx h)
  · intro h
    rw [jh7110_stg_enable_gate m enable h]
    exact set_gate_effect m idx enable (o3 idx h)
  · intro h h1 h0
    exact ⟨_, jh7110_sys_enable_gate m enable fuel h h1 h0,
      set_gate_effect m idx enable (o4 idx h)⟩
  · exact ⟨_, (jh7110_sys_enable_gtxc m enable fuel).1,
      set_gate_twice_effect m _ _ enable rfl rfl (by decide)⟩
  · exact ⟨_, (jh7110_sys_enable_gtxc m enable fuel).2,
      set_gate_twice_effect m _ _ enable rfl rfl (by decide)⟩

/-- Witness for C13: UART0_CORE (JH7100) and GMAC0_AHB (aon) switched on,
PCIE0_APB (stg), TEMP_CORE and GMAC1_GTXC (sys) switched off, over registers
that read 0x81000002. -/
theorem gate_sets_bit_31_witness :
    ((HREAD4 (stfclock_enable_jh7100 (Machine.start (board (uniform_regs 0x81000002)))
        JH7100_CLK_UART0_CORE true).sc (JH7100_CLK_UART0_CORE * 4)).testBit 31 = true ∧
      (stfclock_enable_jh7100 (Machine.start (board (uniform_regs 0x81000002)))
        JH7100_CLK_UART0_CORE true).sc.regs 0 = 0x81000002) ∧
    (HREAD4 (stfclock_enable_jh7110_aon (Machine.start (board (uniform_regs 0x81000002)))
        JH7110_AONCLK_GMAC0_AHB true).sc (JH7110_AONCLK_GMAC0_AHB * 4)).testBit 1
      = true ∧
    (HREAD4 (stfclock_enable_jh7110_stg (Machine.start (board (uniform_regs 0x81000002)))
        JH7110_STGCLK_PCIE0_APB false).sc (JH7110_STGCLK_PCIE0_APB * 4)).testBit 31
      = false ∧
    (∃ m2, stfclock_enable_jh7110_sys 1 (Machine.start (board (uniform_regs 0x81000002)))
        JH7110_SYSCLK_TEMP_CORE false = some m2 ∧
      (HREAD4 m2.sc (JH7110_SYSCLK_TEMP_CORE * 4)).testBit 31 = false ∧
      m2.sc.regs 0 = 0x81000002) ∧
    (∃ m2, stfclock_enable_jh7110_sys 2 (Machine.start (board (uniform_regs 0x81000002)))
        JH7110_SYSCLK_GMAC1_GTXC false = some m2 ∧
      (HREAD4 m2.sc (JH7110_SYSCLK_GMAC1_GTXC * 4)).testBit 31 = false ∧
      (HREAD4 m2.sc (JH7110_SYSCLK_GMAC1_GTXCLK * 4)).testBit 31 = false ∧
      m2.sc.regs 0 = 0x81000002) := by
  refine ⟨⟨?_, ?_⟩, ?_, ?_, ?_, ?_⟩
  · exact ((gate_sets_bit_31 (Machine.start (board (uniform_regs 0x81000002)))
      JH7100_CLK_UART0_CORE true 0).1 (by decide)).1 31
  · exact ((gate_sets_bit_31 (Machine.start (board (uniform_regs 0x81000002)))
      JH7100_CLK_UART0_CORE true 0).1 (by decide)).2 0 (by decide)
  · exact ((gate_sets_bit_31 (Machine.start (board (uniform_regs 0x81000002)))
      JH7110_AONCLK_GMAC0_AHB true 0).2.1 (by decide)).1 1
  · exact ((gate_sets_bit_31 (Machine.start (board (uniform_regs 0x81000002)))
      JH7110_STGCLK_PCIE0_APB false 0).2.2.1 (by decide)).1 31
  · obtain ⟨m2, h1, h2, h3⟩ :=
      (gate_sets_bit_31 (Machine.start (board (uniform_regs 0x81000002)))
        JH7110_SYSCLK_TEMP_CORE false 0).2.2.2.1 (by decide) (by decide) (by decide)
    exact ⟨m2, h1, h2 31, h3 0 (by decide)⟩
  · obtain ⟨m2, h1, h2, h3, h4⟩ :=
      (gate_sets_bit_31 (Machine.start (board (uniform_regs 0x81000002)))
        0 false 0).2.2.2.2.1
    exact ⟨m2, h1, h2 31, h3 31, h4 0 (by decide) (by decide)⟩

/-- Counterexample for C14: UART0_CORE of the JH7100 with its gate already
on (register 0x80000001). After enabling and then disabling, the register
reads 0x00000001. -/
theorem gate_round_trip_clears_gate :
    JH7100_CLK_UART0_CORE ∈ jh7100_gates ∧
    HREAD4 (board (uniform_regs 0x80000001)) (JH7100_CLK_UART0_CORE * 4) = 0x80000001 ∧
    HREAD4 (stfclock_enable_jh7100
        (stfclock_enable_jh7100 (Machine.start (board (uniform_regs 0x80000001)))
          JH7100_CLK_UART0_CORE true)
        JH7100_CLK_UART0_CORE false).sc (JH7100_CLK_UART0_CORE * 4) = 0x00000001 := by
  decide

/-- C14 (amended): for every label of a gate `switch` and every initial
register state, enabling and then disabling leaves the node's control
register with bit 31 clear and every other bit as it was; the register is
therefore equal to its original value whenever the gate bit was clear before
the two calls. -/
theorem gate_round_trip (m : Machine) (idx fuel : Nat) :
    (idx ∈ jh7100_gates →
      (∀ j, (HREAD4 (stfclock_enable_jh7100 (stfclock_enable_jh7100 m idx true)
            idx false).sc (idx * 4)).testBit j
          = if j = 31 then false else (HREAD4 m.sc (idx * 4)).testBit j) ∧
      ((HREAD4 m.sc (idx * 4)).testBit 31 = false →
        HREAD4 (stfclock_enable_jh7100 (stfclock_enable_jh7100 m idx true)
            idx false).sc (idx * 4) = HREAD4 m.sc (idx * 4))) ∧
    (idx ∈ jh7110_aon_gates →
      (∀ j, (HREAD4 (stfclock_enable_jh7110_aon (stfclock_enable_jh7110_aon m idx true)
            idx false).sc (idx * 4)).testBit j
          = if j = 31 then false else (HREAD4 m.sc (idx * 4)).testBit j) ∧
      ((HREAD4 m.sc (idx * 4)).testBit 31 = false →
        HREAD4 (stfclock_enable_jh7110_aon (stfclock_enable_jh7110_aon m idx true)
            idx false).sc (idx * 4) = HREAD4 m.sc (idx * 4))) ∧
    (idx ∈ jh7110_stg_gates →
      (∀ j, (HREAD4 (stfclock_enable_jh7110_stg (stfclock_enable_jh7110_stg m idx true)
            idx false).sc (idx * 4)).testBit j
          = if j = 31 then false else (HREAD4 m.sc (idx * 4)).testBit j) ∧
      ((HREAD4 m.sc (idx * 4)).testBit 31 = false →
        HREAD4 (stfclock_enable_jh7110_stg (stfclock_enable_jh7110_stg m idx true)
            idx false).sc (idx * 4) = HREAD4 m.sc (idx * 4))) ∧
    (idx ∈ jh7110_sys_gates →
      ∃ m1 m2, stfclock_enable_jh7110_sys (fuel + 2) m idx true = some m1 ∧
        stfclock_enable_jh7110_sys (fuel + 2) m1 idx false = some m2 ∧
        (∀ j, (HREAD4 m2.sc (idx * 4)).testBit j
          = if j = 31 then false else (HREAD4 m.sc (idx * 4)).testBit j) ∧
        ((HREAD4 m.sc (idx * 4)).testBit 31 = false →
          HREAD4 m2.sc (idx * 4) = HREAD4 m.sc (idx * 4))) := by
  obtain ⟨o1, o2, o3, o4⟩ := gates_offset
  refine ⟨?_, ?_, ?_, ?_⟩
  · intro h
    rw [jh7100_enable_gate _ false h, jh7100_enable_gate m true h]
    exact set_gate_round_trip m m _ idx (o1 idx h) rfl rfl
  · intro h
    rw [jh7110_aon_enable_gate _ false h, jh7110_aon_enable_gate m true h]
    exact set_gate_round_trip m m _ idx (o2 idx h) rfl rfl
  · intro h
    rw [jh7110_stg_enable_gate _ false h, jh7110_stg_enable_gate m true h]
    exact set_gate_round_trip m m _ idx (o3 idx h) rfl rfl
  · intro h
    obtain ⟨m0, e1, r0⟩ := jh7110_sys_enable_own m true fuel h
    obtain ⟨m1, e2, r1⟩ := jh7110_sys_enable_own (set_gate m0 idx true) false fuel h
    exact ⟨_, _, e1, e2, set_gate_round_trip m m0 m1 idx (o4 idx h) r0 r1⟩

/-- Witness for C14: GMAC_GTX (JH7100) and GMAC1_GTXC (sys) over registers
that read 0x01000002, gate bit clear. -/
theorem gate_round_trip_witness :
    HREAD4 (stfclock_enable_jh7100 (stfclock_enable_jh7100
        (Machine.start (board (uniform_regs 0x01000002))) JH7100_CLK_GMAC_GTX true)
        JH7100_CLK_GMAC_GTX false).sc (JH7100_CLK_GMAC_GTX * 4)
      = HREAD4 (board (uniform_regs 0x01000002)) (JH7100_CLK_GMAC_GTX * 4) ∧
    (∃ m1 m2, stfclock_enable_jh7110_sys 2 (Machine.start (board (uniform_regs 0x01000002)))
        JH7110_SYSCLK_GMAC1_GTXC true = some m1 ∧
      stfclock_enable_jh7110_sys 2 m1 JH7110_SYSCLK_GMAC1_GTXC false = some m2 ∧
      HREAD4 m2.sc (JH7110_SYSCLK_GMAC1_GTXC * 4)
        = HREAD4 (board (uniform_regs 0x01000002)) (JH7110_SYSCLK_GMAC1_GTXC * 4)) := by
  constructor
  · exact ((gate_round_trip (Machine.start (board (uniform_regs 0x01000002)))
      JH7100_CLK_GMAC_GTX 0).1 (by decide)).2 (by decide)
  · obtain ⟨m1, m2, h1, h2, -, h4⟩ :=
      (gate_round_trip (Machine.start (board (uniform_regs 0x01000002)))
        JH7110_SYSCLK_GMAC1_GTXC 0).2.2.2 (by decide)
    exact ⟨m1, m2, h1, h2, h4 (by decide)⟩

/-- C15: for the gate-less JH7100 clock GMAC_ROOT_DIV the enable operation,
with either value of `enable`, changes nothing: no register write is made
(the register state is the same) and no line is printed. -/
theorem gateless_node_untouched (m : Machine) (sc : Softc) (enable : Bool) :
    (stfclock_enable_jh7100 m JH7100_CLK_GMAC_ROOT_DIV enable).sc = m.sc ∧
    (stfclock_enable_jh7100 m JH7100_CLK_GMAC_ROOT_DIV enable).writes = m.writes ∧
    (stfclock_enable_jh7100 m JH7100_CLK_GMAC_ROOT_DIV enable).log = m.log ∧
    (stfclock_enable_jh7100 (Machine.start sc) JH7100_CLK_GMAC_ROOT_DIV enable).writes
      = [] ∧
    (stfclock_enable_jh7100 (Machine.start sc) JH7100_CLK_GMAC_ROOT_DIV enable).log
      = [] :=
  ⟨rfl, rfl, rfl, rfl, rfl⟩

/-- C16: the enable operation on an identifier that is neither a gate label,
nor gate-less, nor a composite of its variant writes no register and leaves
the register state as it was; it prints the unknown-clock line (the
not-handled line in the pll variant, for every identifier). -/
theorem unknown_identifier_not_gated (m : Machine) (idx : Nat) (enable : Bool)
    (fuel : Nat) :
    (idx ∉ jh7100_gates → idx ≠ JH7100_CLK_GMAC_ROOT_DIV →
      (stfclock_enable_jh7100 m idx enable).sc = m.sc ∧
      (stfclock_enable_jh7100 m idx enable).writes = m.writes ∧
      (stfclock_enable_jh7100 m idx enable).log
        = m.log ++ [.unknown_clock "stfclock_enable_jh7100" idx]) ∧
    (idx ∉ jh7110_aon_gates → idx ≠ JH7110_AONCLK_GMAC0_TX_INV →
      (stfclock_enable_jh7110_aon m idx enable).sc = m.sc ∧
      (stfclock_enable_jh7110_aon m idx enable).writes = m.writes ∧
      (stfclock_enable_jh7110_aon m idx enable).log
        = m.log ++ [.unknown_clock "stfclock_enable_jh7110_aon" idx]) ∧
    (idx ∉ jh7110_stg_gates →
      (stfclock_enable_jh7110_stg m idx enable).sc = m.sc ∧
      (stfclock_enable_jh7110_stg m idx enable).writes = m.writes ∧
      (stfclock_enable_jh7110_stg m idx enable).log
        = m.log ++ [.unknown_clock "stfclock_enable_jh7110_stg" idx]) ∧
    (idx ∉ jh7110_sys_gates → idx ≠ JH7110_SYSCLK_GMAC1_TX_INV →
      ∃ m2, stfclock_enable_jh7110_sys (fuel + 1) m idx enable = some m2 ∧
        m2.sc = m.sc ∧ m2.writes = m.writes ∧
        m2.log = m.log ++ [.unknown_clock "stfclock_enable_jh7110_sys" idx]) ∧
    ((stfclock_enable_jh7110_pll m idx enable).sc = m.sc ∧
      (stfclock_enable_jh7110_pll m idx enable).writes = m.writes ∧
      (stfclock_enable_jh7110_pll m idx enable).log
        = m.log ++ [.not_handled "stfclock_enable_jh7110_pll" idx none]) := by
  refine ⟨?_, ?_, ?_, ?_, ⟨rfl, rfl, rfl⟩⟩
  · intro h hg
    simp only [stfclock_enable_jh7100, if_neg h, if_neg hg]
    exact ⟨rfl, rfl, rfl⟩
  · intro h hc
    simp only [stfclock_enable_jh7110_aon, if_neg hc, if_neg h]
    exact ⟨rfl, rfl, rfl⟩
  · intro h
    simp only [stfclock_enable_jh7110_stg, if_neg h]
    exact ⟨rfl, rfl, rfl⟩
  · intro h hc
    have h1 : idx ≠ JH7110_SYSCLK_GMAC1_GTXC := fun e => h (e ▸ by decide)
    have h0 : idx ≠ JH7110_SYSCLK_GMAC0_GTXC := fun e => h (e ▸ by decide)
    refine ⟨printf m (.unknown_clock "stfclock_enable_jh7110_sys" idx), ?_, rfl, rfl, rfl⟩
    simp only [stfclock_enable_jh7110_sys, if_neg hc, if_neg h1, if_neg h0, if_neg h]

/-- Witness for C16: identifier 1000 in the JH7100, aon, stg and sys
variants, after a write that is already on record. -/
theorem unknown_identifier_not_gated_witness :
    (stfclock_enable_jh7100 (Machine.start (board zero_regs)) 1000 true).writes = [] ∧
    (stfclock_enable_jh7110_aon (Machine.start (board zero_regs)) 1000 false).writes
      = [] ∧
    (stfclock_enable_jh7110_stg (Machine.start (board zero_regs)) 1000 true).writes
      = [] ∧
    (∃ m2, stfclock_enable_jh7110_sys 1 (Machine.start (board zero_regs)) 1000 true
        = some m2 ∧ m2.writes = []
      ∧ m2.log = [.unknown_clock "stfclock_enable_jh7110_sys" 1000]) := by
  refine ⟨?_, ?_, ?_, ?_⟩
  · exact ((unknown_identifier_not_gated (Machine.start (board zero_regs)) 1000 true 0).1
      (by decide) (by decide)).2.1
  · exact ((unknown_identifier_not_gated (Machine.start (board zero_regs)) 1000 false
      0).2.1 (by decide) (by decide)).2.1
  · exact ((unknown_identifier_not_gated (Machine.start (board zero_regs)) 1000 true
      0).2.2.1 (by decide)).2.1
  · obtain ⟨m2, h1, -, h3, h4⟩ :=
      (unknown_identifier_not_gated (Machine.start (board zero_regs)) 1000 true
        0).2.2.2.1 (by decide) (by decide)
    exact ⟨m2, h1, h3, h4⟩

/-- C17: in the aon variant enabling or disabling GMAC0_TX_INV gives the
same outcome as doing so for GMAC0_TX, and in the sys variant GMAC1_TX_INV
the same as GMAC1_TX; the only write goes to the register of the real clock,
and the register at `idx * 4` of the composite keeps its value. -/
theorem composite_gates_real_clock (m : Machine) (enable : Bool) (fuel : Nat) :
    (stfclock_enable_jh7110_aon m JH7110_AONCLK_GMAC0_TX_INV enable
        = stfclock_enable_jh7110_aon m JH7110_AONCLK_GMAC0_TX enable ∧
      (stfclock_enable_jh7110_aon m JH7110_AONCLK_GMAC0_TX_INV enable).writes
        = m.writes ++ [(JH7110_AONCLK_GMAC0_TX * 4,
            HREAD4 (stfclock_enable_jh7110_aon m JH7110_AONCLK_GMAC0_TX_INV enable).sc
              (JH7110_AONCLK_GMAC0_TX * 4))] ∧
      (stfclock_enable_jh7110_aon m JH7110_AONCLK_GMAC0_TX_INV enable).sc.regs
          (JH7110_AONCLK_GMAC0_TX_INV * 4)
        = m.sc.regs (JH7110_AONCLK_GMAC0_TX_INV * 4)) ∧
    (stfclock_enable_jh7110_sys (fuel + 1) m JH7110_SYSCLK_GMAC1_TX_INV enable
        = stfclock_enable_jh7110_sys (fuel + 1) m JH7110_SYSCLK_GMAC1_TX enable ∧
      ∃ m2, stfclock_enable_jh7110_sys (fuel + 1) m JH7110_SYSCLK_GMAC1_TX_INV enable
          = some m2 ∧
        m2.writes = m.writes ++ [(JH7110_SYSCLK_GMAC1_TX * 4,
            HREAD4 m2.sc (JH7110_SYSCLK_GMAC1_TX * 4))] ∧
        m2.sc.regs (JH7110_SYSCLK_GMAC1_TX_INV * 4)
          = m.sc.regs (JH7110_SYSCLK_GMAC1_TX_INV * 4)) := by
  have ha : stfclock_enable_jh7110_aon m JH7110_AONCLK_GMAC0_TX_INV enable
      = set_gate m JH7110_AONCLK_GMAC0_TX enable := rfl
  have hs : stfclock_enable_jh7110_sys (fuel + 1) m JH7110_SYSCLK_GMAC1_TX_INV enable
      = some (set_gate m JH7110_SYSCLK_GMAC1_TX enable) := rfl
  constructor
  · refine ⟨rfl, ?_, ?_⟩
    · rw [ha]
      exact set_gate_writes m JH7110_AONCLK_GMAC0_TX enable
    · rw [ha]
      exact set_gate_other m JH7110_AONCLK_GMAC0_TX enable _ (by decide)
  · refine ⟨rfl, set_gate m JH7110_SYSCLK_GMAC1_TX enable, hs, ?_, ?_⟩
    · exact set_gate_writes m JH7110_SYSCLK_GMAC1_TX enable
    · exact set_gate_other m JH7110_SYSCLK_GMAC1_TX enable _ (by decide)

/-- Failing input for C18: over registers that read zero, enabling
SDIO0_CCLKINT_INV sets bit 31 of the register at 116 * 4 and leaves the one
at 115 * 4 at zero; enabling SDIO0_CCLKINT does the opposite. The two
register states differ. -/
theorem jh7100_inverted_clock_differs :
    HREAD4 (stfclock_enable_jh7100 (Machine.start (board zero_regs))
        JH7100_CLK_SDIO0_CCLKINT_INV true).sc (JH7100_CLK_SDIO0_CCLKINT_INV * 4)
      = 0x80000000 ∧
    HREAD4 (stfclock_enable_jh7100 (Machine.start (board zero_regs))
        JH7100_CLK_SDIO0_CCLKINT true).sc (JH7100_CLK_SDIO0_CCLKINT_INV * 4) = 0 ∧
    HREAD4 (stfclock_enable_jh7100 (Machine.start (board zero_regs))
        JH7100_CLK_SDIO0_CCLKINT_INV true).sc (JH7100_CLK_SDIO0_CCLKINT * 4) = 0 ∧
    HREAD4 (stfclock_enable_jh7100 (Machine.start (board zero_regs))
        JH7100_CLK_SDIO0_CCLKINT true).sc (JH7100_CLK_SDIO0_CCLKINT * 4)
      = 0x80000000 ∧
    (stfclock_enable_jh7100 (Machine.start (board zero_regs))
        JH7100_CLK_SDIO0_CCLKINT_INV true).sc.regs
      ≠ (stfclock_enable_jh7100 (Machine.start (board zero_regs))
        JH7100_CLK_SDIO0_CCLKINT true).sc.regs := by
  refine ⟨by decide, by decide, by decide, by decide, fun h => ?_⟩
  have h2 := congrFun h (JH7100_CLK_SDIO0_CCLKINT * 4)
  revert h2
  decide

/-- C18 (defect of `stfclock_enable_jh7100`): the function has no rewriting
of an inverted clock to its twin, which the aon and sys enable functions do
in their first `switch`. For every register state the enable operation on
SDIO0_CCLKINT_INV (SDIO1_CCLKINT_INV) writes bit 31 of the register at
116 * 4 (119 * 4) and leaves every other register, the one of the twin at
115 * 4 (118 * 4) included, as it was; whenever bit 31 of the twin's register
is not already `enable`, the twin's register therefore differs from what the
enable operation on the twin leaves there, so the two operations do not
produce the same register state. -/
theorem jh7100_inverted_clock_gates_itself (m : Machine) (enable : Bool) :
    ((∀ j, (HREAD4 (stfclock_enable_jh7100 m JH7100_CLK_SDIO0_CCLKINT_INV enable).sc
            (JH7100_CLK_SDIO0_CCLKINT_INV * 4)).testBit j
          = if j = 31 then enable
            else (HREAD4 m.sc (JH7100_CLK_SDIO0_CCLKINT_INV * 4)).testBit j) ∧
      (∀ r, r ≠ JH7100_CLK_SDIO0_CCLKINT_INV * 4 →
        (stfclock_enable_jh7100 m JH7100_CLK_SDIO0_CCLKINT_INV enable).sc.regs r
          = m.sc.regs r) ∧
      (stfclock_enable_jh7100 m JH7100_CLK_SDIO0_CCLKINT_INV enable).sc.regs
          (JH7100_CLK_SDIO0_CCLKINT * 4)
        = m.sc.regs (JH7100_CLK_SDIO0_CCLKINT * 4) ∧
      ((HREAD4 m.sc (JH7100_CLK_SDIO0_CCLKINT * 4)).testBit 31 ≠ enable →
        HREAD4 (stfclock_enable_jh7100 m JH7100_CLK_SDIO0_CCLKINT_INV enable).sc
            (JH7100_CLK_SDIO0_CCLKINT * 4)
          ≠ HREAD4 (stfclock_enable_jh7100 m JH7100_CLK_SDIO0_CCLKINT enable).sc
            (JH7100_CLK_SDIO0_CCLKINT * 4))) ∧
    ((∀ j, (HREAD4 (stfclock_enable_jh7100 m JH7100_CLK_SDIO1_CCLKINT_INV enable).sc
            (JH7100_CLK_SDIO1_CCLKINT_INV * 4)).testBit j
          = if j = 31 then enable
            else (HREAD4 m.sc (JH7100_CLK_SDIO1_CCLKINT_INV * 4)).testBit j) ∧
      (∀ r, r ≠ JH7100_CLK_SDIO1_CCLKINT_INV * 4 →
        (stfclock_enable_jh7100 m JH7100_CLK_SDIO1_CCLKINT_INV enable).sc.regs r
          = m.sc.regs r) ∧
      (stfclock_enable_jh7100 m JH7100_CLK_SDIO1_CCLKINT_INV enable).sc.regs
          (JH7100_CLK_SDIO1_CCLKINT * 4)
        = m.sc.regs (JH7100_CLK_SDIO1_CCLKINT * 4) ∧
      ((HREAD4 m.sc (JH7100_CLK_SDIO1_CCLKINT * 4)).testBit 31 ≠ enable →
        HREAD4 (stfclock_enable_jh7100 m JH7100_CLK_SDIO1_CCLKINT_INV enable).sc
            (JH7100_CLK_SDIO1_CCLKINT * 4)
          ≠ HREAD4 (stfclock_enable_jh7100 m JH7100_CLK_SDIO1_CCLKINT enable).sc
            (JH7100_CLK_SDIO1_CCLKINT * 4))) := by
  have h0 : JH7100_CLK_SDIO0_CCLKINT_INV ∈ jh7100_gates := by decide
  have h1 : JH7100_CLK_SDIO1_CCLKINT_INV ∈ jh7100_gates := by decide
  have t0 : JH7100_CLK_SDIO0_CCLKINT ∈ jh7100_gates := by decide
  have t1 : JH7100_CLK_SDIO1_CCLKINT ∈ jh7100_gates := by decide
  rw [jh7100_enable_gate m enable h0, jh7100_enable_gate m enable h1,
    jh7100_enable_gate m enable t0, jh7100_enable_gate m enable t1]
  obtain ⟨a1, a2⟩ := set_gate_effect m JH7100_CLK_SDIO0_CCLKINT_INV enable rfl
  obtain ⟨b1, b2⟩ := set_gate_effect m JH7100_CLK_SDIO1_CCLKINT_INV enable rfl
  obtain ⟨c1, -⟩ := set_gate_effect m JH7100_CLK_SDIO0_CCLKINT enable rfl
  obtain ⟨d1, -⟩ := set_gate_effect m JH7100_CLK_SDIO1_CCLKINT enable rfl
  refine ⟨⟨a1, a2, a2 _ (by decide), fun hbit heq => hbit ?_⟩,
    ⟨b1, b2, b2 _ (by decide), fun hbit heq => hbit ?_⟩⟩
  · rw [HREAD4_congr (a2 _ (by decide))] at heq
    have h31 := c1 31
    rw [← heq, if_pos rfl] at h31
    exact h31
  · rw [HREAD4_congr (b2 _ (by decide))] at heq
    have h31 := d1 31
    rw [← heq, if_pos rfl] at h31
    exact h31

/-- Witness for C18: over registers that read zero, SDIO1_CCLKINT_INV
switched on sets bit 31 of its own register and leaves the twin's register
at zero, which is not what switching SDIO1_CCLKINT or SDIO0_CCLKINT on
leaves in the twin's register. -/
theorem jh7100_inverted_clock_gates_itself_witness :
    (HREAD4 (stfclock_enable_jh7100 (Machine.start (board zero_regs))
        JH7100_CLK_SDIO1_CCLKINT_INV true).sc
        (JH7100_CLK_SDIO1_CCLKINT_INV * 4)).testBit 31 = true ∧
    (stfclock_enable_jh7100 (Machine.start (board zero_regs))
        JH7100_CLK_SDIO1_CCLKINT_INV true).sc.regs (JH7100_CLK_SDIO1_CCLKINT * 4) = 0 ∧
    (stfclock_enable_jh7100 (Machine.start (board zero_regs))
        JH7100_CLK_SDIO0_CCLKINT_INV false).sc.regs 0 = 0 ∧
    HREAD4 (stfclock_enable_jh7100 (Machine.start (board zero_regs))
        JH7100_CLK_SDIO0_CCLKINT_INV true).sc (JH7100_CLK_SDIO0_CCLKINT * 4)
      ≠ HREAD4 (stfclock_enable_jh7100 (Machine.start (board zero_regs))
        JH7100_CLK_SDIO0_CCLKINT true).sc (JH7100_CLK_SDIO0_CCLKINT * 4) ∧
    HREAD4 (stfclock_enable_jh7100 (Machine.start (board zero_regs))
        JH7100_CLK_SDIO1_CCLKINT_INV true).sc (JH7100_CLK_SDIO1_CCLKINT * 4)
      ≠ HREAD4 (stfclock_enable_jh7100 (Machine.start (board zero_regs))
        JH7100_CLK_SDIO1_CCLKINT true).sc (JH7100_CLK_SDIO1_CCLKINT * 4) :=
  ⟨(jh7100_inverted_clock_gates_itself (Machine.start (board zero_regs)) true).2.1 31,
    (jh7100_inverted_clock_gates_itself (Machine.start (board zero_regs)) true).2.2.2.1,
    (jh7100_inverted_clock_gates_itself (Machine.start (board zero_regs)) false).1.2.1 0
      (by decide),
    (jh7100_inverted_clock_gates_itself (Machine.start (board zero_regs)) true).1.2.2.2
      (by decide),
    (jh7100_inverted_clock_gates_itself (Machine.start (board zero_regs)) true).2.2.2.2
      (by decide)⟩

/-- C19: for the aon (base 0x38), stg (base 0x74) and sys (base 0x2f8)
variants, every 32-bit reset id and every register state, the reset operation
leaves the register at byte offset `base + 4 * (idx / 32)` with bit
`idx % 32` equal to `assert` and every other bit as it was, leaves every
other register unchanged, prints nothing and makes exactly that one write: no
id is rejected. -/
theorem reset_sets_bit (m : Machine) (idx : Nat) (assert : Bool) (hidx : idx < 2 ^ 32) :
    ((∀ j, (HREAD4 (stfclock_reset_jh7110_aon m idx assert).sc
            (JH7110_AONCLK_ASSERT_OFFSET + 4 * (idx / 32))).testBit j
          = if j = idx % 32 then assert
            else (HREAD4 m.sc (JH7110_AONCLK_ASSERT_OFFSET + 4 * (idx / 32))).testBit j) ∧
      (∀ r, r ≠ JH7110_AONCLK_ASSERT_OFFSET + 4 * (idx / 32) →
        (stfclock_reset_jh7110_aon m idx assert).sc.regs r = m.sc.regs r) ∧
      (stfclock_reset_jh7110_aon m idx assert).log = m.log ∧
      (stfclock_reset_jh7110_aon m idx assert).writes
        = m.writes ++ [(JH7110_AONCLK_ASSERT_OFFSET + 4 * (idx / 32),
            HREAD4 (stfclock_reset_jh7110_aon m idx assert).sc
              (JH7110_AONCLK_ASSERT_OFFSET + 4 * (idx / 32)))]) ∧
    ((∀ j, (HREAD4 (stfclock_reset_jh7110_stg m idx assert).sc
            (JH7110_STGCLK_ASSERT_OFFSET + 4 * (idx / 32))).testBit j
          = if j = idx % 32 then assert
            else (HREAD4 m.sc (JH7110_STGCLK_ASSERT_OFFSET + 4 * (idx / 32))).testBit j) ∧
      (∀ r, r ≠ JH7110_STGCLK_ASSERT_OFFSET + 4 * (idx / 32) →
        (stfclock_reset_jh7110_stg m idx assert).sc.regs r = m.sc.regs r) ∧
      (stfclock_reset_jh7110_stg m idx assert).log = m.log ∧
      (stfclock_reset_jh7110_stg m idx assert).writes
        = m.writes ++ [(JH7110_STGCLK_ASSERT_OFFSET + 4 * (idx / 32),
            HREAD4 (stfclock_reset_jh7110_stg m idx assert).sc
              (JH7110_STGCLK_ASSERT_OFFSET + 4 * (idx / 32)))]) ∧
    ((∀ j, (HREAD4 (stfclock_reset_jh7110_sys m idx assert).sc
            (JH7110_SYSCLK_ASSERT_OFFSET + 4 * (idx / 32))).testBit j
          = if j = idx % 32 then assert
            else (HREAD4 m.sc (JH7110_SYSCLK_ASSERT_OFFSET + 4 * (idx / 32))).testBit j) ∧
      (∀ r, r ≠ JH7110_SYSCLK_ASSERT_OFFSET + 4 * (idx / 32) →
        (stfclock_reset_jh7110_sys m idx assert).sc.regs r = m.sc.regs r) ∧
      (stfclock_reset_jh7110_sys m idx assert).log = m.log ∧
      (stfclock_reset_jh7110_sys m idx assert).writes
        = m.writes ++ [(JH7110_SYSCLK_ASSERT_OFFSET + 4 * (idx / 32),
            HREAD4 (stfclock_reset_jh7110_sys m idx assert).sc
              (JH7110_SYSCLK_ASSERT_OFFSET + 4 * (idx / 32)))]) := by
  have hk : idx % 32 < 32 := Nat.mod_lt _ (by decide)
  refine ⟨?_, ?_, ?_⟩
  · rw [stfclock_reset_jh7110_aon_eq m idx assert hidx]
    exact write_bit_effect m _ _ assert hk
  · rw [stfclock_reset_jh7110_stg_eq m idx assert hidx]
    exact write_bit_effect m _ _ assert hk
  · rw [stfclock_reset_jh7110_sys_eq m idx assert hidx]
    exact write_bit_effect m _ _ assert hk

/-- Witness for C19: reset 33 asserted in the aon variant (bit 1 of the
register at 0x3c), reset 70 de-asserted in the stg variant (bit 6 at 0x7c)
and reset 4294967295 asserted in the sys variant, over registers that read
0x000000f0. -/
theorem reset_sets_bit_witness :
    ((HREAD4 (stfclock_reset_jh7110_aon (Machine.start (board (uniform_regs 0xf0))) 33
        true).sc (JH7110_AONCLK_ASSERT_OFFSET + 4 * (33 / 32))).testBit (33 % 32) = true ∧
      (stfclock_reset_jh7110_aon (Machine.start (board (uniform_regs 0xf0))) 33
        true).sc.regs JH7110_AONCLK_ASSERT_OFFSET = 0xf0 ∧
      (stfclock_reset_jh7110_aon (Machine.start (board (uniform_regs 0xf0))) 33
        true).log = []) ∧
    (HREAD4 (stfclock_reset_jh7110_stg (Machine.start (board (uniform_regs 0xf0))) 70
        false).sc (JH7110_STGCLK_ASSERT_OFFSET + 4 * (70 / 32))).testBit (70 % 32)
      = false ∧
    (HREAD4 (stfclock_reset_jh7110_sys (Machine.start (board (uniform_regs 0xf0)))
        4294967295 true).sc (JH7110_SYSCLK_ASSERT_OFFSET + 4 * (4294967295 / 32))).testBit
      (4294967295 % 32) = true :=
  ⟨⟨(reset_sets_bit (Machine.start (board (uniform_regs 0xf0))) 33 true
        (by decide)).1.1 (33 % 32),
      (reset_sets_bit (Machine.start (board (uniform_regs 0xf0))) 33 true
        (by decide)).1.2.1 JH7110_AONCLK_ASSERT_OFFSET (by decide),
      (reset_sets_bit (Machine.start (board (uniform_regs 0xf0))) 33 true
        (by decide)).1.2.2.1⟩,
    (reset_sets_bit (Machine.start (board (uniform_regs 0xf0))) 70 false
      (by decide)).2.1.1 (70 % 32),
    (reset_sets_bit (Machine.start (board (uniform_regs 0xf0))) 4294967295 true
      (by decide)).2.2.1 (4294967295 % 32)⟩

/-- Counterexample for C20: reset 0 of the aon variant already asserted
(register at 0x38 reads 0x80000001). After asserting and de-asserting it,
the register reads 0x80000000. -/
theorem reset_round_trip_clears_bit :
    HREAD4 (board (uniform_regs 0x80000001)) JH7110_AONCLK_ASSERT_OFFSET = 0x80000001 ∧
    HREAD4 (stfclock_reset_jh7110_aon
        (stfclock_reset_jh7110_aon (Machine.start (board (uniform_regs 0x80000001))) 0 true)
        0 false).sc JH7110_AONCLK_ASSERT_OFFSET = 0x80000000 := by
  decide

/-- C20 (amended): for the aon, stg and sys variants, every 32-bit reset id
and every initial register state, asserting and then de-asserting the reset
leaves its assert register with bit `idx % 32` clear and every other bit as
it was; the register is therefore as before the two calls whenever that bit
was clear before them. -/
theorem reset_round_trip (m : Machine) (idx : Nat) (hidx : idx < 2 ^ 32) :
    ((∀ j, (HREAD4 (stfclock_reset_jh7110_aon (stfclock_reset_jh7110_aon m idx true) idx false).sc
            (JH7110_AONCLK_ASSERT_OFFSET + 4 * (idx / 32))).testBit j
          = if j = idx % 32 then false
            else (HREAD4 m.sc (JH7110_AONCLK_ASSERT_OFFSET + 4 * (idx / 32))).testBit j) ∧
      ((HREAD4 m.sc (JH7110_AONCLK_ASSERT_OFFSET + 4 * (idx / 32))).testBit (idx % 32) = false →
        HREAD4 (stfclock_reset_jh7110_aon (stfclock_reset_jh7110_aon m idx true) idx false).sc
            (JH7110_AONCLK_ASSERT_OFFSET + 4 * (idx / 32))
          = HREAD4 m.sc (JH7110_AONCLK_ASSERT_OFFSET + 4 * (idx / 32)))) ∧
    ((∀ j, (HREAD4 (stfclock_reset_jh7110_stg (stfclock_reset_jh7110_stg m idx true) idx false).sc
            (JH7110_STGCLK_ASSERT_OFFSET + 4 * (idx / 32))).testBit j
          = if j = idx % 32 then false
            else (HREAD4 m.sc (JH7110_STGCLK_ASSERT_OFFSET + 4 * (idx / 32))).testBit j) ∧
      ((HREAD4 m.sc (JH7110_STGCLK_ASSERT_OFFSET + 4 * (idx / 32))).testBit (idx % 32) = false →
        HREAD4 (stfclock_reset_jh7110_stg (stfclock_reset_jh7110_stg m idx true) idx false).sc
            (JH7110_STGCLK_ASSERT_OFFSET + 4 * (idx / 32))
          = HREAD4 m.sc (JH7110_STGCLK_ASSERT_OFFSET + 4 * (idx / 32)))) ∧
    ((∀ j, (HREAD4 (stfclock_reset_jh7110_sys (stfclock_reset_jh7110_sys m idx true) idx false).sc
            (JH7110_SYSCLK_ASSERT_OFFSET + 4 * (idx / 32))).testBit j
          = if j = idx % 32 then false
            else (HREAD4 m.sc (JH7110_SYSCLK_ASSERT_OFFSET + 4 * (idx / 32))).testBit j) ∧
      ((HREAD4 m.sc (JH7110_SYSCLK_ASSERT_OFFSET + 4 * (idx / 32))).testBit (idx % 32) = false →
        HREAD4 (stfclock_reset_jh7110_sys (stfclock_reset_jh7110_sys m idx true) idx false).sc
            (JH7110_SYSCLK_ASSERT_OFFSET + 4 * (idx / 32))
          = HREAD4 m.sc (JH7110_SYSCLK_ASSERT_OFFSET + 4 * (idx / 32)))) := by
  have hk : idx % 32 < 32 := Nat.mod_lt _ (by decide)
  refine ⟨?_, ?_, ?_⟩
  · rw [stfclock_reset_jh7110_aon_eq _ idx false hidx,
      stfclock_reset_jh7110_aon_eq m idx true hidx]
    exact write_bit_round_trip m _ _ hk
  · rw [stfclock_reset_jh7110_stg_eq _ idx false hidx,
      stfclock_reset_jh7110_stg_eq m idx true hidx]
    exact write_bit_round_trip m _ _ hk
  · rw [stfclock_reset_jh7110_sys_eq _ idx false hidx,
      stfclock_reset_jh7110_sys_eq m idx true hidx]
    exact write_bit_round_trip m _ _ hk

/-- Witness for C20: resets 3 (aon), 40 (stg) and 130 (sys) over registers
that read 0x80000001, where bits 3, 8 and 2 are clear. -/
theorem reset_round_trip_witness :
    HREAD4 (stfclock_reset_jh7110_aon
        (stfclock_reset_jh7110_aon (Machine.start (board (uniform_regs 0x80000001))) 3 true)
        3 false).sc (JH7110_AONCLK_ASSERT_OFFSET + 4 * (3 / 32))
      = HREAD4 (board (uniform_regs 0x80000001)) (JH7110_AONCLK_ASSERT_OFFSET + 4 * (3 / 32)) ∧
    HREAD4 (stfclock_reset_jh7110_stg
        (stfclock_reset_jh7110_stg (Machine.start (board (uniform_regs 0x80000001))) 40 true)
        40 false).sc (JH7110_STGCLK_ASSERT_OFFSET + 4 * (40 / 32))
      = HREAD4 (board (uniform_regs 0x80000001)) (JH7110_STGCLK_ASSERT_OFFSET + 4 * (40 / 32)) ∧
    HREAD4 (stfclock_reset_jh7110_sys
        (stfclock_reset_jh7110_sys (Machine.start (board (uniform_regs 0x80000001))) 130 true)
        130 false).sc (JH7110_SYSCLK_ASSERT_OFFSET + 4 * (130 / 32))
      = HREAD4 (board (uniform_regs 0x80000001)) (JH7110_SYSCLK_ASSERT_OFFSET + 4 * (130 / 32)) :=
  ⟨(reset_round_trip (Machine.start (board (uniform_regs 0x80000001))) 3 (by decide)).1.2
      (by decide),
    (reset_round_trip (Machine.start (board (uniform_regs 0x80000001))) 40
      (by decide)).2.1.2 (by decide),
    (reset_round_trip (Machine.start (board (uniform_regs 0x80000001))) 130
      (by decide)).2.2.2 (by decide)⟩

/-- Counterexample for C21: asserting reset 32 of the aon variant on a
controller whose registers read zero makes one write, and it goes to byte
offset 0x3c, the status register. -/
theorem reset_writes_status_register :
    (stfclock_reset_jh7110_aon (Machine.start (board zero_regs)) 32 true).writes
      = [(JH7110_AONCLK_STATUS_OFFSET, 1)] := by
  decide

/-- C21 (amended): for the aon, stg and sys variants, every 32-bit reset id
and both values of `assert`, the reset operation makes exactly one write, to
the register at byte offset `base + 4 * (idx / 32)`. That offset is the
status register exactly for the ids 32..63 (aon, stg) and 128..159 (sys); for
every other id the status register is not written. -/
theorem reset_write_target (m : Machine) (idx : Nat) (assert : Bool) (hidx : idx < 2 ^ 32) :
    ((stfclock_reset_jh7110_aon m idx assert).writes
        = m.writes ++ [(JH7110_AONCLK_ASSERT_OFFSET + 4 * (idx / 32),
            HREAD4 (stfclock_reset_jh7110_aon m idx assert).sc
              (JH7110_AONCLK_ASSERT_OFFSET + 4 * (idx / 32)))] ∧
      (JH7110_AONCLK_ASSERT_OFFSET + 4 * (idx / 32) = JH7110_AONCLK_STATUS_OFFSET
        ↔ 32 ≤ idx ∧ idx < 64)) ∧
    ((stfclock_reset_jh7110_stg m idx assert).writes
        = m.writes ++ [(JH7110_STGCLK_ASSERT_OFFSET + 4 * (idx / 32),
            HREAD4 (stfclock_reset_jh7110_stg m idx assert).sc
              (JH7110_STGCLK_ASSERT_OFFSET + 4 * (idx / 32)))] ∧
      (JH7110_STGCLK_ASSERT_OFFSET + 4 * (idx / 32) = JH7110_STGCLK_STATUS_OFFSET
        ↔ 32 ≤ idx ∧ idx < 64)) ∧
    ((stfclock_reset_jh7110_sys m idx assert).writes
        = m.writes ++ [(JH7110_SYSCLK_ASSERT_OFFSET + 4 * (idx / 32),
            HREAD4 (stfclock_reset_jh7110_sys m idx assert).sc
              (JH7110_SYSCLK_ASSERT_OFFSET + 4 * (idx / 32)))] ∧
      (JH7110_SYSCLK_ASSERT_OFFSET + 4 * (idx / 32) = JH7110_SYSCLK_STATUS_OFFSET
        ↔ 128 ≤ idx ∧ idx < 160)) := by
  have hk : idx % 32 < 32 := Nat.mod_lt _ (by decide)
  have ha : JH7110_AONCLK_STATUS_OFFSET = JH7110_AONCLK_ASSERT_OFFSET + 4 * 1 := by decide
  have hs : JH7110_STGCLK_STATUS_OFFSET = JH7110_STGCLK_ASSERT_OFFSET + 4 * 1 := by decide
  have hy : JH7110_SYSCLK_STATUS_OFFSET = JH7110_SYSCLK_ASSERT_OFFSET + 4 * 4 := by decide
  refine ⟨⟨?_, ?_⟩, ⟨?_, ?_⟩, ⟨?_, ?_⟩⟩
  · rw [stfclock_reset_jh7110_aon_eq m idx assert hidx]
    exact (write_bit_effect m _ _ assert hk).2.2.2
  · rw [ha, status_offset_hit]
  · rw [stfclock_reset_jh7110_stg_eq m idx assert hidx]
    exact (write_bit_effect m _ _ assert hk).2.2.2
  · rw [hs, status_offset_hit]
  · rw [stfclock_reset_jh7110_sys_eq m idx assert hidx]
    exact (write_bit_effect m _ _ assert hk).2.2.2
  · rw [hy, status_offset_hit]

/-- Witness for C21: reset 5 asserted in the aon variant, reset 31
de-asserted in the stg variant and reset 127 asserted in the sys variant
write below the status register; reset 40 of the aon variant writes it. -/
theorem reset_write_target_witness :
    ((stfclock_reset_jh7110_aon (Machine.start (board zero_regs)) 5 true).writes
        = [] ++ [(JH7110_AONCLK_ASSERT_OFFSET + 4 * (5 / 32),
            HREAD4 (stfclock_reset_jh7110_aon (Machine.start (board zero_regs)) 5 true).sc
              (JH7110_AONCLK_ASSERT_OFFSET + 4 * (5 / 32)))] ∧
      ¬ JH7110_AONCLK_ASSERT_OFFSET + 4 * (5 / 32) = JH7110_AONCLK_STATUS_OFFSET) ∧
    ¬ JH7110_STGCLK_ASSERT_OFFSET + 4 * (31 / 32) = JH7110_STGCLK_STATUS_OFFSET ∧
    ¬ JH7110_SYSCLK_ASSERT_OFFSET + 4 * (127 / 32) = JH7110_SYSCLK_STATUS_OFFSET ∧
    JH7110_AONCLK_ASSERT_OFFSET + 4 * (40 / 32) = JH7110_AONCLK_STATUS_OFFSET :=
  ⟨⟨(reset_write_target (Machine.start (board zero_regs)) 5 true (by decide)).1.1,
      fun h => absurd
        ((reset_write_target (Machine.start (board zero_regs)) 5 true (by decide)).1.2.mp h)
        (by decide)⟩,
    fun h => absurd
      ((reset_write_target (Machine.start (board zero_regs)) 31 false (by decide)).2.1.2.mp h)
      (by decide),
    fun h => absurd
      ((reset_write_target (Machine.start (board zero_regs)) 127 true (by decide)).2.2.2.mp h)
      (by decide),
    (reset_write_target (Machine.start (board zero_regs)) 40 true (by decide)).1.2.mpr
      (by decide)⟩

/-- C22: in every variant, for every identifier and every requested
frequency, the set-frequency operation returns -1, prints the line
"not handled" with the identifier and the frequency, and leaves the
controller state untouched: no register is written. -/
theorem set_frequency_fails (m : Machine) (idx freq : Nat) :
    ((stfclock_set_frequency_jh7100 m idx freq).1 = -1 ∧
      (stfclock_set_frequency_jh7100 m idx freq).2.sc = m.sc ∧
      (stfclock_set_frequency_jh7100 m idx freq).2.writes = m.writes ∧
      (stfclock_set_frequency_jh7100 m idx freq).2.log
        = m.log ++ [.not_handled "stfclock_set_frequency_jh7100" idx (some freq)]) ∧
    ((stfclock_set_frequency_jh7110_aon m idx freq).1 = -1 ∧
      (stfclock_set_frequency_jh7110_aon m idx freq).2.sc = m.sc ∧
      (stfclock_set_frequency_jh7110_aon m idx freq).2.writes = m.writes ∧
      (stfclock_set_frequency_jh7110_aon m idx freq).2.log
        = m.log ++ [.not_handled "stfclock_set_frequency_jh7110_aon" idx (some freq)]) ∧
    ((stfclock_set_frequency_jh7110_pll m idx freq).1 = -1 ∧
      (stfclock_set_frequency_jh7110_pll m idx freq).2.sc = m.sc ∧
      (stfclock_set_frequency_jh7110_pll m idx freq).2.writes = m.writes ∧
      (stfclock_set_frequency_jh7110_pll m idx freq).2.log
        = m.log ++ [.not_handled "stfclock_set_frequency_jh7110_pll" idx (some freq)]) ∧
    ((stfclock_set_frequency_jh7110_stg m idx freq).1 = -1 ∧
      (stfclock_set_frequency_jh7110_stg m idx freq).2.sc = m.sc ∧
      (stfclock_set_frequency_jh7110_stg m idx freq).2.writes = m.writes ∧
      (stfclock_set_frequency_jh7110_stg m idx freq).2.log
        = m.log ++ [.not_handled "stfclock_set_frequency_jh7110_stg" idx (some freq)]) ∧
    ((stfclock_set_frequency_jh7110_sys m idx freq).1 = -1 ∧
      (stfclock_set_frequency_jh7110_sys m idx freq).2.sc = m.sc ∧
      (stfclock_set_frequency_jh7110_sys m idx freq).2.writes = m.writes ∧
      (stfclock_set_frequency_jh7110_sys m idx freq).2.log
        = m.log ++ [.not_handled "stfclock_set_frequency_jh7110_sys" idx (some freq)]) :=
  ⟨⟨rfl, rfl, rfl, rfl⟩, ⟨rfl, rfl, rfl, rfl⟩, ⟨rfl, rfl, rfl, rfl⟩, ⟨rfl, rfl, rfl, rfl⟩,
    ⟨rfl, rfl, rfl, rfl⟩⟩

/-- C23: for every External node the frequency query returns the value of
`clock_get_frequency` for the node's name, with nothing printed, whatever the
register file `regs` holds: JH7100 OSC_SYS and OSC_AUD, aon OSC, STG_AXIAHB and
GMAC0_RMII_REFIN, sys OSC, PLL0_OUT, PLL1_OUT and PLL2_OUT. -/
theorem external_frequency_verbatim (sc : Softc) (regs : Nat → Nat) (fuel : Nat) :
    (stfclock_get_frequency_jh7100 (fuel + 1) { sc with regs := regs } JH7100_CLK_OSC_SYS
        = .ok (clock_get_frequency sc "osc_sys") [] ∧
      stfclock_get_frequency_jh7100 (fuel + 1) { sc with regs := regs } JH7100_CLK_OSC_AUD
        = .ok (clock_get_frequency sc "osc_aud") []) ∧
    (stfclock_get_frequency_jh7110_aon (fuel + 1) { sc with regs := regs } JH7110_AONCLK_OSC
        = .ok (clock_get_frequency sc "osc") [] ∧
      stfclock_get_frequency_jh7110_aon (fuel + 1) { sc with regs := regs }
          JH7110_AONCLK_STG_AXIAHB
        = .ok (clock_get_frequency sc "stg_axiahb") [] ∧
      stfclock_get_frequency_jh7110_aon (fuel + 1) { sc with regs := regs }
          JH7110_AONCLK_GMAC0_RMII_REFIN
        = .ok (clock_get_frequency sc "gmac0_rmii_refin") []) ∧
    (stfclock_get_frequency_jh7110_sys (fuel + 1) { sc with regs := regs } JH7110_SYSCLK_OSC
        = .ok (clock_get_frequency sc "osc") [] ∧
      stfclock_get_frequency_jh7110_sys (fuel + 1) { sc with regs := regs }
          JH7110_SYSCLK_PLL0_OUT
        = .ok (clock_get_frequency sc "pll0_out") [] ∧
      stfclock_get_frequency_jh7110_sys (fuel + 1) { sc with regs := regs }
          JH7110_SYSCLK_PLL1_OUT
        = .ok (clock_get_frequency sc "pll1_out") [] ∧
      stfclock_get_frequency_jh7110_sys (fuel + 1) { sc with regs := regs }
          JH7110_SYSCLK_PLL2_OUT
        = .ok (clock_get_frequency sc "pll2_out") []) :=
  ⟨jh7100_osc { sc with regs := regs } fuel,
    jh7110_aon_external_query { sc with regs := regs } fuel,
    jh7110_sys_external_query { sc with regs := regs } fuel⟩

/-- Counterexample for C24: with "osc_sys" at 200 MHz the query for the
JH7100 clock PLL0_OUT returns 3705032704, while 40 times the oscillator
frequency is 8000000000. -/
theorem jh7100_pll0_product_wraps :
    stfclock_get_frequency_jh7100 7 (board_at 200000000 zero_regs) JH7100_CLK_PLL0_OUT
      = .ok 3705032704 [] ∧
    40 * clock_get_frequency (board_at 200000000 zero_regs) "osc_sys" = 8000000000 := by
  decide

/-- C24 (amended): for the JH7100 fixed multipliers and every upstream
oscillator frequency the query returns the parent's frequency times the
constant reduced modulo 2^32 (the product is formed in `uint32_t`): 40 and 64
times F("osc_sys") for PLL0_OUT and PLL1_OUT, 55 times the frequency of
PLL2_REF for PLL2_OUT; whenever the product is below 2^32 the query returns
the product itself. -/
theorem fixed_multiplier_frequency (sc : Softc) (fuel : Nat) :
    (stfclock_get_frequency_jh7100 (fuel + 3) sc JH7100_CLK_PLL0_OUT
        = .ok (40 * clock_get_frequency sc "osc_sys" % 2 ^ 32) [] ∧
      (40 * clock_get_frequency sc "osc_sys" < 2 ^ 32 →
        stfclock_get_frequency_jh7100 (fuel + 3) sc JH7100_CLK_PLL0_OUT
          = .ok (40 * clock_get_frequency sc "osc_sys") [])) ∧
    (stfclock_get_frequency_jh7100 (fuel + 3) sc JH7100_CLK_PLL1_OUT
        = .ok (64 * clock_get_frequency sc "osc_sys" % 2 ^ 32) [] ∧
      (64 * clock_get_frequency sc "osc_sys" < 2 ^ 32 →
        stfclock_get_frequency_jh7100 (fuel + 3) sc JH7100_CLK_PLL1_OUT
          = .ok (64 * clock_get_frequency sc "osc_sys") [])) ∧
    ((∃ ref, stfclock_get_frequency_jh7100 (fuel + 3) sc JH7100_CLK_PLL2_REF = .ok ref []) ∧
      ∀ ref, stfclock_get_frequency_jh7100 (fuel + 3) sc JH7100_CLK_PLL2_REF = .ok ref [] →
        stfclock_get_frequency_jh7100 (fuel + 3) sc JH7100_CLK_PLL2_OUT
          = .ok (55 * ref % 2 ^ 32) [] ∧
        (55 * ref < 2 ^ 32 →
          stfclock_get_frequency_jh7100 (fuel + 3) sc JH7100_CLK_PLL2_OUT
            = .ok (55 * ref) [])) := by
  have h0 := (jh7100_pll01 sc (fuel + 1)).1
  have h1 := (jh7100_pll01 sc (fuel + 1)).2
  have hr := jh7100_pll2_ref sc (fuel + 1)
  have h2 := jh7100_pll2_out sc fuel
  refine ⟨⟨h0, fun hlt => ?_⟩, ⟨h1, fun hlt => ?_⟩, ⟨_, hr⟩, fun ref href => ?_⟩
  · rw [h0]
    exact congrArg (fun v => Result.ok v []) (Nat.mod_eq_of_lt hlt)
  · rw [h1]
    exact congrArg (fun v => Result.ok v []) (Nat.mod_eq_of_lt hlt)
  · have e : clock_get_frequency sc
        (if HREAD4 sc (JH7100_CLK_PLL2_REF * 4) / 2 ^ 24 % 4 ≠ 0 then "osc_aud"
          else "osc_sys") = ref := by
      have h3 := hr.symm.trans href
      injection h3
    rw [e] at h2
    refine ⟨h2, fun hlt => ?_⟩
    rw [h2]
    exact congrArg (fun v => Result.ok v []) (Nat.mod_eq_of_lt hlt)

/-- Witness for C24: with the oscillators at 24 MHz and PLL2_REF routed to
"osc_sys", the three products 960 MHz, 1536 MHz and 1320 MHz are below 2^32
and are returned as they are. -/
theorem fixed_multiplier_frequency_witness :
    stfclock_get_frequency_jh7100 3 (board zero_regs) JH7100_CLK_PLL0_OUT
      = .ok (40 * clock_get_frequency (board zero_regs) "osc_sys") [] ∧
    stfclock_get_frequency_jh7100 3 (board zero_regs) JH7100_CLK_PLL1_OUT
      = .ok (64 * clock_get_frequency (board zero_regs) "osc_sys") [] ∧
    stfclock_get_frequency_jh7100 3 (board zero_regs) JH7100_CLK_PLL2_OUT
      = .ok (55 * 24000000) [] :=
  ⟨(fixed_multiplier_frequency (board zero_regs) 0).1.2 (by decide),
    (fixed_multiplier_frequency (board zero_regs) 0).2.1.2 (by decide),
    ((fixed_multiplier_frequency (board zero_regs) 0).2.2.2 24000000 (by decide)).2
      (by decide)⟩


/-- C25: in every register state the query for the JH7100 root CPUNDBUS_ROOT
returns what the query for the parent selected by bits 24..25 of register 0
returns (0 OSC_SYS, 1 PLL0_OUT, 2 PLL1_OUT, 3 PLL2_OUT), and a state `sc2`
that differs from `sc` only in the other bits of register 0 gives the same
result; the queries for the sys roots CPU_ROOT and BUS_ROOT return what the
query for PLL0_OUT, respectively PLL2_OUT, returns when bit 24 of the root's
register is set and what the query for OSC returns otherwise, and depend on
the register file through that bit alone. -/
theorem mux_is_pure_routing (sc sc2 : Softc) (fuel : Nat) (hfuel : 4 ≤ fuel)
    (hclk : sc2.clock_frequency = sc.clock_frequency) :
    (stfclock_get_frequency_jh7100 fuel sc JH7100_CLK_CPUNDBUS_ROOT
        = stfclock_get_frequency_jh7100 fuel sc
            (if HREAD4 sc 0 / 2 ^ 24 % 4 = 1 then JH7100_CLK_PLL0_OUT
              else if HREAD4 sc 0 / 2 ^ 24 % 4 = 2 then JH7100_CLK_PLL1_OUT
              else if HREAD4 sc 0 / 2 ^ 24 % 4 = 3 then JH7100_CLK_PLL2_OUT
              else JH7100_CLK_OSC_SYS)) ∧
    ((∀ r, r ≠ 0 → HREAD4 sc2 r = HREAD4 sc r) →
      HREAD4 sc2 0 / 2 ^ 24 % 4 = HREAD4 sc 0 / 2 ^ 24 % 4 →
      stfclock_get_frequency_jh7100 fuel sc2 JH7100_CLK_CPUNDBUS_ROOT
        = stfclock_get_frequency_jh7100 fuel sc JH7100_CLK_CPUNDBUS_ROOT) ∧
    (stfclock_get_frequency_jh7110_sys fuel sc JH7110_SYSCLK_CPU_ROOT
        = stfclock_get_frequency_jh7110_sys fuel sc
            (if (HREAD4 sc 0).testBit 24 then JH7110_SYSCLK_PLL0_OUT
              else JH7110_SYSCLK_OSC)) ∧
    (stfclock_get_frequency_jh7110_sys fuel sc JH7110_SYSCLK_BUS_ROOT
        = stfclock_get_frequency_jh7110_sys fuel sc
            (if (HREAD4 sc (JH7110_SYSCLK_BUS_ROOT * 4)).testBit 24
              then JH7110_SYSCLK_PLL2_OUT else JH7110_SYSCLK_OSC)) ∧
    ((HREAD4 sc2 0).testBit 24 = (HREAD4 sc 0).testBit 24 →
      stfclock_get_frequency_jh7110_sys fuel sc2 JH7110_SYSCLK_CPU_ROOT
        = stfclock_get_frequency_jh7110_sys fuel sc JH7110_SYSCLK_CPU_ROOT) ∧
    ((HREAD4 sc2 (JH7110_SYSCLK_BUS_ROOT * 4)).testBit 24
        = (HREAD4 sc (JH7110_SYSCLK_BUS_ROOT * 4)).testBit 24 →
      stfclock_get_frequency_jh7110_sys fuel sc2 JH7110_SYSCLK_BUS_ROOT
        = stfclock_get_frequency_jh7110_sys fuel sc JH7110_SYSCLK_BUS_ROOT) := by
  obtain ⟨k, rfl⟩ : ∃ k, fuel = k + 4 := ⟨fuel - 4, by omega⟩
  have hc := clock_get_frequency_congr hclk
  have r0 : jh7100_rank JH7100_CLK_PLL0_OUT < k + 3 :=
    Nat.lt_of_lt_of_le (by decide : jh7100_rank JH7100_CLK_PLL0_OUT < 3) (Nat.le_add_left _ _)
  have r1 : jh7100_rank JH7100_CLK_PLL1_OUT < k + 3 :=
    Nat.lt_of_lt_of_le (by decide : jh7100_rank JH7100_CLK_PLL1_OUT < 3) (Nat.le_add_left _ _)
  have r2 : jh7100_rank JH7100_CLK_PLL2_OUT < k + 3 :=
    Nat.lt_of_lt_of_le (by decide : jh7100_rank JH7100_CLK_PLL2_OUT < 3) (Nat.le_add_left _ _)
  have r3 : jh7100_rank JH7100_CLK_OSC_SYS < k + 3 :=
    Nat.lt_of_lt_of_le (by decide : jh7100_rank JH7100_CLK_OSC_SYS < 3) (Nat.le_add_left _ _)
  have s0 : jh7110_sys_rank JH7110_SYSCLK_PLL0_OUT < k + 3 :=
    Nat.lt_of_lt_of_le (by decide : jh7110_sys_rank JH7110_SYSCLK_PLL0_OUT < 3)
      (Nat.le_add_left _ _)
  have s2 : jh7110_sys_rank JH7110_SYSCLK_PLL2_OUT < k + 3 :=
    Nat.lt_of_lt_of_le (by decide : jh7110_sys_rank JH7110_SYSCLK_PLL2_OUT < 3)
      (Nat.le_add_left _ _)
  have s3 : jh7110_sys_rank JH7110_SYSCLK_OSC < k + 3 :=
    Nat.lt_of_lt_of_le (by decide : jh7110_sys_rank JH7110_SYSCLK_OSC < 3)
      (Nat.le_add_left _ _)
  refine ⟨?_, fun hother hsel => ?_, ?_, ?_, fun hbit => ?_, fun hbit => ?_⟩
  · rw [jh7100_cpundbus_root sc (k + 3)]
    split_ifs
    · exact (jh7100_fuel_succ sc _ _ r0).symm
    · exact (jh7100_fuel_succ sc _ _ r1).symm
    · exact (jh7100_fuel_succ sc _ _ r2).symm
    · exact (jh7100_fuel_succ sc _ _ r3).symm
  · rw [jh7100_cpundbus_root sc2 (k + 3), jh7100_cpundbus_root sc (k + 3), hsel]
    split_ifs
    · rw [(jh7100_pll01 sc2 (k + 1)).1, (jh7100_pll01 sc (k + 1)).1, hc]
    · rw [(jh7100_pll01 sc2 (k + 1)).2, (jh7100_pll01 sc (k + 1)).2, hc]
    · rw [jh7100_pll2_out sc2 k, jh7100_pll2_out sc k, hc,
        hother (JH7100_CLK_PLL2_REF * 4) (by decide)]
    · rw [(jh7100_osc sc2 (k + 2)).1, (jh7100_osc sc (k + 2)).1, hc]
  · rw [(jh7110_sys_roots sc (k + 3)).1]
    split_ifs
    · exact (jh7110_sys_fuel_succ sc _ _ s0).symm
    · exact (jh7110_sys_fuel_succ sc _ _ s3).symm
  · rw [(jh7110_sys_roots sc (k + 3)).2]
    split_ifs
    · exact (jh7110_sys_fuel_succ sc _ _ s2).symm
    · exact (jh7110_sys_fuel_succ sc _ _ s3).symm
  · rw [(jh7110_sys_roots sc2 (k + 3)).1, (jh7110_sys_roots sc (k + 3)).1, hbit]
    split_ifs
    · rw [(jh7110_sys_external_query sc2 (k + 2)).2.1,
        (jh7110_sys_external_query sc (k + 2)).2.1, hc]
    · rw [(jh7110_sys_external_query sc2 (k + 2)).1,
        (jh7110_sys_external_query sc (k + 2)).1, hc]
  · rw [(jh7110_sys_roots sc2 (k + 3)).2, (jh7110_sys_roots sc (k + 3)).2, hbit]
    split_ifs
    · rw [(jh7110_sys_external_query sc2 (k + 2)).2.2.2,
        (jh7110_sys_external_query sc (k + 2)).2.2.2, hc]
    · rw [(jh7110_sys_external_query sc2 (k + 2)).1,
        (jh7110_sys_external_query sc (k + 2)).1, hc]

/-- Witness for C25: register 0 reads 0x03000001 in one state and
0x83abcdef in the other (same bits 24..25, other divisor and gate bits),
every other register reads 0x03000001; both states route CPUNDBUS_ROOT to
PLL2_OUT, and CPU_ROOT of the sys variant to PLL0_OUT. -/
theorem mux_is_pure_routing_witness :
    stfclock_get_frequency_jh7100 7 (board (regs_with_first 0x03000001 0x03000001))
        JH7100_CLK_CPUNDBUS_ROOT
      = stfclock_get_frequency_jh7100 7 (board (regs_with_first 0x03000001 0x03000001))
          JH7100_CLK_PLL2_OUT ∧
    stfclock_get_frequency_jh7100 7 (board (regs_with_first 0x83abcdef 0x03000001))
        JH7100_CLK_CPUNDBUS_ROOT
      = stfclock_get_frequency_jh7100 7 (board (regs_with_first 0x03000001 0x03000001))
          JH7100_CLK_CPUNDBUS_ROOT ∧
    stfclock_get_frequency_jh7110_sys 7 (board (regs_with_first 0x83abcdef 0x03000001))
        JH7110_SYSCLK_CPU_ROOT
      = stfclock_get_frequency_jh7110_sys 7 (board (regs_with_first 0x03000001 0x03000001))
          JH7110_SYSCLK_CPU_ROOT ∧
    stfclock_get_frequency_jh7110_sys 7 (board (regs_with_first 0x83abcdef 0x03000001))
        JH7110_SYSCLK_BUS_ROOT
      = stfclock_get_frequency_jh7110_sys 7 (board (regs_with_first 0x03000001 0x03000001))
          JH7110_SYSCLK_BUS_ROOT :=
  ⟨(mux_is_pure_routing (board (regs_with_first 0x03000001 0x03000001))
      (board (regs_with_first 0x83abcdef 0x03000001)) 7 (by decide) rfl).1,
    (mux_is_pure_routing (board (regs_with_first 0x03000001 0x03000001))
      (board (regs_with_first 0x83abcdef 0x03000001)) 7 (by decide) rfl).2.1
      (fun r hr => by simp [HREAD4, board, regs_with_first, hr]) (by decide),
    (mux_is_pure_routing (board (regs_with_first 0x03000001 0x03000001))
      (board (regs_with_first 0x83abcdef 0x03000001)) 7 (by decide) rfl).2.2.2.2.1
      (by decide),
    (mux_is_pure_routing (board (regs_with_first 0x03000001 0x03000001))
      (board (regs_with_first 0x83abcdef 0x03000001)) 7 (by decide) rfl).2.2.2.2.2
      (by decide)⟩

/-- C26: in every variant the frequency query, run as an operation on the
controller, ends (JH7100 with a budget of 7, aon 4, sys 6; the PLL and stg
queries do not recurse) and the controller `m2` it ends on, also at an
executed division by zero, has the registers and the clock inputs of the
controller `m` it started on and no further write; its outcome is that of
the resolver as a function of the controller state, so that a later query
for any `idx2` gives on `m2` the outcome it gives on `m`. -/
theorem query_keeps_state (m : Machine) (idx idx2 fuel : Nat) :
    ((7 ≤ fuel → ∃ m2, (stfclock_get_frequency_jh7100_run fuel m idx).machine? = some m2) ∧
      (stfclock_get_frequency_jh7100_run fuel m idx).result m
        = stfclock_get_frequency_jh7100 fuel m.sc idx ∧
      ∀ m2, (stfclock_get_frequency_jh7100_run fuel m idx).machine? = some m2 →
        m2.sc = m.sc ∧ m2.writes = m.writes ∧
        (stfclock_get_frequency_jh7100_run fuel m2 idx2).result m2
          = (stfclock_get_frequency_jh7100_run fuel m idx2).result m) ∧
    ((4 ≤ fuel →
        ∃ m2, (stfclock_get_frequency_jh7110_aon_run fuel m idx).machine? = some m2) ∧
      (stfclock_get_frequency_jh7110_aon_run fuel m idx).result m
        = stfclock_get_frequency_jh7110_aon fuel m.sc idx ∧
      ∀ m2, (stfclock_get_frequency_jh7110_aon_run fuel m idx).machine? = some m2 →
        m2.sc = m.sc ∧ m2.writes = m.writes ∧
        (stfclock_get_frequency_jh7110_aon_run fuel m2 idx2).result m2
          = (stfclock_get_frequency_jh7110_aon_run fuel m idx2).result m) ∧
    ((∃ m2, (stfclock_get_frequency_jh7110_pll_run m idx).machine? = some m2) ∧
      (stfclock_get_frequency_jh7110_pll_run m idx).result m
        = stfclock_get_frequency_jh7110_pll m.sc idx ∧
      ∀ m2, (stfclock_get_frequency_jh7110_pll_run m idx).machine? = some m2 →
        m2.sc = m.sc ∧ m2.writes = m.writes ∧
        (stfclock_get_frequency_jh7110_pll_run m2 idx2).result m2
          = (stfclock_get_frequency_jh7110_pll_run m idx2).result m) ∧
    ((∃ m2, (stfclock_get_frequency_jh7110_stg_run m idx).machine? = some m2) ∧
      (stfclock_get_frequency_jh7110_stg_run m idx).result m
        = stfclock_get_frequency_jh7110_stg m.sc idx ∧
      ∀ m2, (stfclock_get_frequency_jh7110_stg_run m idx).machine? = some m2 →
        m2.sc = m.sc ∧ m2.writes = m.writes ∧
        (stfclock_get_frequency_jh7110_stg_run m2 idx2).result m2
          = (stfclock_get_frequency_jh7110_stg_run m idx2).result m) ∧
    ((6 ≤ fuel →
        ∃ m2, (stfclock_get_frequency_jh7110_sys_run fuel m idx).machine? = some m2) ∧
      (stfclock_get_frequency_jh7110_sys_run fuel m idx).result m
        = stfclock_get_frequency_jh7110_sys fuel m.sc idx ∧
      ∀ m2, (stfclock_get_frequency_jh7110_sys_run fuel m idx).machine? = some m2 →
        m2.sc = m.sc ∧ m2.writes = m.writes ∧
        (stfclock_get_frequency_jh7110_sys_run fuel m2 idx2).result m2
          = (stfclock_get_frequency_jh7110_sys_run fuel m idx2).result m) := by
  refine ⟨⟨fun hf => ?_, jh7100_run_result m fuel idx, fun m2 h2 => ?_⟩,
    ⟨fun hf => ?_, jh7110_aon_run_result m fuel idx, fun m2 h2 => ?_⟩,
    ⟨?_, jh7110_pll_run_result m idx, fun m2 h2 => ?_⟩,
    ⟨⟨_, rfl⟩, jh7110_stg_run_result m idx, fun m2 h2 => ?_⟩,
    ⟨fun hf => ?_, jh7110_sys_run_result m fuel idx, fun m2 h2 => ?_⟩⟩
  · refine Run.result_ne_out_of_fuel (m := m) ?_
    rw [jh7100_run_result]
    exact jh7100_returns m.sc fuel idx
      (Nat.lt_of_le_of_lt (jh7100_rank_le idx) (Nat.lt_of_succ_le hf))
  · obtain ⟨hsc, hw⟩ := jh7100_run_keeps m fuel idx m2 h2
    exact ⟨hsc, hw, by rw [jh7100_run_result, jh7100_run_result, hsc]⟩
  · refine Run.result_ne_out_of_fuel (m := m) ?_
    rw [jh7110_aon_run_result]
    exact jh7110_aon_returns m.sc fuel idx
      (Nat.lt_of_le_of_lt (jh7110_aon_rank_le idx) (Nat.lt_of_succ_le hf))
  · obtain ⟨hsc, hw⟩ := jh7110_aon_run_keeps m fuel idx m2 h2
    exact ⟨hsc, hw, by rw [jh7110_aon_run_result, jh7110_aon_run_result, hsc]⟩
  · exact jh7110_pll_run_ends m idx
  · obtain ⟨hsc, hw⟩ := jh7110_pll_run_keeps m idx m2 h2
    exact ⟨hsc, hw, by rw [jh7110_pll_run_result, jh7110_pll_run_result, hsc]⟩
  · cases h2
    exact ⟨rfl, rfl, by rw [jh7110_stg_run_result, jh7110_stg_run_result]; rfl⟩
  · refine Run.result_ne_out_of_fuel (m := m) ?_
    rw [jh7110_sys_run_result]
    exact jh7110_sys_returns m.sc fuel idx
      (Nat.lt_of_le_of_lt (jh7110_sys_rank_le idx) (Nat.lt_of_succ_le hf))
  · obtain ⟨hsc, hw⟩ := jh7110_sys_run_keeps m fuel idx m2 h2
    exact ⟨hsc, hw, by rw [jh7110_sys_run_result, jh7110_sys_run_result, hsc]⟩

/-- Witness for C26: on a controller whose registers read zero, the JH7100
query for PERH0_SRC stops at its division by zero; the JH7100 query for the
unknown identifier 1000 and the aon query for GMAC0_RMII_RTX (zero divisor)
print their line and return, no write is made, and the later queries for
OSC_SYS and for GMAC0_TX_INV give the outcome they give at the start; the
sys query for TEMP_APB ends within 6 nested calls. -/
theorem query_keeps_state_witness :
    (∃ m2, (stfclock_get_frequency_jh7100_run 7 (Machine.start (board zero_regs))
        JH7100_CLK_PERH0_SRC).machine? = some m2) ∧
    ((printf (Machine.start (board zero_regs))
          (.unknown_clock "stfclock_get_frequency_jh7100" 1000)).writes = [] ∧
      (stfclock_get_frequency_jh7100_run 7
          (printf (Machine.start (board zero_regs))
            (.unknown_clock "stfclock_get_frequency_jh7100" 1000))
          JH7100_CLK_OSC_SYS).result
          (printf (Machine.start (board zero_regs))
            (.unknown_clock "stfclock_get_frequency_jh7100" 1000))
        = (stfclock_get_frequency_jh7100_run 7 (Machine.start (board zero_regs))
            JH7100_CLK_OSC_SYS).result (Machine.start (board zero_regs))) ∧
    ((printf (Machine.start (board zero_regs))
          (.zero_divisor_for "stfclock_get_frequency_jh7110_aon"
            JH7110_AONCLK_GMAC0_RMII_RTX)).writes = [] ∧
      (stfclock_get_frequency_jh7110_aon_run 7
          (printf (Machine.start (board zero_regs))
            (.zero_divisor_for "stfclock_get_frequency_jh7110_aon"
              JH7110_AONCLK_GMAC0_RMII_RTX))
          JH7110_AONCLK_GMAC0_TX_INV).result
          (printf (Machine.start (board zero_regs))
            (.zero_divisor_for "stfclock_get_frequency_jh7110_aon"
              JH7110_AONCLK_GMAC0_RMII_RTX))
        = (stfclock_get_frequency_jh7110_aon_run 7 (Machine.start (board zero_regs))
            JH7110_AONCLK_GMAC0_TX_INV).result (Machine.start (board zero_regs))) ∧
    (∃ m2, (stfclock_get_frequency_jh7110_sys_run 6 (Machine.start (board zero_regs))
        JH7110_SYSCLK_TEMP_APB).machine? = some m2) :=
  ⟨(query_keeps_state (Machine.start (board zero_regs)) JH7100_CLK_PERH0_SRC 0 7).1.1
      (by decide),
    ((query_keeps_state (Machine.start (board zero_regs)) 1000 JH7100_CLK_OSC_SYS
      7).1.2.2 _ rfl).2,
    ((query_keeps_state (Machine.start (board zero_regs)) JH7110_AONCLK_GMAC0_RMII_RTX
      JH7110_AONCLK_GMAC0_TX_INV 7).2.1.2.2 _ rfl).2,
    (query_keeps_state (Machine.start (board zero_regs)) JH7110_SYSCLK_TEMP_APB 0 6).2.2.2.2.1
      (by decide)⟩

/-- C27: in the JH7100, aon and sys variants, for every pair of identifiers
`id1`, `id2`, both values of `enable` and every register state, the enable
operation on `id2` returns (for sys: with a recursion budget of 2 or more)
and the frequency query for `id1` gives the same outcome, printed lines
included, on the state it leaves as on the state before it. -/
theorem gating_keeps_frequency (m : Machine) (id1 id2 : Nat) (enable : Bool)
    (fuel gfuel : Nat) :
    stfclock_get_frequency_jh7100 fuel (stfclock_enable_jh7100 m id2 enable).sc id1
      = stfclock_get_frequency_jh7100 fuel m.sc id1 ∧
    stfclock_get_frequency_jh7110_aon fuel (stfclock_enable_jh7110_aon m id2 enable).sc id1
      = stfclock_get_frequency_jh7110_aon fuel m.sc id1 ∧
    ∃ m2, stfclock_enable_jh7110_sys (gfuel + 2) m id2 enable = some m2 ∧
      stfclock_get_frequency_jh7110_sys fuel m2.sc id1
        = stfclock_get_frequency_jh7110_sys fuel m.sc id1 := by
  refine ⟨jh7100_same_fields_query (jh7100_enable_same_fields m id2 enable) fuel id1,
    jh7110_aon_same_fields_query (jh7110_aon_enable_same_fields m id2 enable) fuel id1, ?_⟩
  obtain ⟨m2, h2⟩ := jh7110_sys_enable_returns m id2 enable gfuel
  exact ⟨m2, h2, jh7110_sys_same_fields_query
    (jh7110_sys_enable_same_fields _ m id2 enable m2 h2) fuel id1⟩

/-- C28: in the aon and sys variants, for every 32-bit reset id, both values
of `assert`, every clock identifier and every register state, the frequency
query gives the same outcome on the state the reset operation leaves as on
the state before it; the byte offset `base + 4 * (idx / 32)` it writes is
above the register of every clock whose register word the resolver
decodes. -/
theorem reset_keeps_frequency (m : Machine) (idx : Nat) (assert : Bool) (cid fuel : Nat)
    (hidx : idx < 2 ^ 32) :
    stfclock_get_frequency_jh7110_aon fuel (stfclock_reset_jh7110_aon m idx assert).sc cid
      = stfclock_get_frequency_jh7110_aon fuel m.sc cid ∧
    stfclock_get_frequency_jh7110_sys fuel (stfclock_reset_jh7110_sys m idx assert).sc cid
      = stfclock_get_frequency_jh7110_sys fuel m.sc cid ∧
    (∀ c ∈ jh7110_aon_readers, c * 4 < JH7110_AONCLK_ASSERT_OFFSET + 4 * (idx / 32)) ∧
    (∀ c ∈ jh7110_sys_readers, c * 4 < JH7110_SYSCLK_ASSERT_OFFSET + 4 * (idx / 32)) :=
  ⟨jh7110_aon_reset_query m idx assert hidx fuel cid,
    jh7110_sys_reset_query m idx assert hidx fuel cid,
    fun c hc => Nat.lt_of_lt_of_le (readers_below_reset.1 c hc) (Nat.le_add_right _ _),
    fun c hc => Nat.lt_of_lt_of_le (readers_below_reset.2 c hc) (Nat.le_add_right _ _)⟩

/-- Witness for C28: asserting reset 4294967295 on a controller whose
registers read 0x03000002 leaves the frequency of the aon clock GMAC0_TX_INV
and of the sys clock TEMP_APB as they were. -/
theorem reset_keeps_frequency_witness :
    stfclock_get_frequency_jh7110_aon 7
        (stfclock_reset_jh7110_aon (Machine.start (board (uniform_regs 0x03000002)))
          4294967295 true).sc JH7110_AONCLK_GMAC0_TX_INV
      = stfclock_get_frequency_jh7110_aon 7 (board (uniform_regs 0x03000002))
          JH7110_AONCLK_GMAC0_TX_INV ∧
    stfclock_get_frequency_jh7110_sys 7
        (stfclock_reset_jh7110_sys (Machine.start (board (uniform_regs 0x03000002)))
          4294967295 true).sc JH7110_SYSCLK_TEMP_APB
      = stfclock_get_frequency_jh7110_sys 7 (board (uniform_regs 0x03000002))
          JH7110_SYSCLK_TEMP_APB :=
  ⟨(reset_keeps_frequency (Machine.start (board (uniform_regs 0x03000002))) 4294967295 true
      JH7110_AONCLK_GMAC0_TX_INV 7 (by decide)).1,
    (reset_keeps_frequency (Machine.start (board (uniform_regs 0x03000002))) 4294967295 true
      JH7110_SYSCLK_TEMP_APB 7 (by decide)).2.1⟩

/-- C29: in every variant the frequency query ends for every identifier
and every register state: with a recursion budget of 7 (JH7100), 4 (aon) or
6 (sys) nested calls or more it never runs out of budget, and a larger budget
does not change its outcome; the PLL and stg queries do not recurse. The
parent relation is acyclic: every parent the multiplexer, divider and fixed
multiplier statements recurse into has a strictly smaller rank than the
node itself. -/
theorem resolution_terminates (sc : Softc) (idx fuel : Nat) :
    ((7 ≤ fuel →
        stfclock_get_frequency_jh7100 fuel sc idx ≠ .out_of_fuel ∧
        stfclock_get_frequency_jh7100 fuel sc idx = stfclock_get_frequency_jh7100 7 sc idx) ∧
      (∀ reg mux parent, jh7100_mux_parent idx reg mux = some parent →
        jh7100_rank parent < jh7100_rank idx) ∧
      (∀ div parent d, jh7100_div_parent idx div = some (parent, d) →
        jh7100_rank parent < jh7100_rank idx) ∧
      jh7100_rank JH7100_CLK_OSC_SYS < jh7100_rank JH7100_CLK_PLL0_OUT ∧
      jh7100_rank JH7100_CLK_OSC_SYS < jh7100_rank JH7100_CLK_PLL1_OUT ∧
      jh7100_rank JH7100_CLK_PLL2_REF < jh7100_rank JH7100_CLK_PLL2_OUT) ∧
    ((4 ≤ fuel →
        stfclock_get_frequency_jh7110_aon fuel sc idx ≠ .out_of_fuel ∧
        stfclock_get_frequency_jh7110_aon fuel sc idx
          = stfclock_get_frequency_jh7110_aon 4 sc idx) ∧
      (∀ mux parent, jh7110_aon_mux_parent idx mux = some parent →
        jh7110_aon_rank parent < jh7110_aon_rank idx) ∧
      (∀ div parent d, jh7110_aon_div_parent idx div = some (parent, d) →
        jh7110_aon_rank parent < jh7110_aon_rank idx)) ∧
    ((6 ≤ fuel →
        stfclock_get_frequency_jh7110_sys fuel sc idx ≠ .out_of_fuel ∧
        stfclock_get_frequency_jh7110_sys fuel sc idx
          = stfclock_get_frequency_jh7110_sys 6 sc idx) ∧
      (∀ reg parent, jh7110_sys_mux_parent idx reg = some parent →
        jh7110_sys_rank parent < jh7110_sys_rank idx) ∧
      (∀ div parent d, jh7110_sys_div_parent idx div = some (parent, d) →
        jh7110_sys_rank parent < jh7110_sys_rank idx)) ∧
    stfclock_get_frequency_jh7110_pll sc idx ≠ .out_of_fuel ∧
    stfclock_get_frequency_jh7110_stg sc idx ≠ .out_of_fuel := by
  have r1 : jh7100_rank idx < 7 := Nat.lt_succ_of_le (jh7100_rank_le idx)
  have r2 : jh7110_aon_rank idx < 4 := Nat.lt_succ_of_le (jh7110_aon_rank_le idx)
  have r3 : jh7110_sys_rank idx < 6 := Nat.lt_succ_of_le (jh7110_sys_rank_le idx)
  refine ⟨⟨fun hf => ⟨?_, ?_⟩, fun _ _ _ h => jh7100_mux_rank h,
      fun _ _ _ h => jh7100_div_rank h, by decide, by decide, by decide⟩,
    ⟨fun hf => ⟨?_, ?_⟩, fun _ _ h => jh7110_aon_mux_rank h,
      fun _ _ _ h => jh7110_aon_div_rank h⟩,
    ⟨fun hf => ⟨?_, ?_⟩, fun _ _ h => jh7110_sys_mux_rank h,
      fun _ _ _ h => jh7110_sys_div_rank h⟩,
    jh7110_pll_returns sc idx, by simp [stfclock_get_frequency_jh7110_stg]⟩
  · exact jh7100_returns sc fuel idx (Nat.lt_of_lt_of_le r1 hf)
  · rw [jh7100_fuel_irrelevant sc idx fuel (Nat.lt_of_lt_of_le r1 hf),
      jh7100_fuel_irrelevant sc idx 7 r1]
  · exact jh7110_aon_returns sc fuel idx (Nat.lt_of_lt_of_le r2 hf)
  · rw [jh7110_aon_fuel_irrelevant sc idx fuel (Nat.lt_of_lt_of_le r2 hf),
      jh7110_aon_fuel_irrelevant sc idx 4 r2]
  · exact jh7110_sys_returns sc fuel idx (Nat.lt_of_lt_of_le r3 hf)
  · rw [jh7110_sys_fuel_irrelevant sc idx fuel (Nat.lt_of_lt_of_le r3 hf),
      jh7110_sys_fuel_irrelevant sc idx 6 r3]

/-- Witness for C29: with every register reading 0x03000001 the JH7100
query for GMAC_AHB, the aon query for GMAC0_TX_INV and the sys query for
TEMP_APB end within a budget of 9 nested calls, and the parents of JH7100
AHB_BUS and of sys TEMP_APB rank below them. -/
theorem resolution_terminates_witness :
    stfclock_get_frequency_jh7100 9 (board (uniform_regs 0x03000001)) JH7100_CLK_GMAC_AHB
      ≠ .out_of_fuel ∧
    stfclock_get_frequency_jh7110_aon 9 (board (uniform_regs 0x03000001))
        JH7110_AONCLK_GMAC0_TX_INV
      ≠ .out_of_fuel ∧
    stfclock_get_frequency_jh7110_sys 9 (board (uniform_regs 0x03000001))
        JH7110_SYSCLK_TEMP_APB
      ≠ .out_of_fuel ∧
    jh7100_rank JH7100_CLK_CPUNBUS_ROOT_DIV < jh7100_rank JH7100_CLK_AHB_BUS ∧
    jh7100_rank JH7100_CLK_PLL2_OUT < jh7100_rank JH7100_CLK_CPUNDBUS_ROOT ∧
    jh7110_aon_rank JH7110_AONCLK_GMAC0_RMII_RTX < jh7110_aon_rank JH7110_AONCLK_GMAC0_TX ∧
    jh7110_aon_rank JH7110_AONCLK_GMAC0_TX < jh7110_aon_rank JH7110_AONCLK_GMAC0_TX_INV ∧
    jh7110_sys_rank JH7110_SYSCLK_PLL0_OUT < jh7110_sys_rank JH7110_SYSCLK_CPU_ROOT ∧
    jh7110_sys_rank JH7110_SYSCLK_APB_BUS < jh7110_sys_rank JH7110_SYSCLK_TEMP_APB :=
  ⟨((resolution_terminates (board (uniform_regs 0x03000001)) JH7100_CLK_GMAC_AHB 9).1.1
      (by decide)).1,
    ((resolution_terminates (board (uniform_regs 0x03000001)) JH7110_AONCLK_GMAC0_TX_INV
      9).2.1.1 (by decide)).1,
    ((resolution_terminates (board (uniform_regs 0x03000001)) JH7110_SYSCLK_TEMP_APB
      9).2.2.1.1 (by decide)).1,
    (resolution_terminates (board zero_regs) JH7100_CLK_AHB_BUS 7).1.2.2.1 1
      JH7100_CLK_CPUNBUS_ROOT_DIV 1 rfl,
    (resolution_terminates (board zero_regs) JH7100_CLK_CPUNDBUS_ROOT 7).1.2.1 0 3
      JH7100_CLK_PLL2_OUT rfl,
    (resolution_terminates (board zero_regs) JH7110_AONCLK_GMAC0_TX 7).2.1.2.1 1
      JH7110_AONCLK_GMAC0_RMII_RTX rfl,
    (resolution_terminates (board zero_regs) JH7110_AONCLK_GMAC0_TX_INV 7).2.1.2.2 0
      JH7110_AONCLK_GMAC0_TX 1 rfl,
    (resolution_terminates (board zero_regs) JH7110_SYSCLK_CPU_ROOT 7).2.2.1.2.1 0x01000000
      JH7110_SYSCLK_PLL0_OUT rfl,
    (resolution_terminates (board zero_regs) JH7110_SYSCLK_TEMP_APB 7).2.2.1.2.2 2
      JH7110_SYSCLK_APB_BUS 2 rfl⟩

/-- Counterexample for C30: with every register reading 0x03000001 the
JH7100 query for GMAC_AHB passes through AHB_BUS, CPUNBUS_ROOT_DIV,
CPUNDBUS_ROOT, PLL2_OUT, PLL2_REF and OSC_AUD: a budget of 6 nested calls
(5 re-entries) runs out, a budget of 7 (6 re-entries) returns 1320 MHz. -/
theorem jh7100_six_reentries :
    stfclock_get_frequency_jh7100 6 (board (uniform_regs 0x03000001)) JH7100_CLK_GMAC_AHB
      = .out_of_fuel ∧
    stfclock_get_frequency_jh7100 7 (board (uniform_regs 0x03000001)) JH7100_CLK_GMAC_AHB
      = .ok 1320000000 [] := by
  decide

/-- C30 (amended): for every identifier and every register state the
frequency query re-enters itself at most 6 times in the JH7100 variant and
at most 5 times in the aon and sys variants (a budget of one more nested call
than that never runs out; aon already ends within 3 re-entries); the PLL and
stg queries do not re-enter. -/
theorem recursion_depth_bound (sc : Softc) (idx : Nat) :
    stfclock_get_frequency_jh7100 (6 + 1) sc idx ≠ .out_of_fuel ∧
    (stfclock_get_frequency_jh7110_aon (5 + 1) sc idx ≠ .out_of_fuel ∧
      stfclock_get_frequency_jh7110_aon (3 + 1) sc idx ≠ .out_of_fuel) ∧
    stfclock_get_frequency_jh7110_sys (5 + 1) sc idx ≠ .out_of_fuel ∧
    stfclock_get_frequency_jh7110_pll sc idx ≠ .out_of_fuel ∧
    stfclock_get_frequency_jh7110_stg sc idx ≠ .out_of_fuel :=
  ⟨jh7100_returns sc 7 idx (Nat.lt_succ_of_le (jh7100_rank_le idx)),
    ⟨jh7110_aon_returns sc 6 idx
        (Nat.lt_of_le_of_lt (jh7110_aon_rank_le idx) (by decide)),
      jh7110_aon_returns sc 4 idx (Nat.lt_succ_of_le (jh7110_aon_rank_le idx))⟩,
    jh7110_sys_returns sc 6 idx (Nat.lt_succ_of_le (jh7110_sys_rank_le idx)),
    jh7110_pll_returns sc idx, by simp [stfclock_get_frequency_jh7110_stg]⟩

/-- C31: for the JH7100 multiplexer GMACUSB_ROOT and every register state,
with `sel` the value of bits 24..25 of its register (byte offset 12): for
`sel = 3`, for which the `switch` has no label, and for `sel = 0` the query
returns the frequency of "osc_sys" and prints nothing, exactly what the query
for OSC_SYS returns; for `sel = 1` it returns what the query for PLL0_OUT
returns and for `sel = 2` what the query for PLL2_OUT returns. -/
theorem undefined_mux_value_defaults (sc : Softc) (fuel : Nat) (hfuel : 4 ≤ fuel) :
    ((HREAD4 sc 12 / 2 ^ 24 % 4 = 3 ∨ HREAD4 sc 12 / 2 ^ 24 % 4 = 0) →
      stfclock_get_frequency_jh7100 fuel sc JH7100_CLK_GMACUSB_ROOT
          = stfclock_get_frequency_jh7100 fuel sc JH7100_CLK_OSC_SYS ∧
        stfclock_get_frequency_jh7100 fuel sc JH7100_CLK_GMACUSB_ROOT
          = .ok (clock_get_frequency sc "osc_sys") []) ∧
    (HREAD4 sc 12 / 2 ^ 24 % 4 = 1 →
      stfclock_get_frequency_jh7100 fuel sc JH7100_CLK_GMACUSB_ROOT
        = stfclock_get_frequency_jh7100 fuel sc JH7100_CLK_PLL0_OUT) ∧
    (HREAD4 sc 12 / 2 ^ 24 % 4 = 2 →
      stfclock_get_frequency_jh7100 fuel sc JH7100_CLK_GMACUSB_ROOT
        = stfclock_get_frequency_jh7100 fuel sc JH7100_CLK_PLL2_OUT) := by
  obtain ⟨k, rfl⟩ : ∃ k, fuel = k + 4 := ⟨fuel - 4, by omega⟩
  have hoff : JH7100_CLK_GMACUSB_ROOT * 4 = 12 := rfl
  have hroot := jh7100_gmacusb_root sc (k + 3)
  rw [hoff] at hroot
  have r0 : jh7100_rank JH7100_CLK_PLL0_OUT < k + 3 :=
    Nat.lt_of_lt_of_le (by decide : jh7100_rank JH7100_CLK_PLL0_OUT < 3) (Nat.le_add_left _ _)
  have r2 : jh7100_rank JH7100_CLK_PLL2_OUT < k + 3 :=
    Nat.lt_of_lt_of_le (by decide : jh7100_rank JH7100_CLK_PLL2_OUT < 3) (Nat.le_add_left _ _)
  have r3 : jh7100_rank JH7100_CLK_OSC_SYS < k + 3 :=
    Nat.lt_of_lt_of_le (by decide : jh7100_rank JH7100_CLK_OSC_SYS < 3) (Nat.le_add_left _ _)
  refine ⟨fun hsel => ?_, fun hsel => ?_, fun hsel => ?_⟩
  · have h1 : ¬ HREAD4 sc 12 / 2 ^ 24 % 4 = 1 := by omega
    have h2 : ¬ HREAD4 sc 12 / 2 ^ 24 % 4 = 2 := by omega
    rw [hroot, if_neg h1, if_neg h2]
    exact ⟨(jh7100_fuel_succ sc _ _ r3).symm, (jh7100_osc sc (k + 2)).1⟩
  · rw [hroot, if_pos hsel]
    exact (jh7100_fuel_succ sc _ _ r0).symm
  · have h1 : ¬ HREAD4 sc 12 / 2 ^ 24 % 4 = 1 := by omega
    rw [hroot, if_neg h1, if_pos hsel]
    exact (jh7100_fuel_succ sc _ _ r2).symm

/-- Witness for C31: with GMACUSB_ROOT's register reading 0x03000000 the
query returns the 24 MHz of "osc_sys"; with 0x01000000 it returns the
960 MHz of PLL0_OUT and with 0x02000000 the 1320 MHz of PLL2_OUT. -/
theorem undefined_mux_value_defaults_witness :
    stfclock_get_frequency_jh7100 7 (board (uniform_regs 0x03000000)) JH7100_CLK_GMACUSB_ROOT
      = .ok (clock_get_frequency (board (uniform_regs 0x03000000)) "osc_sys") [] ∧
    stfclock_get_frequency_jh7100 7 (board (uniform_regs 0x01000000)) JH7100_CLK_GMACUSB_ROOT
      = stfclock_get_frequency_jh7100 7 (board (uniform_regs 0x01000000))
          JH7100_CLK_PLL0_OUT ∧
    stfclock_get_frequency_jh7100 7 (board (uniform_regs 0x02000000)) JH7100_CLK_GMACUSB_ROOT
      = stfclock_get_frequency_jh7100 7 (board (uniform_regs 0x02000000))
          JH7100_CLK_PLL2_OUT :=
  ⟨((undefined_mux_value_defaults (board (uniform_regs 0x03000000)) 7 (by decide)).1
      (Or.inl (by decide))).2,
    (undefined_mux_value_defaults (board (uniform_regs 0x01000000)) 7 (by decide)).2.1
      (by decide),
    (undefined_mux_value_defaults (board (uniform_regs 0x02000000)) 7 (by decide)).2.2
      (by decide)⟩

/-- C32: for every regmap content the post-divider the PLL query decodes is
`2 ^ shift` with `shift` the value of bits 28..29 of the register at
`base + 8` (PLL0) or `base + 4` (PLL1, PLL2); it is one of 1, 2, 4, 8 and
never 0. A query that reaches the field checks therefore returns 0 with the
line "zero divisor" exactly when the decoded fbdiv or prediv is 0. -/
theorem pll_post_divider_power_of_two (sc : Softc) (idx : Nat) (pll : PllId)
    (pllrm : Nat → Nat) (hidx : pll_of_idx idx = some pll)
    (hparent : clock_get_frequency_idx sc 0 ≠ 0) (hnode : 0 ≤ sc.of_parent)
    (hrm : sc.regmap_bynode sc.of_parent = some pllrm) :
    ((pll_read_fields pllrm (pll_base .pll0) .pll0).postdiv1
        = 2 ^ (regmap_read_4 pllrm (0x18 + 8) / 2 ^ 28 % 4) ∧
      (pll_read_fields pllrm (pll_base .pll1) .pll1).postdiv1
        = 2 ^ (regmap_read_4 pllrm (0x24 + 4) / 2 ^ 28 % 4) ∧
      (pll_read_fields pllrm (pll_base .pll2) .pll2).postdiv1
        = 2 ^ (regmap_read_4 pllrm (0x2c + 4) / 2 ^ 28 % 4)) ∧
    ((pll_read_fields pllrm (pll_base pll) pll).postdiv1 = 1 ∨
      (pll_read_fields pllrm (pll_base pll) pll).postdiv1 = 2 ∨
      (pll_read_fields pllrm (pll_base pll) pll).postdiv1 = 4 ∨
      (pll_read_fields pllrm (pll_base pll) pll).postdiv1 = 8) ∧
    (pll_read_fields pllrm (pll_base pll) pll).postdiv1 ≠ 0 ∧
    (stfclock_get_frequency_jh7110_pll sc idx
        = .ok 0 [.zero_divisor "stfclock_get_frequency_jh7110_pll"]
      ↔ (pll_read_fields pllrm (pll_base pll) pll).fbdiv = 0 ∨
        (pll_read_fields pllrm (pll_base pll) pll).prediv = 0) := by
  have hb := (pll_fields_bounds pllrm (pll_base pll) pll).2.2.2
  have hne : (pll_read_fields pllrm (pll_base pll) pll).postdiv1 ≠ 0 := by omega
  refine ⟨pll_postdiv1_decoded pllrm, hb, hne, ?_⟩
  rw [pll_query_eq sc hidx hparent hnode hrm]
  exact pll_output_rejects _ _ hne

/-- Witness for C32: PLL1 with shift field 3 and fbdiv = 0 is rejected with
the "zero divisor" line, and its decoded post-divider is 8. -/
theorem pll_post_divider_power_of_two_witness :
    (pll_read_fields (pll_regs .pll1 1 1 0 0 3 2) (pll_base .pll1) .pll1).postdiv1 = 8 ∧
    stfclock_get_frequency_jh7110_pll (board (pll_regs .pll1 1 1 0 0 3 2)) JH7110_CLK_PLL1_OUT
      = .ok 0 [.zero_divisor "stfclock_get_frequency_jh7110_pll"] :=
  ⟨(pll_post_divider_power_of_two (board (pll_regs .pll1 1 1 0 0 3 2)) JH7110_CLK_PLL1_OUT
      .pll1 (pll_regs .pll1 1 1 0 0 3 2) (by decide) (by decide) (by decide) rfl).1.2.1,
    (pll_post_divider_power_of_two (board (pll_regs .pll1 1 1 0 0 3 2)) JH7110_CLK_PLL1_OUT
      .pll1 (pll_regs .pll1 1 1 0 0 3 2) (by decide) (by decide) (by decide) rfl).2.2.2.mpr
      (Or.inl (by decide))⟩

/-- C33: for every parent frequency the clock framework returns (a
`uint32_t`) and every regmap content, with the fields the PLL query decodes:
the product `fbdiv * 1000` fits 32 bits, `frac * 1000` fits 64 bits, the
fractional contribution `frac * 1000 / 2^24` is at most 999, and
`parent / 1000 * (fbdiv * 1000 + frac_contribution)` is below 2^64, so no
step of the computation wraps. A query that passes the field checks returns
the quotient `spec_pll_output`, computed without any reduction, modulo
2^32. -/
theorem pll_arithmetic_width (sc : Softc) (pll : PllId) (pllrm : Nat → Nat) :
    (pll_read_fields pllrm (pll_base pll) pll).fbdiv * 1000 < 2 ^ 32 ∧
    (pll_read_fields pllrm (pll_base pll) pll).frac * 1000 < 2 ^ 64 ∧
    (pll_read_fields pllrm (pll_base pll) pll).frac * 1000 / 2 ^ 24 ≤ 999 ∧
    clock_get_frequency_idx sc 0 / 1000
        * ((pll_read_fields pllrm (pll_base pll) pll).fbdiv * 1000
          + (pll_read_fields pllrm (pll_base pll) pll).frac * 1000 / 2 ^ 24) < 2 ^ 64 ∧
    (∀ idx, pll_of_idx idx = some pll → clock_get_frequency_idx sc 0 ≠ 0 →
      0 ≤ sc.of_parent → sc.regmap_bynode sc.of_parent = some pllrm →
      (pll_read_fields pllrm (pll_base pll) pll).dacpd
        = (pll_read_fields pllrm (pll_base pll) pll).dsmpd →
      (pll_read_fields pllrm (pll_base pll) pll).fbdiv ≠ 0 →
      (pll_read_fields pllrm (pll_base pll) pll).prediv ≠ 0 →
      stfclock_get_frequency_jh7110_pll sc idx
        = .ok (spec_pll_output (clock_get_frequency_idx sc 0)
            (pll_read_fields pllrm (pll_base pll) pll) % 2 ^ 32) []) := by
  obtain ⟨b1, b2, -, -⟩ := pll_fields_bounds pllrm (pll_base pll) pll
  have hp := clock_get_frequency_idx_lt sc 0
  refine ⟨by omega, by omega, by omega, ?_, ?_⟩
  · have ha : clock_get_frequency_idx sc 0 / 1000 ≤ 4294967 := by omega
    have hb : (pll_read_fields pllrm (pll_base pll) pll).fbdiv * 1000
        + (pll_read_fields pllrm (pll_base pll) pll).frac * 1000 / 2 ^ 24 ≤ 4095999 := by
      omega
    calc _ ≤ 4294967 * 4095999 := Nat.mul_le_mul ha hb
      _ < 2 ^ 64 := by decide
  · intro idx hidx hparent hnode hrm hmode hfb hpre
    exact pll_query_valid sc hidx hparent hnode hrm hmode hfb hpre

/-- Witness for C33: PLL0 in the reference configuration (24 MHz parent,
fbdiv 125, prediv 3, post-divider 1, integer mode) returns the exact
quotient 1 GHz, which is below 2^32. -/
theorem pll_arithmetic_width_witness :
    stfclock_get_frequency_jh7110_pll (board (pll_regs .pll0 1 1 125 0 0 3))
        JH7110_CLK_PLL0_OUT
      = .ok (spec_pll_output (clock_get_frequency_idx (board (pll_regs .pll0 1 1 125 0 0 3)) 0)
          (pll_read_fields (pll_regs .pll0 1 1 125 0 0 3) (pll_base .pll0) .pll0)
          % 2 ^ 32) [] ∧
    spec_pll_output (clock_get_frequency_idx (board (pll_regs .pll0 1 1 125 0 0 3)) 0)
        (pll_read_fields (pll_regs .pll0 1 1 125 0 0 3) (pll_base .pll0) .pll0)
      = 1000000000 :=
  ⟨(pll_arithmetic_width (board (pll_regs .pll0 1 1 125 0 0 3)) .pll0
      (pll_regs .pll0 1 1 125 0 0 3)).2.2.2.2 JH7110_CLK_PLL0_OUT (by decide) (by decide)
      (by decide) rfl (by decide) (by decide) (by decide),
    by decide⟩

/-- C34: in the sys variant, for every register state and every upstream
frequency, the query returns 0 for GMAC1_TX_INV (its parent GMAC1_TX is no
case label: "unknown clock" is printed for it) and for GMAC1_RMII_RTX (zero
divisor, or parent GMAC1_RMII_REFIN unknown); in the aon variant, whenever
bits 24..25 of GMAC0_TX's register are 0 (parent GMAC0_GTXCLK, no case
label), it returns 0 for GMAC0_TX and for GMAC0_TX_INV. -/
theorem missing_parent_resolves_to_zero (sc : Softc) (fuel : Nat) (hfuel : 3 ≤ fuel) :
    stfclock_get_frequency_jh7110_sys fuel sc JH7110_SYSCLK_GMAC1_TX_INV
      = .ok 0 [.unknown_clock "stfclock_get_frequency_jh7110_sys" JH7110_SYSCLK_GMAC1_TX] ∧
    (stfclock_get_frequency_jh7110_sys fuel sc JH7110_SYSCLK_GMAC1_RMII_RTX).freq? = some 0 ∧
    (HREAD4 sc (JH7110_AONCLK_GMAC0_TX * 4) / 2 ^ 24 % 4 = 0 →
      stfclock_get_frequency_jh7110_aon fuel sc JH7110_AONCLK_GMAC0_TX
          = .ok 0 [.unknown_clock "stfclock_get_frequency_jh7110_aon"
              JH7110_AONCLK_GMAC0_GTXCLK] ∧
        stfclock_get_frequency_jh7110_aon fuel sc JH7110_AONCLK_GMAC0_TX_INV
          = .ok 0 [.unknown_clock "stfclock_get_frequency_jh7110_aon"
              JH7110_AONCLK_GMAC0_GTXCLK]) := by
  obtain ⟨k, rfl⟩ : ∃ k, fuel = k + 3 := ⟨fuel - 3, by omega⟩
  refine ⟨jh7110_sys_gmac1_tx_inv sc (k + 1), ?_, fun hmux => ?_⟩
  · rw [jh7110_sys_gmac1_rmii_rtx sc (k + 1)]
    split_ifs <;> rfl
  · have htx : ∀ f, stfclock_get_frequency_jh7110_aon (f + 2) sc JH7110_AONCLK_GMAC0_TX
        = .ok 0 [.unknown_clock "stfclock_get_frequency_jh7110_aon"
            JH7110_AONCLK_GMAC0_GTXCLK] := by
      intro f
      rw [jh7110_aon_gmac0_tx sc (f + 1), if_neg (by rw [hmux]; exact fun h => h rfl)]
      exact jh7110_aon_gmac0_gtxclk sc f
    exact ⟨htx (k + 1), by rw [jh7110_aon_gmac0_tx_inv sc (k + 2)]; exact htx k⟩

/-- Witness for C34: with every register reading 0x00000005 (mux field 0,
divisor 5) and the clock inputs at 24 MHz the four queries return 0. -/
theorem missing_parent_resolves_to_zero_witness :
    (stfclock_get_frequency_jh7110_sys 6 (board (uniform_regs 5))
      JH7110_SYSCLK_GMAC1_TX_INV).freq? = some 0 ∧
    (stfclock_get_frequency_jh7110_sys 6 (board (uniform_regs 5))
      JH7110_SYSCLK_GMAC1_RMII_RTX).freq? = some 0 ∧
    (stfclock_get_frequency_jh7110_aon 6 (board (uniform_regs 5))
      JH7110_AONCLK_GMAC0_TX).freq? = some 0 ∧
    (stfclock_get_frequency_jh7110_aon 6 (board (uniform_regs 5))
      JH7110_AONCLK_GMAC0_TX_INV).freq? = some 0 :=
  ⟨congrArg Result.freq?
      (missing_parent_resolves_to_zero (board (uniform_regs 5)) 6 (by decide)).1,
    (missing_parent_resolves_to_zero (board (uniform_regs 5)) 6 (by decide)).2.1,
    congrArg Result.freq?
      ((missing_parent_resolves_to_zero (board (uniform_regs 5)) 6 (by decide)).2.2
        (by decide)).1,
    congrArg Result.freq?
      ((missing_parent_resolves_to_zero (board (uniform_regs 5)) 6 (by decide)).2.2
        (by decide)).2⟩

/-- C35: in the sys variant, for every register state and both values of
`enable`, the enable operation on GMAC1_GTXC makes exactly two writes, first
to the GMAC1_GTXCLK register (byte offset 400), then to its own register
(428); afterwards bit 31 of both registers equals `enable`, their other bits
and every other register are as before, and nothing is printed. The same
holds for GMAC0_GTXC with the GMAC0_GTXCLK register (432) and its own
(444). -/
theorem composite_gate_writes_two_registers (m : Machine) (enable : Bool) (fuel : Nat) :
    (∃ m2, stfclock_enable_jh7110_sys (fuel + 2) m JH7110_SYSCLK_GMAC1_GTXC enable = some m2 ∧
      m2.writes = m.writes ++ [(100 * 4, HREAD4 m2.sc (100 * 4)),
        (107 * 4, HREAD4 m2.sc (107 * 4))] ∧
      (∀ j, (HREAD4 m2.sc (100 * 4)).testBit j
        = if j = 31 then enable else (HREAD4 m.sc (100 * 4)).testBit j) ∧
      (∀ j, (HREAD4 m2.sc (107 * 4)).testBit j
        = if j = 31 then enable else (HREAD4 m.sc (107 * 4)).testBit j) ∧
      (∀ r, r ≠ 100 * 4 → r ≠ 107 * 4 → m2.sc.regs r = m.sc.regs r) ∧
      m2.log = m.log) ∧
    (∃ m2, stfclock_enable_jh7110_sys (fuel + 2) m JH7110_SYSCLK_GMAC0_GTXC enable = some m2 ∧
      m2.writes = m.writes ++ [(108 * 4, HREAD4 m2.sc (108 * 4)),
        (111 * 4, HREAD4 m2.sc (111 * 4))] ∧
      (∀ j, (HREAD4 m2.sc (108 * 4)).testBit j
        = if j = 31 then enable else (HREAD4 m.sc (108 * 4)).testBit j) ∧
      (∀ j, (HREAD4 m2.sc (111 * 4)).testBit j
        = if j = 31 then enable else (HREAD4 m.sc (111 * 4)).testBit j) ∧
      (∀ r, r ≠ 108 * 4 → r ≠ 111 * 4 → m2.sc.regs r = m.sc.regs r) ∧
      m2.log = m.log) := by
  constructor
  · obtain ⟨e1, e2, e3⟩ := set_gate_twice_effect m JH7110_SYSCLK_GMAC1_GTXCLK
      JH7110_SYSCLK_GMAC1_GTXC enable (by decide) (by decide) (by decide)
    refine ⟨_, (jh7110_sys_enable_gtxc m enable fuel).1, ?_, e2, e1,
      fun r h1 h2 => e3 r h2 h1, ?_⟩
    · exact set_gate_twice_writes m JH7110_SYSCLK_GMAC1_GTXCLK JH7110_SYSCLK_GMAC1_GTXC
        enable (by decide)
    · rw [set_gate_log, set_gate_log]
  · obtain ⟨e1, e2, e3⟩ := set_gate_twice_effect m JH7110_SYSCLK_GMAC0_GTXCLK
      JH7110_SYSCLK_GMAC0_GTXC enable (by decide) (by decide) (by decide)
    refine ⟨_, (jh7110_sys_enable_gtxc m enable fuel).2, ?_, e2, e1,
      fun r h1 h2 => e3 r h2 h1, ?_⟩
    · exact set_gate_twice_writes m JH7110_SYSCLK_GMAC0_GTXCLK JH7110_SYSCLK_GMAC0_GTXC
        enable (by decide)
    · rw [set_gate_log, set_gate_log]

/-- Witness for C35: switching GMAC1_GTXC on and GMAC0_GTXC off over
registers that read 0x00000007 leaves register 0 and the register of
GMAC1_PTP (byte offset 408) as they were. -/
theorem composite_gate_writes_two_registers_witness :
    (∃ m2, stfclock_enable_jh7110_sys 2 (Machine.start (board (uniform_regs 7)))
        JH7110_SYSCLK_GMAC1_GTXC true = some m2 ∧
      m2.sc.regs 408 = (Machine.start (board (uniform_regs 7))).sc.regs 408) ∧
    (∃ m2, stfclock_enable_jh7110_sys 2 (Machine.start (board (uniform_regs 7)))
        JH7110_SYSCLK_GMAC0_GTXC false = some m2 ∧
      m2.sc.regs 0 = (Machine.start (board (uniform_regs 7))).sc.regs 0) :=
  ⟨match (composite_gate_writes_two_registers (Machine.start (board (uniform_regs 7)))
        true 0).1 with
    | ⟨m2, h, _, _, _, hr, _⟩ => ⟨m2, h, hr 408 (by decide) (by decide)⟩,
    match (composite_gate_writes_two_registers (Machine.start (board (uniform_regs 7)))
        false 0).2 with
    | ⟨m2, h, _, _, _, hr, _⟩ => ⟨m2, h, hr 0 (by decide) (by decide)⟩⟩

/-- Counterexample for C36: a node compatible with "starfive,jh7110-syscrg"
that has one register range is accepted by `stfclock_match`; when
`bus_space_map` fails (returns 12) on it, `stfclock_attach` prints
": can't map registers" and returns with every function pointer still
NULL and nothing registered. -/
theorem attach_map_failure_binds_nothing :
    stfclock_match (fdt_node ["starfive,jh7110-syscrg"] 1 12) = 1 ∧
    stfclock_attach (fdt_node ["starfive,jh7110-syscrg"] 1 12) AttachState.zero
      = .returned
          { AttachState.zero with console := [": can't map registers"] } := by
  decide

/-- C36 (amended): for every node `stfclock_match` accepts, the assertion in
`stfclock_attach` never fails. When the node has no register range or its
first range maps, attach binds the frequency, set-frequency and enable
operations of exactly one variant `v`, that of the first tag in the order
jh7100-clkgen, jh7110-aoncrg, jh7110-pll, jh7110-stgcrg, jh7110-syscrg the
node is compatible with, and registers the clock device; it binds and
registers the reset operation of `v` exactly when `v` is aon, stg or sys.
When the first range does not map it prints ": can't map registers" and
returns without binding anything. -/
theorem attach_binds_first_variant (faa : fdt_attach_args) (sc : AttachState)
    (hmatch : stfclock_match faa ≠ 0) :
    (∀ s, stfclock_attach faa sc ≠ .assertion_failed s) ∧
    ((faa.fa_nreg < 1 ∨ faa.bus_space_map = 0) →
      ∃ v sc2, stfclock_attach faa sc = .returned sc2 ∧
        v = (if faa.OF_is_compatible "starfive,jh7100-clkgen" then Variant.jh7100
          else if faa.OF_is_compatible "starfive,jh7110-aoncrg" then Variant.jh7110_aon
          else if faa.OF_is_compatible "starfive,jh7110-pll" then Variant.jh7110_pll
          else if faa.OF_is_compatible "starfive,jh7110-stgcrg" then Variant.jh7110_stg
          else Variant.jh7110_sys) ∧
        sc2.cd_get_frequency = some v ∧
        sc2.cd_set_frequency = some v ∧
        sc2.cd_enable = some v ∧
        sc2.clock_registered = true ∧
        sc2.rd_reset
          = (if v = .jh7110_aon ∨ v = .jh7110_stg ∨ v = .jh7110_sys then some v
            else sc.rd_reset) ∧
        sc2.reset_registered
          = (if v = .jh7110_aon ∨ v = .jh7110_stg ∨ v = .jh7110_sys then true
            else sc.reset_registered)) ∧
    ((1 ≤ faa.fa_nreg ∧ faa.bus_space_map ≠ 0) →
      stfclock_attach faa sc
        = .returned { sc with console := sc.console ++ [": can't map registers"] }) := by
  have bound : ∀ s0 : AttachState, ∃ v sc2,
      (if (attach_bind faa s0).cd_get_frequency = none
        then Attach.assertion_failed (attach_bind faa s0)
        else Attach.returned { attach_bind faa s0 with clock_registered := true })
        = .returned sc2 ∧
      v = (if faa.OF_is_compatible "starfive,jh7100-clkgen" then Variant.jh7100
          else if faa.OF_is_compatible "starfive,jh7110-aoncrg" then Variant.jh7110_aon
          else if faa.OF_is_compatible "starfive,jh7110-pll" then Variant.jh7110_pll
          else if faa.OF_is_compatible "starfive,jh7110-stgcrg" then Variant.jh7110_stg
          else Variant.jh7110_sys) ∧
      sc2.cd_get_frequency = some v ∧ sc2.cd_set_frequency = some v ∧
      sc2.cd_enable = some v ∧ sc2.clock_registered = true ∧
      sc2.rd_reset
        = (if v = .jh7110_aon ∨ v = .jh7110_stg ∨ v = .jh7110_sys then some v
          else s0.rd_reset) ∧
      sc2.reset_registered
        = (if v = .jh7110_aon ∨ v = .jh7110_stg ∨ v = .jh7110_sys then true
          else s0.reset_registered) := by
    intro s0
    obtain ⟨v, hv, g1, g2, g3, g4, g5, -, -⟩ := attach_bind_matched faa s0 hmatch
    refine ⟨v, { attach_bind faa s0 with clock_registered := true }, ?_, hv, g1, g2, g3, rfl,
      g4, g5⟩
    rw [if_neg (by rw [g1]; exact Option.some_ne_none v)]
  refine ⟨fun s hs => ?_, fun hmap => ?_, fun hfail => ?_⟩
  · unfold stfclock_attach at hs
    by_cases hn : faa.fa_nreg ≥ 1
    · by_cases hm : faa.bus_space_map ≠ 0
      · simp only [if_pos hn, if_pos hm] at hs
        cases hs
      · simp only [if_pos hn, if_neg hm] at hs
        obtain ⟨v, sc2, h, -⟩ := bound { sc with mapped := true }
        rw [h] at hs
        cases hs
    · simp only [if_neg hn] at hs
      obtain ⟨v, sc2, h, -⟩ := bound sc
      rw [h] at hs
      cases hs
  · unfold stfclock_attach
    by_cases hn : faa.fa_nreg ≥ 1
    · have hm : ¬ faa.bus_space_map ≠ 0 := by
        rcases hmap with h | h
        · omega
        · exact fun hne => hne h
      simp only [if_pos hn, if_neg hm]
      exact bound { sc with mapped := true }
    · simp only [if_neg hn]
      exact bound sc
  · unfold stfclock_attach
    simp only [if_pos (show faa.fa_nreg ≥ 1 from hfail.1), if_pos hfail.2]

/-- Witness for C36: a node with the tags of the system and the always-on
generator and one register range that maps binds the always-on variant,
reset included; a PLL node without register range binds the PLL variant and
no reset; the node of the counterexample binds nothing. -/
theorem attach_binds_first_variant_witness :
    (∃ sc2, stfclock_attach
          (fdt_node ["starfive,jh7110-syscrg", "starfive,jh7110-aoncrg"] 1 0) AttachState.zero
        = .returned sc2 ∧
      sc2.cd_get_frequency = some .jh7110_aon ∧ sc2.cd_set_frequency = some .jh7110_aon ∧
      sc2.cd_enable = some .jh7110_aon ∧ sc2.rd_reset = some .jh7110_aon) ∧
    (∃ sc2, stfclock_attach (fdt_node ["starfive,jh7110-pll"] 0 0) AttachState.zero
        = .returned sc2 ∧
      sc2.cd_get_frequency = some .jh7110_pll ∧ sc2.rd_reset = none) ∧
    stfclock_attach (fdt_node ["starfive,jh7110-syscrg"] 1 12) AttachState.zero
      = .returned { AttachState.zero with
          console := AttachState.zero.console ++ [": can't map registers"] } :=
  ⟨match (attach_binds_first_variant
        (fdt_node ["starfive,jh7110-syscrg", "starfive,jh7110-aoncrg"] 1 0)
        AttachState.zero (by decide)).2.1 (Or.inr rfl) with
    | ⟨v, sc2, h, hv, g1, g2, g3, _, g5, _⟩ =>
      ⟨sc2, h, by rw [g1, hv]; decide, by rw [g2, hv]; decide, by rw [g3, hv]; decide,
        by rw [g5, hv]; decide⟩,
    match (attach_binds_first_variant (fdt_node ["starfive,jh7110-pll"] 0 0)
        AttachState.zero (by decide)).2.1 (Or.inl (by decide)) with
    | ⟨v, sc2, h, hv, g1, _, _, _, g5, _⟩ =>
      ⟨sc2, h, by rw [g1, hv]; decide, by rw [g5, hv]; decide⟩,
    (attach_binds_first_variant (fdt_node ["starfive,jh7110-syscrg"] 1 12)
      AttachState.zero (by decide)).2.2 ⟨by decide, by decide⟩⟩

/-- C37: `ibuf_setsize(buf, len)` returns -1 with the buffer unchanged
exactly when `len > buf->size`; otherwise it returns 0 and the buffer
afterwards has `wpos = len` and the `size`, `rpos`, data and remaining
members it had before. -/
theorem ibuf_setsize_result {Rest : Type} (buf : ibuf Rest) (len : Nat) :
    (((ibuf_setsize buf len).1 = -1 ∧ (ibuf_setsize buf len).2 = buf) ↔ len > buf.size) ∧
    ((ibuf_setsize buf len).1 = -1 ↔ len > buf.size) ∧
    (¬ len > buf.size →
      (ibuf_setsize buf len).1 = 0 ∧
      (ibuf_setsize buf len).2.wpos = len ∧
      (ibuf_setsize buf len).2.size = buf.size ∧
      (ibuf_setsize buf len).2.rpos = buf.rpos ∧
      (ibuf_setsize buf len).2.buf = buf.buf ∧
      (ibuf_setsize buf len).2.rest = buf.rest) := by
  unfold ibuf_setsize
  by_cases h : len > buf.size
  · simp [h]
  · simp [h]

/-- Witness for C37: on a buffer of size 8 with `wpos = 3`, length 8 is
accepted and moves `wpos` to 8; length 9 is refused. -/
theorem ibuf_setsize_result_witness :
    ((ibuf_setsize (⟨some [1, 2, 3], 8, 3, 1, ()⟩ : ibuf Unit) 8).1 = 0 ∧
      (ibuf_setsize (⟨some [1, 2, 3], 8, 3, 1, ()⟩ : ibuf Unit) 8).2.wpos = 8 ∧
      (ibuf_setsize (⟨some [1, 2, 3], 8, 3, 1, ()⟩ : ibuf Unit) 8).2.rpos = 1) ∧
    (ibuf_setsize (⟨some [1, 2, 3], 8, 3, 1, ()⟩ : ibuf Unit) 9).1 = -1 :=
  ⟨⟨((ibuf_setsize_result (⟨some [1, 2, 3], 8, 3, 1, ()⟩ : ibuf Unit) 8).2.2
        (by decide)).1,
      ((ibuf_setsize_result (⟨some [1, 2, 3], 8, 3, 1, ()⟩ : ibuf Unit) 8).2.2
        (by decide)).2.1,
      ((ibuf_setsize_result (⟨some [1, 2, 3], 8, 3, 1, ()⟩ : ibuf Unit) 8).2.2
        (by decide)).2.2.2.1⟩,
    (ibuf_setsize_result (⟨some [1, 2, 3], 8, 3, 1, ()⟩ : ibuf Unit) 9).2.1.mpr
      (by decide)⟩

end Stfclock
